import Mathlib

/-!
# goipmi: SDR / SEL decoding and the repository walk

A shallow embedding of the Go package `goipmi` (files `helper.go`, `errors.go`,
`msg.go`, `sdr.go`, `local.go`) and theorems about it.

Conventions of the embedding
* a Go `byte`/`uint8` is a `Fin 256`; a `[]byte` is a `List Byte`;
* a Go `int` is an `Int` kept in the signed 64-bit range by `wrapInt64`;
  bitwise operators act on the 64-bit two's-complement pattern;
* a Go `(value, error)` result is an `Except Error value`;
* a run-time panic (index or slice bound out of range) is `Error.runtimePanic`;
  it is never inspected, only propagated.
-/

namespace Goipmi

/-! ## Machine integers -/

/-- A Go `byte` / `uint8`. -/
abbrev Byte := Fin 256

/-- The 64-bit pattern of a Go `int` (conversion `uint64(x)`). -/
def toU64 (x : Int) : Nat := (x % 2 ^ 64).toNat

/-- The Go `int` whose 64-bit two's-complement pattern is `n % 2^64`. -/
def ofU64 (n : Nat) : Int :=
  if n % 2 ^ 64 < 2 ^ 63 then ((n % 2 ^ 64 : Nat) : Int) else ((n % 2 ^ 64 : Nat) : Int) - 2 ^ 64

/-- Result of an `int` operation whose mathematical value is `x`: wrap-around to 64 bits. -/
def wrapInt64 (x : Int) : Int := ofU64 (toU64 x)

/-- Go `a & b` on `int`. -/
def andInt (a b : Int) : Int := ofU64 (toU64 a &&& toU64 b)

/-- Go `a ^ b` on `int`. -/
def xorInt (a b : Int) : Int := ofU64 (toU64 a ^^^ toU64 b)

/-- Go `a << s` on `int` with an unsigned shift count: counts of 64 and more give 0. -/
def shlInt (a : Int) (s : Nat) : Int :=
  if 64 ≤ s then 0 else ofU64 (toU64 a * 2 ^ s)

/-- Go `uint(x) - 1` for an `int` x: conversion to `uint`, then wrap-around subtraction. -/
def uintPred (x : Int) : Nat := (toU64 x + (2 ^ 64 - 1)) % 2 ^ 64

/-! ## sdr.go: ConvertComplement -/

/-- Go `ConvertComplement(value, size int) int` of sdr.go. -/
def ConvertComplement (value size : Int) : Int :=
  if andInt value (shlInt 1 (uintPred size)) ≠ 0 then
    wrapInt64 (wrapInt64 (-(shlInt 1 (toU64 size))) + value)
  else
    value

/-! ## errors.go -/

/-- The error values of the package, and the run-time panic. -/
inductive Error where
  /-- The value `DataTooShort` of helper.go. -/
  | DataTooShort
  /-- The type `UnsupportedSDRTypeErr{sdrType, nextId}` of errors.go. -/
  | UnsupportedSDRTypeErr (sdrType : Byte) (nextId : Nat)
  /-- A non-zero `CompletionCode` returned as an error by `SendMessage`. -/
  | CompletionCode (code : Byte)
  /-- The error `errors.Errorf("invalid data len:%d < 2", n)` of msg.go. -/
  | invalidDataLen (n : Nat)
  /-- The error `errors.Errorf("unknown linearization %d", code)` of sdr.go. -/
  | unknownLinearization (code : Nat)
  /-- The error `errors.New("ipmi is close")` of local.go. -/
  | ipmiIsClose
  /-- The error `errors.Errorf("Faild to write command ..., errno is %d", rv)` of local.go. -/
  | sendErrno (rv : Int)
  /-- The error `errors.New("SEL has no entries")` of local.go. -/
  | selHasNoEntries
  /-- The value `io.ErrShortBuffer`, returned by `UnmarshalSelBinary` of sel.go. -/
  | ErrShortBuffer
  /-- A Go run-time panic (index or slice bound out of range); it unwinds every caller. -/
  | runtimePanic
  deriving DecidableEq

/-- Go `NewUnsupportedSDRTypeErr(sdrType, nextId)`. -/
def NewUnsupportedSDRTypeErr (sdrType : Byte) (nextId : Nat) : Error :=
  Error.UnsupportedSDRTypeErr sdrType nextId

/-- Go `IsUnsupportedSDRTypeErr(err)`: a type switch on the error. -/
def IsUnsupportedSDRTypeErr (err : Error) : Bool :=
  match err with
  | Error.UnsupportedSDRTypeErr _ _ => true
  | _ => false

/-! ## helper.go: ByteBuffer -/

/-- Go `ByteBuffer`: the bytes not yet consumed. -/
structure ByteBuffer where
  b : List Byte
  deriving DecidableEq

/-- Go `NewByteBuffer(b)`. -/
def NewByteBuffer (b : List Byte) : ByteBuffer := { b := b }

namespace ByteBuffer

/-- Go `checkLen(length)`: `DataTooShort` when `len(b.b) < length`. -/
def checkLen (b : ByteBuffer) (length : Int) : Except Error Unit :=
  if (b.b.length : Int) < length then Except.error Error.DataTooShort else Except.ok ()

/-- Go `PopString(length)`: the returned `(val, err)` and the receiver after the call;
the string is kept as its bytes. The method returns at a failed `checkLen` before it
assigns `b.b`. A negative `length` passes `checkLen` and panics in the slice expression
`b.b[:length]`, before the assignment as well. -/
def PopString (b : ByteBuffer) (length : Int) : Except Error (List Byte) × ByteBuffer :=
  match b.checkLen length with
  | Except.error e => (Except.error e, b)
  | Except.ok () =>
    if length < 0 then (Except.error Error.runtimePanic, b)
    else (Except.ok (b.b.take length.toNat), { b := b.b.drop length.toNat })

/-- Go `PopSlice(length)`: the returned `(data, err)` and the receiver after the call. -/
def PopSlice (b : ByteBuffer) (length : Int) : Except Error ByteBuffer × ByteBuffer :=
  match b.checkLen length with
  | Except.error e => (Except.error e, b)
  | Except.ok () =>
    if length < 0 then (Except.error Error.runtimePanic, b)
    else (Except.ok (NewByteBuffer (b.b.take length.toNat)), { b := b.b.drop length.toNat })

/-- Go `Len()`. -/
def Len (b : ByteBuffer) : Nat := b.b.length

/-- Go `PopUint8()`: the returned `(val, err)` and the receiver after the call. -/
def PopUint8 (b : ByteBuffer) : Except Error Byte × ByteBuffer :=
  match b.checkLen 1 with
  | Except.error e => (Except.error e, b)
  | Except.ok () =>
    match b.b with
    | b0 :: rest => (Except.ok b0, { b := rest })
    | _ => (Except.error Error.runtimePanic, b)

/-- Go `PopUint16()`: little-endian; the value is below 2^16. -/
def PopUint16 (b : ByteBuffer) : Except Error Nat × ByteBuffer :=
  match b.checkLen 2 with
  | Except.error e => (Except.error e, b)
  | Except.ok () =>
    match b.b with
    | b0 :: b1 :: rest => (Except.ok (b0.val ||| (b1.val <<< 8)), { b := rest })
    | _ => (Except.error Error.runtimePanic, b)

/-- Go `PopUint24()`: little-endian; the value is below 2^24. -/
def PopUint24 (b : ByteBuffer) : Except Error Nat × ByteBuffer :=
  match b.checkLen 3 with
  | Except.error e => (Except.error e, b)
  | Except.ok () =>
    match b.b with
    | b0 :: b1 :: b2 :: rest =>
      (Except.ok (b0.val ||| (b1.val <<< 8) ||| (b2.val <<< 16)), { b := rest })
    | _ => (Except.error Error.runtimePanic, b)

/-- Go `PopUint32()`: little-endian; the value is below 2^32. -/
def PopUint32 (b : ByteBuffer) : Except Error Nat × ByteBuffer :=
  match b.checkLen 4 with
  | Except.error e => (Except.error e, b)
  | Except.ok () =>
    match b.b with
    | b0 :: b1 :: b2 :: b3 :: rest =>
      (Except.ok (b0.val ||| (b1.val <<< 8) ||| (b2.val <<< 16) ||| (b3.val <<< 24)),
        { b := rest })
    | _ => (Except.error Error.runtimePanic, b)

end ByteBuffer

/-- The Go idiom `v, err := buff.Pop…(); if err != nil { return …, err }` of the
decoders: on an error the caller returns it (its buffer is not used again), otherwise
it goes on with the value and the advanced buffer. -/
def orReturn {α : Type} (r : Except Error α × ByteBuffer) : Except Error (α × ByteBuffer) :=
  match r with
  | (Except.ok v, buff) => Except.ok (v, buff)
  | (Except.error err, _) => Except.error err

/-! ## sdr.go: the common header -/

/-- Go `SdrCommonHeader`. -/
structure SdrCommonHeader where
  id : Nat := 0
  version : Byte := 0
  typ : Byte := 0
  length : Byte := 0
  deriving DecidableEq

/-- Go `CommonHeader(data)`. The error of the first `PopUint16` is overwritten by the
next assignment to `err` without being tested; on that failure `recordId` is the 0
that `PopUint16` returns with its error. -/
def CommonHeader (data : List Byte) : Except Error SdrCommonHeader :=
  let buff := NewByteBuffer data
  let (recordId, buff) :=
    match buff.PopUint16 with
    | (Except.ok v, buff) => (v, buff)
    | (Except.error _, buff) => (0, buff)
  match buff.PopUint8 with
  | (Except.error e, _) => Except.error e
  | (Except.ok recordVersion, buff) =>
    match buff.PopUint8 with
    | (Except.error e, _) => Except.error e
    | (Except.ok recordType, buff) =>
      match buff.PopUint8 with
      | (Except.error e, _) => Except.error e
      | (Except.ok recordPayloadLength, _) =>
        Except.ok { id := recordId, version := recordVersion, typ := recordType,
                    length := recordPayloadLength }

/-- Go `parseIdLen(len)`. -/
def parseIdLen (len : Byte) : Byte := Fin.ofNat (len.val &&& 0x1f)

/-- Go `deviceIdString(buff)`: a length byte, then that many (masked to 5 bits) bytes. -/
def deviceIdString (buff : ByteBuffer) : Except Error (List Byte × ByteBuffer) := do
  let (length, buff) ← orReturn buff.PopUint8
  let length := parseIdLen length
  orReturn (buff.PopString (length.val : Int))

/-! ## sdr.go: the compact sensor record -/

/-- Go `SdrCompactSensorRecord`. -/
structure SdrCompactSensorRecord where
  SdrCommonHeader : SdrCommonHeader := {}
  nextId : Nat := 0
  Data : List Byte := []
  ownerId : Byte := 0
  ownerLun : Byte := 0
  number : Byte := 0
  entityId : Byte := 0
  entityInstance : Byte := 0
  Id : List Byte := []
  reserved : Nat := 0
  oem : Byte := 0
  capabilities : Byte := 0
  initialization : Byte := 0
  sensorTypeCode : Byte := 0
  readingType : Byte := 0
  assertionMask : Nat := 0
  deassertionMask : Nat := 0
  discreteReadingMask : Nat := 0
  recordSharing : Nat := 0
  positiveGoingHysteresis : Byte := 0
  negativeGoingHysteresis : Byte := 0
  units1 : Byte := 0
  units2 : Byte := 0
  units3 : Byte := 0
  deriving DecidableEq

/-- Go `(*SdrCompactSensorRecord).UnmarshalBinary(data)`. The slice expression
`data[5:]` panics on fewer than 5 bytes. The error of the pop of `sensorTypeCode` is
overwritten by the pop of `readingType` without being tested. -/
def SdrCompactSensorRecord.UnmarshalBinary (s : SdrCompactSensorRecord) (data : List Byte) :
    Except Error SdrCompactSensorRecord := do
  if data.length < 5 then throw Error.runtimePanic
  let buff := NewByteBuffer (data.drop 5)
  let (ownerId, buff) ← orReturn buff.PopUint8
  let (ownerLun, buff) ← orReturn buff.PopUint8
  let ownerLun : Byte := Fin.ofNat (ownerLun.val &&& 0x3)
  let (number, buff) ← orReturn buff.PopUint8
  let (entityId, buff) ← orReturn buff.PopUint8
  let (entityInstance, buff) ← orReturn buff.PopUint8
  let (initialization, buff) ← orReturn buff.PopUint8
  let (capabilities, buff) ← orReturn buff.PopUint8
  let (sensorTypeCode, buff) :=
    match buff.PopUint8 with
    | (Except.ok v, buff) => (v, buff)
    | (Except.error _, buff) => ((0 : Byte), buff)
  let (readingType, buff) ← orReturn buff.PopUint8
  let (assertionMask, buff) ← orReturn buff.PopUint16
  let (deassertionMask, buff) ← orReturn buff.PopUint16
  let (discreteReadingMask, buff) ← orReturn buff.PopUint16
  let (units1, buff) ← orReturn buff.PopUint8
  let (units2, buff) ← orReturn buff.PopUint8
  let (units3, buff) ← orReturn buff.PopUint8
  let (recordSharing, buff) ← orReturn buff.PopUint16
  let (positiveGoingHysteresis, buff) ← orReturn buff.PopUint8
  let (negativeGoingHysteresis, buff) ← orReturn buff.PopUint8
  let (reserved, buff) ← orReturn buff.PopUint24
  let (oem, buff) ← orReturn buff.PopUint8
  let (id, _) ← deviceIdString buff
  return { s with
    ownerId := ownerId, ownerLun := ownerLun, number := number, entityId := entityId,
    entityInstance := entityInstance, initialization := initialization,
    capabilities := capabilities, sensorTypeCode := sensorTypeCode,
    readingType := readingType, assertionMask := assertionMask,
    deassertionMask := deassertionMask, discreteReadingMask := discreteReadingMask,
    units1 := units1, units2 := units2, units3 := units3, recordSharing := recordSharing,
    positiveGoingHysteresis := positiveGoingHysteresis,
    negativeGoingHysteresis := negativeGoingHysteresis, reserved := reserved, oem := oem,
    Id := id }

/-- Go `NewSdrCompactSensorRecord(data, nextId)`. The record returned together with a
non-nil error is dropped: its one caller path, `GetRepositorySdr`, returns nil then. -/
def NewSdrCompactSensorRecord (data : List Byte) (nextId : Nat) :
    Except Error SdrCompactSensorRecord := do
  let header ← CommonHeader data
  SdrCompactSensorRecord.UnmarshalBinary
    { SdrCommonHeader := header, Data := data, nextId := nextId } data

/-! ## sdr.go: the full sensor record -/

/-- Go `sdrRecordValueSensorType`. -/
def sdrRecordValueSensorType : List String := [
  "reserved",
  "Temperature", "Voltage", "Current", "Fan",
  "Physical Security", "Platform Security", "Processor",
  "Power Supply", "Power Unit", "Cooling Device", "Other",
  "Memory", "Drive Slot / Bay", "POST Memory Resize",
  "System Firmwares", "Event Logging Disabled", "Watchdog1",
  "System Event", "Critical Interrupt", "Button",
  "Module / Board", "Microcontroller", "Add-in Card",
  "Chassis", "Chip Set", "Other FRU", "Cable / Interconnect",
  "Terminator", "System Boot Initiated", "Boot Error",
  "OS Boot", "OS Critical Stop", "Slot / Connector",
  "System ACPI Power State", "Watchdog2", "Platform Alert",
  "Entity Presence", "Monitor ASIC", "LAN",
  "Management Subsys Health", "Battery", "Session Audit",
  "Version Change", "FRU State"]

/-- Go `sdrRecordValueBasicUnit`. -/
def sdrRecordValueBasicUnit : List String := [
  "unspecified",
  "degrees C", "degrees F", "degrees K",
  "Volts", "Amps", "Watts", "Joules",
  "Coulombs", "VA", "Nits",
  "lumen", "lux", "Candela",
  "kPa", "PSI", "Newton",
  "CFM", "RPM", "Hz",
  "microsecond", "millisecond", "second", "minute", "hour",
  "day", "week", "mil", "inches", "feet", "cu in", "cu feet",
  "mm", "cm", "m", "cu cm", "cu m", "liters", "fluid ounce",
  "radians", "steradians", "revolutions", "cycles",
  "gravities", "ounce", "pound", "ft-lb", "oz-in", "gauss",
  "gilberts", "henry", "millihenry", "farad", "microfarad",
  "ohms", "siemens", "mole", "becquerel", "PPM", "reserved",
  "Decibels", "DbA", "DbC", "gray", "sievert",
  "color temp deg K", "bit", "kilobit", "megabit", "gigabit",
  "byte", "kilobyte", "megabyte", "gigabyte", "word", "dword",
  "qword", "line", "hit", "miss", "retry", "reset",
  "overflow", "underrun", "collision", "packets", "messages",
  "characters", "error", "correctable error", "uncorrectable error"]

/-- Go `SdrFullSensorRecord`. The maps `threshold` and `hysteresis` are kept as
key/value lists in insertion order. -/
structure SdrFullSensorRecord where
  Id : List Byte := []
  SdrCommonHeader : SdrCommonHeader := {}
  ownerId : Byte := 0
  ownerLun : Byte := 0
  number : Byte := 0
  entityId : Byte := 0
  entityInstance : Byte := 0
  nextId : Nat := 0
  Data : List Byte := []
  initialization : List String := []
  capabilities : List String := []
  analogCharacteristic : List String := []
  sensorTypeCode : Byte := 0
  eventReadingTypeCode : Byte := 0
  assertionMask : Nat := 0
  deassertionMask : Nat := 0
  discreteReadingMask : Nat := 0
  units1 : Byte := 0
  units2 : Byte := 0
  units3 : Byte := 0
  analogDataFormat : Byte := 0
  rateUnit : Byte := 0
  modifierUnit : Byte := 0
  percentage : Byte := 0
  linearization : Byte := 0
  tolerance : Byte := 0
  m : Int := 0
  b : Int := 0
  accuracy : Int := 0
  accuracyExp : Int := 0
  k2 : Int := 0
  k1 : Int := 0
  sensorMinimumReading : Byte := 0
  nominalReading : Byte := 0
  normalMaximum : Byte := 0
  normalMinimum : Byte := 0
  sensorMaximumReading : Byte := 0
  threshold : List (String × Byte) := []
  hysteresis : List (String × Byte) := []
  reserved : Nat := 0
  oem : Byte := 0
  deriving DecidableEq

/-- The strings appended for the set bits of a flag byte, in the order of the `if`s. -/
def flagNames (v : Nat) (table : List (Nat × String)) : List String :=
  (table.filter (fun p => v &&& p.1 ≠ 0)).map (fun p => p.2)

/-- Go `(*SdrFullSensorRecord).decodeCapabilities(capabilities)`: the new value of
the field `capabilities`. -/
def SdrFullSensorRecord.decodeCapabilities (capabilities : Nat) : List String :=
  let c0 : List String := []
  let c1 := if capabilities &&& 0x80 ≠ 0 then c0 ++ ["ignore_sensor"] else c0
  let c2 := if capabilities &&& 0x40 ≠ 0 then c1 ++ ["auto_rearm"] else c1
  let c3 :=
    if capabilities &&& 0x30 = 0x00 then c2 ++ ["hysteresis_not_supported"]
    else if capabilities &&& 0x30 = 0x10 then c2 ++ ["hysteresis_readable"]
    else if capabilities &&& 0x30 = 0x20 then c2 ++ ["hysteresis_read_and_setable"]
    else if capabilities &&& 0x30 = 0x30 then c2 ++ ["hysteresis_fixed"]
    else c2
  if capabilities &&& 0x0C = 0x00 then c3 ++ ["threshold_not_supported"]
  else if capabilities &&& 0x0C = 0x08 then c3 ++ ["threshold_readable"]
  else if capabilities &&& 0x0C = 0x04 then c3 ++ ["threshold_read_and_setable"]
  else if capabilities &&& 0x0C = 0x0C then c3 ++ ["threshold_fixed"]
  else c3

/-- Go `(*SdrFullSensorRecord).UnmarshalBinary(data)`. The slice expression `data[5:]`
panics on fewer than 5 bytes. The `int` expressions combine values of at most 10 bits,
so they are computed on the natural numbers. -/
def SdrFullSensorRecord.UnmarshalBinary (s : SdrFullSensorRecord) (data : List Byte) :
    Except Error SdrFullSensorRecord := do
  if data.length < 5 then throw Error.runtimePanic
  let buff := NewByteBuffer (data.drop 5)
  let (ownerId, buff) ← orReturn buff.PopUint8
  let (ownerLun, buff) ← orReturn buff.PopUint8
  let ownerLun : Byte := Fin.ofNat (ownerLun.val &&& 0x3)
  let (number, buff) ← orReturn buff.PopUint8
  let (entityId, buff) ← orReturn buff.PopUint8
  let (entityInstance, buff) ← orReturn buff.PopUint8
  let (initialization, buff) ← orReturn buff.PopUint8
  let initialization := flagNames initialization.val
    [(0x40, "scanning"), (0x20, "events"), (0x10, "thresholds"), (0x08, "hysteresis"),
     (0x04, "type"), (0x02, "default_event_generation"), (0x01, "default_scanning")]
  let (c, buff) ← orReturn buff.PopUint8
  let capabilities := SdrFullSensorRecord.decodeCapabilities c.val
  let (sensorTypeCode, buff) ← orReturn buff.PopUint8
  let (eventReadingTypeCode, buff) ← orReturn buff.PopUint8
  let (assertionMask, buff) ← orReturn buff.PopUint16
  let (deassertionMask, buff) ← orReturn buff.PopUint16
  let (discreteReadingMask, buff) ← orReturn buff.PopUint16
  let (units1, buff) ← orReturn buff.PopUint8
  let (units2, buff) ← orReturn buff.PopUint8
  let (units3, buff) ← orReturn buff.PopUint8
  let analogDataFormat : Byte := Fin.ofNat ((units1.val >>> 6) &&& 0x3)
  let rateUnit : Byte := Fin.ofNat ((units1.val >>> 6) >>> 0x7)
  let modifierUnit : Byte := Fin.ofNat ((units1.val >>> 1) &&& 0x2)
  let percentage : Byte := Fin.ofNat (units1.val &&& 0x1)
  let (linearization, buff) ← orReturn buff.PopUint8
  let linearization : Byte := Fin.ofNat (linearization.val &&& 0x7f)
  let (m, buff) ← orReturn buff.PopUint8
  let (mTol, buff) ← orReturn buff.PopUint8
  let sm : Int := (((m.val &&& 0xff) ||| ((mTol.val &&& 0xc0) <<< 2) : Nat) : Int)
  let sm := ConvertComplement sm 10
  let tolerance : Byte := Fin.ofNat (mTol.val &&& 0x3f)
  let (b, buff) ← orReturn buff.PopUint8
  let (bAcc, buff) ← orReturn buff.PopUint8
  let sb : Int := (((b.val &&& 0xff) ||| ((bAcc.val &&& 0xc0) <<< 2) : Nat) : Int)
  let sb := ConvertComplement sb 10
  let (accAccexp, buff) ← orReturn buff.PopUint8
  let accuracy : Int := (((bAcc.val &&& 0x3f) ||| ((accAccexp.val &&& 0xf0) <<< 4) : Nat) : Int)
  let accuracyExp : Int := (((accAccexp.val &&& 0x0c) >>> 2 : Nat) : Int)
  let (rexpBexp, buff) ← orReturn buff.PopUint8
  let k2 : Int := (((rexpBexp.val &&& 0xf0) >>> 4 : Nat) : Int)
  let k2 := ConvertComplement k2 4
  let k1 : Int := ((rexpBexp.val &&& 0x0f : Nat) : Int)
  let k1 := ConvertComplement k1 4
  let (analogCharacteristics, buff) ← orReturn buff.PopUint8
  let analogCharacteristic := flagNames analogCharacteristics.val
    [(0x01, "nominal_reading"), (0x02, "normal_max"), (0x04, "normal_min")]
  let (nominalReading, buff) ← orReturn buff.PopUint8
  let (normalMaximum, buff) ← orReturn buff.PopUint8
  let (normalMinimum, buff) ← orReturn buff.PopUint8
  let (sensorMaximumReading, buff) ← orReturn buff.PopUint8
  let (sensorMinimumReading, buff) ← orReturn buff.PopUint8
  let (unr, buff) ← orReturn buff.PopUint8
  let (ucr, buff) ← orReturn buff.PopUint8
  let (unc, buff) ← orReturn buff.PopUint8
  let (lnr, buff) ← orReturn buff.PopUint8
  let (lcr, buff) ← orReturn buff.PopUint8
  let (lnc, buff) ← orReturn buff.PopUint8
  let (positiveGoing, buff) ← orReturn buff.PopUint8
  let (negativeGoing, buff) ← orReturn buff.PopUint8
  let (reserved, buff) ← orReturn buff.PopUint16
  let (oem, buff) ← orReturn buff.PopUint8
  let (id, _) ← deviceIdString buff
  return { s with
    ownerId := ownerId, ownerLun := ownerLun, number := number, entityId := entityId,
    entityInstance := entityInstance, initialization := initialization,
    capabilities := capabilities, sensorTypeCode := sensorTypeCode,
    eventReadingTypeCode := eventReadingTypeCode, assertionMask := assertionMask,
    deassertionMask := deassertionMask, discreteReadingMask := discreteReadingMask,
    units1 := units1, units2 := units2, units3 := units3,
    analogDataFormat := analogDataFormat, rateUnit := rateUnit,
    modifierUnit := modifierUnit, percentage := percentage,
    linearization := linearization, m := sm, tolerance := tolerance, b := sb,
    accuracy := accuracy, accuracyExp := accuracyExp, k2 := k2, k1 := k1,
    analogCharacteristic := analogCharacteristic, nominalReading := nominalReading,
    normalMaximum := normalMaximum, normalMinimum := normalMinimum,
    sensorMaximumReading := sensorMaximumReading,
    sensorMinimumReading := sensorMinimumReading,
    threshold := [("unr", unr), ("ucr", ucr), ("unc", unc), ("lnr", lnr), ("lcr", lcr),
                  ("lnc", lnc)],
    hysteresis := [("positive_going", positiveGoing), ("negative_going", negativeGoing)],
    reserved := reserved, oem := oem, Id := id }

/-- Go `NewSdrFullSensorRecord(data, nextId)`. The record returned together with a
non-nil error is dropped: its one caller path, `GetRepositorySdr`, returns nil then. -/
def NewSdrFullSensorRecord (data : List Byte) (nextId : Nat) :
    Except Error SdrFullSensorRecord := do
  let header ← CommonHeader data
  SdrFullSensorRecord.UnmarshalBinary
    { SdrCommonHeader := header, Data := data, nextId := nextId } data

/-- Go `UnitCode()`. -/
def SdrFullSensorRecord.UnitCode (s : SdrFullSensorRecord) : Byte := s.units2

/-- Go `Unit()`. -/
def SdrFullSensorRecord.Unit (s : SdrFullSensorRecord) : String :=
  if s.units2.val < sdrRecordValueBasicUnit.length % 256 then
    sdrRecordValueBasicUnit.getD s.units2.val ""
  else ""

/-- Go `SensorTypeCode()`. -/
def SdrFullSensorRecord.SensorTypeCode (s : SdrFullSensorRecord) : Byte := s.sensorTypeCode

/-- Go `SensorType()`. -/
def SdrFullSensorRecord.SensorType (s : SdrFullSensorRecord) : String :=
  if s.sensorTypeCode.val < sdrRecordValueSensorType.length % 256 then
    sdrRecordValueSensorType.getD s.sensorTypeCode.val ""
  else ""

/-- Go `SdrCommon`: the empty interface, holding one of the two record types. -/
inductive SdrCommon where
  | compact (r : SdrCompactSensorRecord)
  | full (r : SdrFullSensorRecord)
  deriving DecidableEq

/-- Go `SdrCommonFromData(recordData, nextId)`. -/
def SdrCommonFromData (recordData : List Byte) (nextId : Nat) : Except Error SdrCommon :=
  if recordData.length < 4 then Except.error Error.DataTooShort
  else
    let sdrType := recordData.getD 3 0
    if sdrType = 0x02 then
      (NewSdrCompactSensorRecord recordData nextId).map SdrCommon.compact
    else if sdrType = 0x01 then
      (NewSdrFullSensorRecord recordData nextId).map SdrCommon.full
    else
      Except.error (NewUnsupportedSDRTypeErr sdrType nextId)

/-! ## sdr.go: raw reading to value -/

/-- The float64 operations used by `ConvertSensorRawToValue`, over a carrier `F`:
conversion `float64(int)`, `+`, `*`, `/`, `math.Pow`, `math.Log`, `math.Log10`,
`math.Log2`, `math.Exp`, `math.Sqrt`, and the constant `1.0/3`. -/
structure Float64Ops (F : Type) where
  ofInt : Int → F
  add : F → F → F
  mul : F → F → F
  div : F → F → F
  pow : F → F → F
  log : F → F
  log10 : F → F
  log2 : F → F
  exp : F → F
  sqrt : F → F
  oneThird : F

/-- The identities of IEEE-754 arithmetic and of `math.Pow` on which the statements
about linear conversion rely; each holds without rounding: `Pow(10, 0) = 1`,
`0 * 1 = 0`, `1 * float64(n) = float64(n)`, `float64(n) * 1 = float64(n)` and
`float64(n) + 0 = float64(n)`. -/
structure Float64Ops.Exact {F : Type} (ops : Float64Ops F) : Prop where
  pow_zero : ops.pow (ops.ofInt 10) (ops.ofInt 0) = ops.ofInt 1
  zero_mul_one : ops.mul (ops.ofInt 0) (ops.ofInt 1) = ops.ofInt 0
  one_mul : ∀ n : Int, ops.mul (ops.ofInt 1) (ops.ofInt n) = ops.ofInt n
  mul_one : ∀ n : Int, ops.mul (ops.ofInt n) (ops.ofInt 1) = ops.ofInt n
  add_zero : ∀ n : Int, ops.add (ops.ofInt n) (ops.ofInt 0) = ops.ofInt n

/-- Go `DATA_FMT_UNSIGNED`. -/
def DATA_FMT_UNSIGNED : Byte := 0
/-- Go `DATA_FMT_1S_COMPLEMENT`. -/
def DATA_FMT_1S_COMPLEMENT : Byte := 1
/-- Go `DATA_FMT_2S_COMPLEMENT`. -/
def DATA_FMT_2S_COMPLEMENT : Byte := 2
/-- Go `DATA_FMT_NONE`. -/
def DATA_FMT_NONE : Byte := 3

/-- The first `switch` of `ConvertSensorRawToValue`: the raw value after the analog
data format is applied. The operands of the negation are within 0..127. -/
def applyAnalogDataFormat (analogDataFormat : Byte) (raw : Int) : Int :=
  if analogDataFormat = DATA_FMT_1S_COMPLEMENT then
    if andInt raw 0x80 ≠ 0 then -(xorInt (andInt raw 0x7f) 0x7f) else raw
  else if analogDataFormat = DATA_FMT_2S_COMPLEMENT then
    if andInt raw 0x80 ≠ 0 then -(xorInt (andInt raw 0x7f) 0x7f) - 1 else raw
  else raw

/-- Go `(*SdrFullSensorRecord).ConvertSensorRawToValue(raw)`. The linearization codes
are `L_LINEAR = 0` .. `L_CUBERT = 11`. -/
def SdrFullSensorRecord.ConvertSensorRawToValue {F : Type} (ops : Float64Ops F)
    (s : SdrFullSensorRecord) (raw : Int) : Except Error F :=
  let raw := applyAnalogDataFormat s.analogDataFormat raw
  let raw1 := ops.mul
    (ops.add (ops.mul (ops.ofInt s.m) (ops.ofInt raw))
      (ops.mul (ops.ofInt s.b) (ops.pow (ops.ofInt 10) (ops.ofInt s.k1))))
    (ops.pow (ops.ofInt 10) (ops.ofInt s.k2))
  match s.linearization.val &&& 0x7f with
  | 1 => Except.ok (ops.log raw1)
  | 2 => Except.ok (ops.log10 raw1)
  | 3 => Except.ok (ops.log2 raw1)
  | 4 => Except.ok (ops.exp raw1)
  | 5 => Except.ok (ops.pow (ops.ofInt 10) raw1)
  | 6 => Except.ok (ops.pow (ops.ofInt 2) raw1)
  | 7 => Except.ok (ops.div (ops.ofInt 1) raw1)
  | 8 => Except.ok (ops.pow raw1 (ops.ofInt 2))
  | 9 => Except.ok (ops.pow raw1 (ops.ofInt 3))
  | 10 => Except.ok (ops.sqrt raw1)
  | 11 => Except.ok (ops.pow raw1 ops.oneThird)
  | 0 => Except.ok raw1
  | code => Except.error (Error.unknownLinearization code)

/-! ## msg.go: requests and responses -/

/-- The request types of msg.go that implement the Go interface `Message`. -/
inductive Message where
  | GetSelEntryReq (Id : Nat) (Offset BytesToRead : Byte)
  | GetSelInfoReq
  | GetOem
  | ReserveSelReq
  | ReserveSdrRepositoryReq
  | GetSdrReq (ReservationId RecordId : Nat) (Offset BytesToRead : Byte)
  | GetSensorReadingReq (SensorNumber OwnerLun : Byte)
  deriving DecidableEq

/-- Go `NetworkFunctionSensorEvent`. -/
def NetworkFunctionSensorEvent : Byte := 0x04
/-- Go `NetworkFunctionApp`. -/
def NetworkFunctionApp : Byte := 0x06
/-- Go `NetworkFunctionStorge`. -/
def NetworkFunctionStorge : Byte := 0x0A
/-- Go `CommandGetReserveSDRRepo`. -/
def CommandGetReserveSDRRepo : Byte := 0x22
/-- Go `CommandGetSDR`. -/
def CommandGetSDR : Byte := 0x23
/-- Go `CommandGetSensorReading`. -/
def CommandGetSensorReading : Byte := 0x2d

/-- Go method `NetFn()` of each request type. -/
def Message.NetFn : Message → Byte
  | Message.GetSelEntryReq _ _ _ => NetworkFunctionStorge
  | Message.GetSelInfoReq => NetworkFunctionStorge
  | Message.GetOem => NetworkFunctionApp
  | Message.ReserveSelReq => NetworkFunctionStorge
  | Message.ReserveSdrRepositoryReq => NetworkFunctionStorge
  | Message.GetSdrReq _ _ _ _ => NetworkFunctionStorge
  | Message.GetSensorReadingReq _ _ => NetworkFunctionSensorEvent

/-- Go method `CmdId()` of each request type. -/
def Message.CmdId : Message → Byte
  | Message.GetSelEntryReq _ _ _ => 0x43
  | Message.GetSelInfoReq => 0x40
  | Message.GetOem => 0x01
  | Message.ReserveSelReq => 0x42
  | Message.ReserveSdrRepositoryReq => CommandGetReserveSDRRepo
  | Message.GetSdrReq _ _ _ _ => CommandGetSDR
  | Message.GetSensorReadingReq _ _ => CommandGetSensorReading

/-- Go method `Lun()` of each request type. -/
def Message.Lun : Message → Byte
  | Message.GetSensorReadingReq _ OwnerLun => if OwnerLun ≠ 0 then OwnerLun else 0
  | _ => 0

/-- Go method `MarshalBinary()` of each request type; the returned error is always
nil, and a nil slice is the empty payload. -/
def Message.MarshalBinary : Message → List Byte
  | Message.GetSelEntryReq Id Offset BytesToRead =>
    [0x00, 0x00, Fin.ofNat Id, Fin.ofNat (Id >>> 8), Offset, BytesToRead]
  | Message.GetSelInfoReq => []
  | Message.GetOem => []
  | Message.ReserveSelReq => []
  | Message.ReserveSdrRepositoryReq => []
  | Message.GetSdrReq ReservationId RecordId Offset BytesToRead =>
    [Fin.ofNat ReservationId, Fin.ofNat (ReservationId >>> 8),
     Fin.ofNat RecordId, Fin.ofNat (RecordId >>> 8), Offset, BytesToRead]
  | Message.GetSensorReadingReq SensorNumber _ => [SensorNumber]

/-- Go `ReserveSdrRepositoryRsp`. -/
structure ReserveSdrRepositoryRsp where
  ReservationId : Nat := 0
  deriving DecidableEq

/-- Go `(*ReserveSdrRepositoryRsp).UnmarshalBinary(data)`. -/
def ReserveSdrRepositoryRsp.UnmarshalBinary (data : List Byte) :
    Except Error ReserveSdrRepositoryRsp :=
  match data with
  | d0 :: d1 :: _ => Except.ok { ReservationId := d0.val ||| (d1.val <<< 8) }
  | _ => Except.error (Error.invalidDataLen data.length)

/-- Go `GetSdrRsp`. -/
structure GetSdrRsp where
  NextRecordId : Nat := 0
  RecordData : List Byte := []
  deriving DecidableEq

/-- Go `(*GetSdrRsp).UnmarshalBinary(data)`. -/
def GetSdrRsp.UnmarshalBinary (data : List Byte) : Except Error GetSdrRsp :=
  match data with
  | d0 :: d1 :: rest =>
    Except.ok { NextRecordId := d0.val ||| (d1.val <<< 8), RecordData := rest }
  | _ => Except.error (Error.invalidDataLen data.length)

/-- Go `GetSensorReadingRsp`; the pointers `States1`, `States2` are options. -/
structure GetSensorReadingRsp where
  SensorReading : Byte := 0
  Config : Byte := 0
  States1 : Option Byte := none
  States2 : Option Byte := none
  deriving DecidableEq

/-- Go `InitialUpdateInProgress()`. -/
def GetSensorReadingRsp.InitialUpdateInProgress (r : GetSensorReadingRsp) : Byte :=
  Fin.ofNat ((r.Config.val >>> 5) &&& 1)

/-- Go `SensorScanningDisabled()`. -/
def GetSensorReadingRsp.SensorScanningDisabled (r : GetSensorReadingRsp) : Byte :=
  Fin.ofNat ((r.Config.val >>> 6) &&& 1)

/-- Go `EventMessageDisabled()`. -/
def GetSensorReadingRsp.EventMessageDisabled (r : GetSensorReadingRsp) : Byte :=
  Fin.ofNat ((r.Config.val >>> 7) &&& 1)

/-- Go `(*GetSensorReadingRsp).UnmarshalBinary(data)` on a zero-valued receiver. -/
def GetSensorReadingRsp.UnmarshalBinary (data : List Byte) : Except Error GetSensorReadingRsp :=
  if data.length < 2 then Except.error (Error.invalidDataLen data.length)
  else
    Except.ok {
      SensorReading := data.getD 0 0
      Config := data.getD 1 0
      States1 := if data.length > 2 then some (data.getD 2 0) else none
      States2 := if data.length > 3 then some (data.getD 3 0) else none }

/-- Go `GetReserveSelRsp`: the response payload, kept whole in the field `Date`. -/
structure GetReserveSelRsp where
  Date : List Byte := []
  deriving DecidableEq

/-- Go `(*GetReserveSelRsp).UnmarshalBinary(data)`. -/
def GetReserveSelRsp.UnmarshalBinary (data : List Byte) : Except Error GetReserveSelRsp :=
  Except.ok { Date := data }

/-! ## local.go: the driver boundary and `SendMessage` -/

/-- The C request `ipmi_rq` as filled by `SendMessage`. -/
structure IpmiRq where
  netfn : Byte
  lun : Byte
  cmd : Byte
  data : List Byte
  deriving DecidableEq

/-- The C function `ipmi_send(&ctx, &request, &response)` of the local driver, which is
outside the Go sources: from the handle state and a request it gives the return value
`rv`, the `data_len` bytes of `response.data`, and the new handle state. -/
abbrev IpmiSend (σ : Type) := σ → IpmiRq → Int × List Byte × σ

/-- Go `LocalIPMI`; `ctx` is the state of the driver handle. -/
structure LocalIPMI (σ : Type) where
  ctx : σ
  oem : Option Nat := none
  close : Int := 0

/-- Go `IsClose()`. -/
def LocalIPMI.IsClose {σ : Type} (l : LocalIPMI σ) : Bool := l.close == 1

/-- The C request that `SendMessage` fills from a message: `netfn`, `lun`, `cmd` and the
marshalled payload. -/
def requestOf (req : Message) : IpmiRq :=
  { netfn := req.NetFn, lun := req.Lun, cmd := req.CmdId, data := req.MarshalBinary }

/-- Go `(*LocalIPMI).SendMessage(req, resp)`; `decode` is `resp.UnmarshalBinary`.
Indexing `respData[0]` of an empty response panics. -/
def LocalIPMI.SendMessage {σ ρ : Type} (ipmi_send : IpmiSend σ) (l : LocalIPMI σ)
    (req : Message) (decode : List Byte → Except Error ρ) : Except Error ρ × LocalIPMI σ :=
  let request : IpmiRq := requestOf req
  if l.IsClose then (Except.error Error.ipmiIsClose, l)
  else
    match ipmi_send l.ctx request with
    | (rv, respData, ctx) =>
      let l := { l with ctx := ctx }
      if rv ≠ 0 then (Except.error (Error.sendErrno rv), l)
      else
        match respData with
        | [] => (Except.error Error.runtimePanic, l)
        | code :: rest =>
          if code ≠ 0 then (Except.error (Error.CompletionCode code), l)
          else (decode rest, l)

/-! ## local.go: reading the SDR repository -/

/-- Go `(*LocalIPMI).getSdrChunk(reservationId, recordId, offset, length)`:
`(NextRecordId, RecordData)` of the response. -/
def LocalIPMI.getSdrChunk {σ : Type} (ipmi_send : IpmiSend σ) (l : LocalIPMI σ)
    (reservationId recordId : Nat) (offset length : Byte) :
    Except Error (Nat × List Byte) × LocalIPMI σ :=
  match l.SendMessage ipmi_send (Message.GetSdrReq reservationId recordId offset length)
      GetSdrRsp.UnmarshalBinary with
  | (Except.error err, l) => (Except.error err, l)
  | (Except.ok sr, l) => (Except.ok (sr.NextRecordId, sr.RecordData), l)

/-- Go `(*LocalIPMI).getSdrDataHelper(recordId, reservationId)`: the header chunk of 5
bytes, then the payload chunk at offset `uint8(len(data))`. -/
def LocalIPMI.getSdrDataHelper {σ : Type} (ipmi_send : IpmiSend σ) (l : LocalIPMI σ)
    (recordId reservationId : Nat) : Except Error (Nat × List Byte) × LocalIPMI σ :=
  match l.getSdrChunk ipmi_send reservationId recordId 0 5 with
  | (Except.error err, l) => (Except.error err, l)
  | (Except.ok (_, data), l) =>
    let buff := NewByteBuffer data
    match buff.PopUint16 with
    | (Except.error err, _) => (Except.error err, l)
    | (Except.ok recordId, buff) =>
      match buff.PopUint8 with
      | (Except.error err, _) => (Except.error err, l)
      | (Except.ok _, buff) =>
        match buff.PopUint8 with
        | (Except.error err, _) => (Except.error err, l)
        | (Except.ok _, buff) =>
          match buff.PopUint8 with
          | (Except.error err, _) => (Except.error err, l)
          | (Except.ok recordPayloadLength, _) =>
            let recordData := data
            match l.getSdrChunk ipmi_send reservationId recordId (Fin.ofNat data.length)
                recordPayloadLength with
            | (Except.error err, l) => (Except.error err, l)
            | (Except.ok (nextId, data), l) => (Except.ok (nextId, recordData ++ data), l)

/-- Go `(*LocalIPMI).GetRepositorySdr(recordId, reservationId)`: the record or the
error, and the second result `nextId` (0 when `getSdrDataHelper` failed). -/
def LocalIPMI.GetRepositorySdr {σ : Type} (ipmi_send : IpmiSend σ) (l : LocalIPMI σ)
    (recordId reservationId : Nat) : (Except Error SdrCommon × Nat) × LocalIPMI σ :=
  match l.getSdrDataHelper ipmi_send recordId reservationId with
  | (Except.error err, l) => ((Except.error err, 0), l)
  | (Except.ok (nextId, recordData), l) =>
    match SdrCommonFromData recordData nextId with
    | Except.error err => ((Except.error err, nextId), l)
    | Except.ok c => ((Except.ok c, nextId), l)

/-- Go `(*LocalIPMI).getSensorReading(number, ownerLun)`: the pointers `reading` and
`states` as options. -/
def LocalIPMI.getSensorReading {σ : Type} (ipmi_send : IpmiSend σ) (l : LocalIPMI σ)
    (number ownerLun : Byte) : Except Error (Option Byte × Option Int) × LocalIPMI σ :=
  match l.SendMessage ipmi_send (Message.GetSensorReadingReq number ownerLun)
      GetSensorReadingRsp.UnmarshalBinary with
  | (Except.error err, l) => (Except.error err, l)
  | (Except.ok resp, l) =>
    let reading : Option Byte := some resp.SensorReading
    let reading := if resp.InitialUpdateInProgress = 1 then none else reading
    let states : Option Int :=
      match resp.States1 with
      | none => none
      | some s1 =>
        match resp.States2 with
        | none => some (s1.val : Int)
        | some s2 => some (((s1.val ||| (s2.val <<< 8) : Nat)) : Int)
    if resp.SensorScanningDisabled = 0 then (Except.ok (none, states), l)
    else (Except.ok (reading, states), l)

/-- Go `(*LocalIPMI).GetReserveSDRRepoForReserveId()`. -/
def LocalIPMI.GetReserveSDRRepoForReserveId {σ : Type} (ipmi_send : IpmiSend σ)
    (l : LocalIPMI σ) : Except Error Nat × LocalIPMI σ :=
  match l.SendMessage ipmi_send Message.ReserveSdrRepositoryReq
      ReserveSdrRepositoryRsp.UnmarshalBinary with
  | (Except.error err, l) => (Except.error err, l)
  | (Except.ok res, l) => (Except.ok res.ReservationId, l)

/-- One invocation of the callback `itemFun` of `SdrRepositoryEntries`, with its eight
arguments. -/
structure ItemCall (F : Type) where
  name : List Byte
  val : Option F
  unitCode : Byte
  unit : String
  sensorTypeCode : Byte
  entityInstance : Byte
  sensorType : String
  err : Option Error

/-- The outcome of a walk: `result` is `none` while the loop has not finished within
the given number of iterations, else the returned error or nil; `calls` are the
invocations of the callback in order; `handle` is the final state. -/
structure Walk (σ F : Type) where
  result : Option (Except Error Unit)
  calls : List (ItemCall F)
  handle : LocalIPMI σ

/-- The `for` loop of `SdrRepositoryEntries`, at most `fuel` iterations. A panic inside
`GetRepositorySdr` or `getSensorReading` unwinds the loop. -/
def LocalIPMI.sdrLoop {σ F : Type} (ops : Float64Ops F) (ipmi_send : IpmiSend σ)
    (reservationId : Nat) :
    Nat → LocalIPMI σ → Nat → List (ItemCall F) → Walk σ F
  | 0, l, _, calls => { result := none, calls := calls, handle := l }
  | fuel + 1, l, recordId, calls =>
    match l.GetRepositorySdr ipmi_send recordId reservationId with
    | ((Except.error Error.runtimePanic, _), l) =>
      { result := some (Except.error Error.runtimePanic), calls := calls, handle := l }
    | ((c, nextId), l) =>
      if recordId = 0xffff then { result := some (Except.ok ()), calls := calls, handle := l }
      else
        match c with
        | Except.error err =>
          if IsUnsupportedSDRTypeErr err then
            LocalIPMI.sdrLoop ops ipmi_send reservationId fuel l nextId calls
          else { result := some (Except.error err), calls := calls, handle := l }
        | Except.ok (SdrCommon.compact _) =>
          LocalIPMI.sdrLoop ops ipmi_send reservationId fuel l nextId calls
        | Except.ok (SdrCommon.full t) =>
          match l.getSensorReading ipmi_send t.number t.ownerLun with
          | (Except.error Error.runtimePanic, l) =>
            { result := some (Except.error Error.runtimePanic), calls := calls, handle := l }
          | (Except.error err, l) =>
            LocalIPMI.sdrLoop ops ipmi_send reservationId fuel l nextId
              (calls ++ [{ name := t.Id, val := none, unitCode := 0, unit := "",
                           sensorTypeCode := 0, entityInstance := 0, sensorType := "",
                           err := some err }])
          | (Except.ok (some value, _), l) =>
            match t.ConvertSensorRawToValue ops (value.val : Int) with
            | Except.error err =>
              LocalIPMI.sdrLoop ops ipmi_send reservationId fuel l nextId
                (calls ++ [{ name := t.Id, val := none, unitCode := 0, unit := "",
                             sensorTypeCode := 0, entityInstance := 0, sensorType := "",
                             err := some err }])
            | Except.ok val =>
              LocalIPMI.sdrLoop ops ipmi_send reservationId fuel l nextId
                (calls ++ [{ name := t.Id, val := some val, unitCode := t.UnitCode,
                             unit := t.Unit, sensorTypeCode := t.SensorTypeCode,
                             entityInstance := t.entityInstance,
                             sensorType := t.SensorType, err := none }])
          | (Except.ok (none, _), l) =>
            LocalIPMI.sdrLoop ops ipmi_send reservationId fuel l nextId
              (calls ++ [{ name := t.Id, val := none, unitCode := 0, unit := "",
                           sensorTypeCode := 0, entityInstance := 0, sensorType := "",
                           err := none }])

/-- Go `(*LocalIPMI).SdrRepositoryEntries(itemFun)`, the loop bounded by `fuel`
iterations. -/
def LocalIPMI.SdrRepositoryEntries {σ F : Type} (ops : Float64Ops F)
    (ipmi_send : IpmiSend σ) (l : LocalIPMI σ) (fuel : Nat) : Walk σ F :=
  match l.GetReserveSDRRepoForReserveId ipmi_send with
  | (Except.error err, l) => { result := some (Except.error err), calls := [], handle := l }
  | (Except.ok reservationId, l) =>
    LocalIPMI.sdrLoop ops ipmi_send reservationId fuel l 0 []

/-! ## local.go: reading the System Event Log -/

/-- The outcome of a run of `SelEntries`: the returned error (`none` when the fuel of
the model ran out), the arguments of the invocations of the callback `fun` in order,
and the handle. -/
structure SelWalk (σ : Type) where
  result : Option (Except Error Unit)
  calls : List (List Byte)
  handle : LocalIPMI σ

/-- The `for nextId != 0xffff` loop of `SelEntries`, with the loop variables `nextId`
and `nilNextId`. The callback `fun` is a Go closure: `fn calls arg` is its answer on
`arg` after the earlier invocations `calls`. -/
def LocalIPMI.selLoop {σ : Type} (ipmi_send : IpmiSend σ)
    (fn : List (List Byte) → List Byte → Bool) :
    Nat → LocalIPMI σ → Nat → Int → List (List Byte) → SelWalk σ
  | 0, l, _, _, calls => { result := none, calls := calls, handle := l }
  | fuel + 1, l, nextId, nilNextId, calls =>
    if nextId = 0xffff then { result := some (Except.ok ()), calls := calls, handle := l }
    else
      let currId := nextId
      match l.SendMessage ipmi_send (Message.GetSelEntryReq currId 0 0xff)
          GetReserveSelRsp.UnmarshalBinary with
      | (Except.error err, l) =>
        { result := some (Except.error err), calls := calls, handle := l }
      | (Except.ok eRsp, l) =>
        if eRsp.Date.length < 2 then
          { result := some (Except.error Error.DataTooShort), calls := calls, handle := l }
        else
          let nextId := (eRsp.Date.getD 0 0).val ||| ((eRsp.Date.getD 1 0).val <<< 8)
          if nextId = 0 then
            let nilNextId := wrapInt64 (nilNextId - 1)
            if nilNextId ≤ 0 then
              { result := some (Except.ok ()), calls := calls, handle := l }
            else selLoop ipmi_send fn fuel l nextId nilNextId calls
          else if fn calls (eRsp.Date.drop 2) = false then
            { result := some (Except.ok ()), calls := calls ++ [eRsp.Date.drop 2],
              handle := l }
          else
            selLoop ipmi_send fn fuel l nextId nilNextId (calls ++ [eRsp.Date.drop 2])

/-- Go `(*LocalIPMI).SelEntries(fun)`. In `resp.Date[0] == 0 && resp.Date[1] == 0` the
second index is evaluated only when the first byte is 0; an index out of range
panics. -/
def LocalIPMI.SelEntries {σ : Type} (ipmi_send : IpmiSend σ) (l : LocalIPMI σ)
    (fn : List (List Byte) → List Byte → Bool) (fuel : Nat) : SelWalk σ :=
  match l.SendMessage ipmi_send Message.GetSelInfoReq GetReserveSelRsp.UnmarshalBinary with
  | (Except.error err, l) => { result := some (Except.error err), calls := [], handle := l }
  | (Except.ok resp, l) =>
    let empty : Except Error Bool :=
      match resp.Date with
      | [] => Except.error Error.runtimePanic
      | d0 :: rest =>
        if d0 = 0 then
          match rest with
          | [] => Except.error Error.runtimePanic
          | d1 :: _ => Except.ok (d1 == 0)
        else Except.ok false
    match empty with
    | Except.error err => { result := some (Except.error err), calls := [], handle := l }
    | Except.ok true =>
      { result := some (Except.error Error.selHasNoEntries), calls := [], handle := l }
    | Except.ok false =>
      match l.SendMessage ipmi_send Message.ReserveSelReq
          GetReserveSelRsp.UnmarshalBinary with
      | (Except.error err, l) =>
        { result := some (Except.error err), calls := [], handle := l }
      | (Except.ok _, l) => LocalIPMI.selLoop ipmi_send fn fuel l 0 2 []

/-! ## sel.go: the System Event Log -/

/-- Go `SEL_OEM_NOTS_DATA_LEN`. -/
def SEL_OEM_NOTS_DATA_LEN : Nat := 13

/-- Go `SEL_OEM_TS_DATA_LEN`. -/
def SEL_OEM_TS_DATA_LEN : Nat := 6

/-- Go `OemTsSpecSelRec`. `Timestamp` holds the Unix seconds given to `time.Unix`; the
fixed-size arrays are lists of that length. -/
structure OemTsSpecSelRec where
  Timestamp : Int
  ManfId : List Byte
  OemDefined : List Byte
  deriving DecidableEq

/-- Go `OemNotsSpecSelRec`. -/
structure OemNotsSpecSelRec where
  OemDefined : List Byte
  deriving DecidableEq

/-- Go `StandardSpecSelRec`. `Timestamp` holds the Unix seconds given to `time.Unix`;
`EventData` is the array `[3]byte`. -/
structure StandardSpecSelRec where
  Timestamp : Int
  GenId : Nat
  EvmRev : Byte
  SensorType : Byte
  SensorNum : Byte
  EventType : Byte
  EventDir : Byte
  EventData : List Byte
  deriving DecidableEq

/-- Go `SelEntry`; a nil pointer is `none`. -/
structure SelEntry where
  RecordId : Nat
  RecordType : Byte
  StandardType : Option StandardSpecSelRec
  OemTsType : Option OemTsSpecSelRec
  OemNotsType : Option OemNotsSpecSelRec
  deriving DecidableEq

/-- Go `EventSensorType`. -/
structure EventSensorType where
  Code : Byte
  Offset : Byte
  Data : Byte
  Desc : String
  deriving DecidableEq


/-- Go table `genericEventTypes`, in source order. -/
def genericEventTypes : List EventSensorType :=
  [EventSensorType.mk 0x01 0x00 0xff "Lower Non-critical going low ",
   EventSensorType.mk 0x01 0x01 0xff "Lower Non-critical going high",
   EventSensorType.mk 0x01 0x02 0xff "Lower Critical going low ",
   EventSensorType.mk 0x01 0x03 0xff "Lower Critical going high",
   EventSensorType.mk 0x01 0x04 0xff "Lower Non-recoverable going low ",
   EventSensorType.mk 0x01 0x05 0xff "Lower Non-recoverable going high",
   EventSensorType.mk 0x01 0x06 0xff "Upper Non-critical going low ",
   EventSensorType.mk 0x01 0x07 0xff "Upper Non-critical going high",
   EventSensorType.mk 0x01 0x08 0xff "Upper Critical going low ",
   EventSensorType.mk 0x01 0x09 0xff "Upper Critical going high",
   EventSensorType.mk 0x01 0x0a 0xff "Upper Non-recoverable going low ",
   EventSensorType.mk 0x01 0x0b 0xff "Upper Non-recoverable going high",
   EventSensorType.mk 0x02 0x00 0xff "Transition to Idle",
   EventSensorType.mk 0x02 0x01 0xff "Transition to Active",
   EventSensorType.mk 0x02 0x02 0xff "Transition to Busy",
   EventSensorType.mk 0x03 0x00 0xff "State Deasserted",
   EventSensorType.mk 0x03 0x01 0xff "State Asserted",
   EventSensorType.mk 0x04 0x00 0xff "Predictive Failure Deasserted",
   EventSensorType.mk 0x04 0x01 0xff "Predictive Failure Asserted",
   EventSensorType.mk 0x05 0x00 0xff "Limit Not Exceeded",
   EventSensorType.mk 0x05 0x01 0xff "Limit Exceeded",
   EventSensorType.mk 0x06 0x00 0xff "Performance Met",
   EventSensorType.mk 0x06 0x01 0xff "Performance Lags",
   EventSensorType.mk 0x07 0x00 0xff "Transition to OK",
   EventSensorType.mk 0x07 0x01 0xff "Transition to Non-critical from OK",
   EventSensorType.mk 0x07 0x02 0xff "Transition to Critical from less severe",
   EventSensorType.mk 0x07 0x03 0xff "Transition to Non-recoverable from less severe",
   EventSensorType.mk 0x07 0x04 0xff "Transition to Non-critical from more severe",
   EventSensorType.mk 0x07 0x05 0xff "Transition to Critical from Non-recoverable",
   EventSensorType.mk 0x07 0x06 0xff "Transition to Non-recoverable",
   EventSensorType.mk 0x07 0x07 0xff "Monitor",
   EventSensorType.mk 0x07 0x08 0xff "Informational",
   EventSensorType.mk 0x08 0x00 0xff "Device Absent",
   EventSensorType.mk 0x08 0x01 0xff "Device Present",
   EventSensorType.mk 0x09 0x00 0xff "Device Disabled",
   EventSensorType.mk 0x09 0x01 0xff "Device Enabled",
   EventSensorType.mk 0x0a 0x00 0xff "Transition to Running",
   EventSensorType.mk 0x0a 0x01 0xff "Transition to In Test",
   EventSensorType.mk 0x0a 0x02 0xff "Transition to Power Off",
   EventSensorType.mk 0x0a 0x03 0xff "Transition to On Line",
   EventSensorType.mk 0x0a 0x04 0xff "Transition to Off Line",
   EventSensorType.mk 0x0a 0x05 0xff "Transition to Off Duty",
   EventSensorType.mk 0x0a 0x06 0xff "Transition to Degraded",
   EventSensorType.mk 0x0a 0x07 0xff "Transition to Power Save",
   EventSensorType.mk 0x0a 0x08 0xff "Install Error",
   EventSensorType.mk 0x0b 0x00 0xff "Fully Redundant",
   EventSensorType.mk 0x0b 0x01 0xff "Redundancy Lost",
   EventSensorType.mk 0x0b 0x02 0xff "Redundancy Degraded",
   EventSensorType.mk 0x0b 0x03 0xff "Non-Redundant: Sufficient from Redundant",
   EventSensorType.mk 0x0b 0x04 0xff "Non-Redundant: Sufficient from Insufficient",
   EventSensorType.mk 0x0b 0x05 0xff "Non-Redundant: Insufficient Resources",
   EventSensorType.mk 0x0b 0x06 0xff "Redundancy Degraded from Fully Redundant",
   EventSensorType.mk 0x0b 0x07 0xff "Redundancy Degraded from Non-Redundant",
   EventSensorType.mk 0x0c 0x00 0xff "D0 Power State",
   EventSensorType.mk 0x0c 0x01 0xff "D1 Power State",
   EventSensorType.mk 0x0c 0x02 0xff "D2 Power State",
   EventSensorType.mk 0x0c 0x03 0xff "D3 Power State"]

/-- Go table `oemKontronEventTypes`, in source order. -/
def oemKontronEventTypes : List EventSensorType :=
  [EventSensorType.mk 0xC1 0x00 0xff "Push Button",
   EventSensorType.mk 0xC1 0x01 0xff "Bridge Reset",
   EventSensorType.mk 0xC1 0x02 0xff "Backplane",
   EventSensorType.mk 0xC1 0x03 0xff "Hotswap Fault",
   EventSensorType.mk 0xC1 0x04 0xff "Hotswap Healty",
   EventSensorType.mk 0xC1 0x05 0xff "Unknown",
   EventSensorType.mk 0xC1 0x06 0xff "ITP",
   EventSensorType.mk 0xC1 0x07 0xff "Hardware Watchdog",
   EventSensorType.mk 0xC1 0x08 0xff "Software Reset",
   EventSensorType.mk 0xC3 0x02 0xff "IPMB L Disabled",
   EventSensorType.mk 0xC3 0x03 0xff "IPMB L Enabled",
   EventSensorType.mk 0xC4 0x00 0xff "Push Button",
   EventSensorType.mk 0xC4 0x01 0xff "Hardware Power Failure",
   EventSensorType.mk 0xC4 0x02 0xff "Unknown",
   EventSensorType.mk 0xC4 0x03 0xff "Hardware Watchdog",
   EventSensorType.mk 0xC4 0x04 0xff "Soft Reset",
   EventSensorType.mk 0xC4 0x05 0xff "Warm Reset",
   EventSensorType.mk 0xC4 0x06 0xff "Cold Reset",
   EventSensorType.mk 0xC4 0x07 0xff "IPMI Command",
   EventSensorType.mk 0xC4 0x08 0xff "Setup Reset (Save CMOS)",
   EventSensorType.mk 0xC4 0x09 0xff "Power Up Reset",
   EventSensorType.mk 0xC6 0x0E 0xff "Post Error (see data2)",
   EventSensorType.mk 0xC7 0x00 0xff "First Boot After Upgrade",
   EventSensorType.mk 0xC7 0x01 0xff "First Boot After Rollback(error)",
   EventSensorType.mk 0xC7 0x02 0xff "First Boot After Errors (watchdog)",
   EventSensorType.mk 0xC7 0x03 0xff "First Boot After Manual Rollback",
   EventSensorType.mk 0xC7 0x08 0xff "Firmware Watchdog Bite, reset occurred",
   EventSensorType.mk 0xC8 0x00 0xff "Not Loaded",
   EventSensorType.mk 0xC8 0x01 0xff "Initializing",
   EventSensorType.mk 0xC8 0x02 0xff "Ready",
   EventSensorType.mk 0xC8 0x03 0xff "Failure (see data2)",
   EventSensorType.mk 0xC9 0x00 0xff "Started",
   EventSensorType.mk 0xC9 0x01 0xff "Pass",
   EventSensorType.mk 0xC9 0x02 0xff "Fail",
   EventSensorType.mk 0xCA 0x00 0xff "In progress",
   EventSensorType.mk 0xCA 0x01 0xff "Success",
   EventSensorType.mk 0xCA 0x02 0xff "Failure",
   EventSensorType.mk 0xCB 0x00 0xff "Asserted",
   EventSensorType.mk 0xCB 0x01 0xff "Deasserted",
   EventSensorType.mk 0xCC 0x00 0xff "Asserted",
   EventSensorType.mk 0xCC 0x01 0xff "Deasserted",
   EventSensorType.mk 0xCD 0x00 0xff "Asserted",
   EventSensorType.mk 0xCD 0x01 0xff "Deasserted",
   EventSensorType.mk 0xCF 0x00 0xff "Asserted",
   EventSensorType.mk 0xCF 0x01 0xff "Deasserted"]

/-- Go table `sensorSpecificEventTypes`, in source order. -/
def sensorSpecificEventTypes : List EventSensorType :=
  [EventSensorType.mk 0x05 0x00 0xff "General Chassis intrusion",
   EventSensorType.mk 0x05 0x01 0xff "Drive Bay intrusion",
   EventSensorType.mk 0x05 0x02 0xff "I/O Card area intrusion",
   EventSensorType.mk 0x05 0x03 0xff "Processor area intrusion",
   EventSensorType.mk 0x05 0x04 0xff "System unplugged from LAN",
   EventSensorType.mk 0x05 0x05 0xff "Unauthorized dock",
   EventSensorType.mk 0x05 0x06 0xff "FAN area intrusion",
   EventSensorType.mk 0x06 0x00 0xff "Front Panel Lockout violation attempted",
   EventSensorType.mk 0x06 0x01 0xff "Pre-boot password violation - user password",
   EventSensorType.mk 0x06 0x02 0xff "Pre-boot password violation - setup password",
   EventSensorType.mk 0x06 0x03 0xff "Pre-boot password violation - network boot password",
   EventSensorType.mk 0x06 0x04 0xff "Other pre-boot password violation",
   EventSensorType.mk 0x06 0x05 0xff "Out-of-band access password violation",
   EventSensorType.mk 0x07 0x00 0xff "IERR",
   EventSensorType.mk 0x07 0x01 0xff "Thermal Trip",
   EventSensorType.mk 0x07 0x02 0xff "FRB1/BIST failure",
   EventSensorType.mk 0x07 0x03 0xff "FRB2/Hang in POST failure",
   EventSensorType.mk 0x07 0x04 0xff "FRB3/Processor startup/init failure",
   EventSensorType.mk 0x07 0x05 0xff "Configuration Error",
   EventSensorType.mk 0x07 0x06 0xff "SM BIOS Uncorrectable CPU-complex Error",
   EventSensorType.mk 0x07 0x07 0xff "Presence detected",
   EventSensorType.mk 0x07 0x08 0xff "Disabled",
   EventSensorType.mk 0x07 0x09 0xff "Terminator presence detected",
   EventSensorType.mk 0x07 0x0a 0xff "Throttled",
   EventSensorType.mk 0x07 0x0b 0xff "Uncorrectable machine check exception",
   EventSensorType.mk 0x07 0x0c 0xff "Correctable machine check error",
   EventSensorType.mk 0x08 0x00 0xff "Presence detected",
   EventSensorType.mk 0x08 0x01 0xff "Failure detected",
   EventSensorType.mk 0x08 0x02 0xff "Predictive failure",
   EventSensorType.mk 0x08 0x03 0xff "Power Supply AC lost",
   EventSensorType.mk 0x08 0x04 0xff "AC lost or out-of-range",
   EventSensorType.mk 0x08 0x05 0xff "AC out-of-range, but present",
   EventSensorType.mk 0x08 0x06 0x00 "Config Error: Vendor Mismatch",
   EventSensorType.mk 0x08 0x06 0x01 "Config Error: Revision Mismatch",
   EventSensorType.mk 0x08 0x06 0x02 "Config Error: Processor Missing",
   EventSensorType.mk 0x08 0x06 0x03 "Config Error: Power Supply Rating Mismatch",
   EventSensorType.mk 0x08 0x06 0x04 "Config Error: Voltage Rating Mismatch",
   EventSensorType.mk 0x08 0x06 0xff "Config Error",
   EventSensorType.mk 0x08 0x06 0xff "Power Supply Inactive",
   EventSensorType.mk 0x09 0x00 0xff "Power off/down",
   EventSensorType.mk 0x09 0x01 0xff "Power cycle",
   EventSensorType.mk 0x09 0x02 0xff "240VA power down",
   EventSensorType.mk 0x09 0x03 0xff "Interlock power down",
   EventSensorType.mk 0x09 0x04 0xff "AC lost",
   EventSensorType.mk 0x09 0x05 0xff "Soft-power control failure",
   EventSensorType.mk 0x09 0x06 0xff "Failure detected",
   EventSensorType.mk 0x09 0x07 0xff "Predictive failure",
   EventSensorType.mk 0x0c 0x00 0xff "Correctable ECC",
   EventSensorType.mk 0x0c 0x01 0xff "Uncorrectable ECC",
   EventSensorType.mk 0x0c 0x02 0xff "Parity",
   EventSensorType.mk 0x0c 0x03 0xff "Memory Scrub Failed",
   EventSensorType.mk 0x0c 0x04 0xff "Memory Device Disabled",
   EventSensorType.mk 0x0c 0x05 0xff "Correctable ECC logging limit reached",
   EventSensorType.mk 0x0c 0x06 0xff "Presence Detected",
   EventSensorType.mk 0x0c 0x07 0xff "Configuration Error",
   EventSensorType.mk 0x0c 0x08 0xff "Spare",
   EventSensorType.mk 0x0c 0x09 0xff "Throttled",
   EventSensorType.mk 0x0c 0x0a 0xff "Critical Overtemperature",
   EventSensorType.mk 0x0d 0x00 0xff "Drive Present",
   EventSensorType.mk 0x0d 0x01 0xff "Drive Fault",
   EventSensorType.mk 0x0d 0x02 0xff "Predictive Failure",
   EventSensorType.mk 0x0d 0x03 0xff "Hot Spare",
   EventSensorType.mk 0x0d 0x04 0xff "Parity Check In Progress",
   EventSensorType.mk 0x0d 0x05 0xff "In Critical Array",
   EventSensorType.mk 0x0d 0x06 0xff "In Failed Array",
   EventSensorType.mk 0x0d 0x07 0xff "Rebuild In Progress",
   EventSensorType.mk 0x0d 0x08 0xff "Rebuild Aborted",
   EventSensorType.mk 0x0f 0x00 0x00 "Unspecified",
   EventSensorType.mk 0x0f 0x00 0x01 "No system memory installed",
   EventSensorType.mk 0x0f 0x00 0x02 "No usable system memory",
   EventSensorType.mk 0x0f 0x00 0x03 "Unrecoverable IDE device failure",
   EventSensorType.mk 0x0f 0x00 0x04 "Unrecoverable system-board failure",
   EventSensorType.mk 0x0f 0x00 0x05 "Unrecoverable diskette failure",
   EventSensorType.mk 0x0f 0x00 0x06 "Unrecoverable hard-disk controller failure",
   EventSensorType.mk 0x0f 0x00 0x07 "Unrecoverable PS/2 or USB keyboard failure",
   EventSensorType.mk 0x0f 0x00 0x08 "Removable boot media not found",
   EventSensorType.mk 0x0f 0x00 0x09 "Unrecoverable video controller failure",
   EventSensorType.mk 0x0f 0x00 0x0a "No video device selected",
   EventSensorType.mk 0x0f 0x00 0x0b "BIOS corruption detected",
   EventSensorType.mk 0x0f 0x00 0x0c "CPU voltage mismatch",
   EventSensorType.mk 0x0f 0x00 0x0d "CPU speed mismatch failure",
   EventSensorType.mk 0x0f 0x00 0xff "Unknown Error",
   EventSensorType.mk 0x0f 0x01 0x00 "Unspecified",
   EventSensorType.mk 0x0f 0x01 0x01 "Memory initialization",
   EventSensorType.mk 0x0f 0x01 0x02 "Hard-disk initialization",
   EventSensorType.mk 0x0f 0x01 0x03 "Secondary CPU Initialization",
   EventSensorType.mk 0x0f 0x01 0x04 "User authentication",
   EventSensorType.mk 0x0f 0x01 0x05 "User-initiated system setup",
   EventSensorType.mk 0x0f 0x01 0x06 "USB resource configuration",
   EventSensorType.mk 0x0f 0x01 0x07 "PCI resource configuration",
   EventSensorType.mk 0x0f 0x01 0x08 "Option ROM initialization",
   EventSensorType.mk 0x0f 0x01 0x09 "Video initialization",
   EventSensorType.mk 0x0f 0x01 0x0a "Cache initialization",
   EventSensorType.mk 0x0f 0x01 0x0b "SMBus initialization",
   EventSensorType.mk 0x0f 0x01 0x0c "Keyboard controller initialization",
   EventSensorType.mk 0x0f 0x01 0x0d "Management controller initialization",
   EventSensorType.mk 0x0f 0x01 0x0e "Docking station attachment",
   EventSensorType.mk 0x0f 0x01 0x0f "Enabling docking station",
   EventSensorType.mk 0x0f 0x01 0x10 "Docking station ejection",
   EventSensorType.mk 0x0f 0x01 0x11 "Disabling docking station",
   EventSensorType.mk 0x0f 0x01 0x12 "Calling operating system wake-up vector",
   EventSensorType.mk 0x0f 0x01 0x13 "System boot initiated",
   EventSensorType.mk 0x0f 0x01 0x14 "Motherboard initialization",
   EventSensorType.mk 0x0f 0x01 0x15 "reserved",
   EventSensorType.mk 0x0f 0x01 0x16 "Floppy initialization",
   EventSensorType.mk 0x0f 0x01 0x17 "Keyboard test",
   EventSensorType.mk 0x0f 0x01 0x18 "Pointing device test",
   EventSensorType.mk 0x0f 0x01 0x19 "Primary CPU initialization",
   EventSensorType.mk 0x0f 0x01 0xff "Unknown Hang",
   EventSensorType.mk 0x0f 0x02 0x00 "Unspecified",
   EventSensorType.mk 0x0f 0x02 0x01 "Memory initialization",
   EventSensorType.mk 0x0f 0x02 0x02 "Hard-disk initialization",
   EventSensorType.mk 0x0f 0x02 0x03 "Secondary CPU Initialization",
   EventSensorType.mk 0x0f 0x02 0x04 "User authentication",
   EventSensorType.mk 0x0f 0x02 0x05 "User-initiated system setup",
   EventSensorType.mk 0x0f 0x02 0x06 "USB resource configuration",
   EventSensorType.mk 0x0f 0x02 0x07 "PCI resource configuration",
   EventSensorType.mk 0x0f 0x02 0x08 "Option ROM initialization",
   EventSensorType.mk 0x0f 0x02 0x09 "Video initialization",
   EventSensorType.mk 0x0f 0x02 0x0a "Cache initialization",
   EventSensorType.mk 0x0f 0x02 0x0b "SMBus initialization",
   EventSensorType.mk 0x0f 0x02 0x0c "Keyboard controller initialization",
   EventSensorType.mk 0x0f 0x02 0x0d "Management controller initialization",
   EventSensorType.mk 0x0f 0x02 0x0e "Docking station attachment",
   EventSensorType.mk 0x0f 0x02 0x0f "Enabling docking station",
   EventSensorType.mk 0x0f 0x02 0x10 "Docking station ejection",
   EventSensorType.mk 0x0f 0x02 0x11 "Disabling docking station",
   EventSensorType.mk 0x0f 0x02 0x12 "Calling operating system wake-up vector",
   EventSensorType.mk 0x0f 0x02 0x13 "System boot initiated",
   EventSensorType.mk 0x0f 0x02 0x14 "Motherboard initialization",
   EventSensorType.mk 0x0f 0x02 0x15 "reserved",
   EventSensorType.mk 0x0f 0x02 0x16 "Floppy initialization",
   EventSensorType.mk 0x0f 0x02 0x17 "Keyboard test",
   EventSensorType.mk 0x0f 0x02 0x18 "Pointing device test",
   EventSensorType.mk 0x0f 0x02 0x19 "Primary CPU initialization",
   EventSensorType.mk 0x0f 0x02 0xff "Unknown Progress",
   EventSensorType.mk 0x10 0x00 0xff "Correctable memory error logging disabled",
   EventSensorType.mk 0x10 0x01 0xff "Event logging disabled",
   EventSensorType.mk 0x10 0x02 0xff "Log area reset/cleared",
   EventSensorType.mk 0x10 0x03 0xff "All event logging disabled",
   EventSensorType.mk 0x10 0x04 0xff "Log full",
   EventSensorType.mk 0x10 0x05 0xff "Log almost full",
   EventSensorType.mk 0x11 0x00 0xff "BIOS Reset",
   EventSensorType.mk 0x11 0x01 0xff "OS Reset",
   EventSensorType.mk 0x11 0x02 0xff "OS Shut Down",
   EventSensorType.mk 0x11 0x03 0xff "OS Power Down",
   EventSensorType.mk 0x11 0x04 0xff "OS Power Cycle",
   EventSensorType.mk 0x11 0x05 0xff "OS NMI/Diag Interrupt",
   EventSensorType.mk 0x11 0x06 0xff "OS Expired",
   EventSensorType.mk 0x11 0x07 0xff "OS pre-timeout Interrupt",
   EventSensorType.mk 0x12 0x00 0xff "System Reconfigured",
   EventSensorType.mk 0x12 0x01 0xff "OEM System boot event",
   EventSensorType.mk 0x12 0x02 0xff "Undetermined system hardware failure",
   EventSensorType.mk 0x12 0x03 0xff "Entry added to auxiliary log",
   EventSensorType.mk 0x12 0x04 0xff "PEF Action",
   EventSensorType.mk 0x12 0x05 0xff "Timestamp Clock Sync",
   EventSensorType.mk 0x13 0x00 0xff "NMI/Diag Interrupt",
   EventSensorType.mk 0x13 0x01 0xff "Bus Timeout",
   EventSensorType.mk 0x13 0x02 0xff "I/O Channel check NMI",
   EventSensorType.mk 0x13 0x03 0xff "Software NMI",
   EventSensorType.mk 0x13 0x04 0xff "PCI PERR",
   EventSensorType.mk 0x13 0x05 0xff "PCI SERR",
   EventSensorType.mk 0x13 0x06 0xff "EISA failsafe timeout",
   EventSensorType.mk 0x13 0x07 0xff "Bus Correctable error",
   EventSensorType.mk 0x13 0x08 0xff "Bus Uncorrectable error",
   EventSensorType.mk 0x13 0x09 0xff "Fatal NMI",
   EventSensorType.mk 0x13 0x0a 0xff "Bus Fatal Error",
   EventSensorType.mk 0x13 0x0b 0xff "Bus Degraded",
   EventSensorType.mk 0x14 0x00 0xff "Power Button pressed",
   EventSensorType.mk 0x14 0x01 0xff "Sleep Button pressed",
   EventSensorType.mk 0x14 0x02 0xff "Reset Button pressed",
   EventSensorType.mk 0x14 0x03 0xff "FRU Latch",
   EventSensorType.mk 0x14 0x04 0xff "FRU Service",
   EventSensorType.mk 0x19 0x00 0xff "Soft Power Control Failure",
   EventSensorType.mk 0x19 0x01 0xff "Thermal Trip",
   EventSensorType.mk 0x1b 0x00 0xff "Connected",
   EventSensorType.mk 0x1b 0x01 0xff "Config Error",
   EventSensorType.mk 0x1d 0x00 0xff "Initiated by power up",
   EventSensorType.mk 0x1d 0x01 0xff "Initiated by hard reset",
   EventSensorType.mk 0x1d 0x02 0xff "Initiated by warm reset",
   EventSensorType.mk 0x1d 0x03 0xff "User requested PXE boot",
   EventSensorType.mk 0x1d 0x04 0xff "Automatic boot to diagnostic",
   EventSensorType.mk 0x1d 0x05 0xff "OS initiated hard reset",
   EventSensorType.mk 0x1d 0x06 0xff "OS initiated warm reset",
   EventSensorType.mk 0x1d 0x07 0xff "System Restart",
   EventSensorType.mk 0x1e 0x00 0xff "No bootable media",
   EventSensorType.mk 0x1e 0x01 0xff "Non-bootable disk in drive",
   EventSensorType.mk 0x1e 0x02 0xff "PXE server not found",
   EventSensorType.mk 0x1e 0x03 0xff "Invalid boot sector",
   EventSensorType.mk 0x1e 0x04 0xff "Timeout waiting for selection",
   EventSensorType.mk 0x1f 0x00 0xff "A: boot completed",
   EventSensorType.mk 0x1f 0x01 0xff "C: boot completed",
   EventSensorType.mk 0x1f 0x02 0xff "PXE boot completed",
   EventSensorType.mk 0x1f 0x03 0xff "Diagnostic boot completed",
   EventSensorType.mk 0x1f 0x04 0xff "CD-ROM boot completed",
   EventSensorType.mk 0x1f 0x05 0xff "ROM boot completed",
   EventSensorType.mk 0x1f 0x06 0xff "boot completed - device not specified",
   EventSensorType.mk 0x1f 0x07 0xff "Installation started",
   EventSensorType.mk 0x1f 0x08 0xff "Installation completed",
   EventSensorType.mk 0x1f 0x09 0xff "Installation aborted",
   EventSensorType.mk 0x1f 0x0a 0xff "Installation failed",
   EventSensorType.mk 0x20 0x00 0xff "Error during system startup",
   EventSensorType.mk 0x20 0x01 0xff "Run-time critical stop",
   EventSensorType.mk 0x20 0x02 0xff "OS graceful stop",
   EventSensorType.mk 0x20 0x03 0xff "OS graceful shutdown",
   EventSensorType.mk 0x20 0x04 0xff "PEF initiated soft shutdown",
   EventSensorType.mk 0x20 0x05 0xff "Agent not responding",
   EventSensorType.mk 0x21 0x00 0xff "Fault Status",
   EventSensorType.mk 0x21 0x01 0xff "Identify Status",
   EventSensorType.mk 0x21 0x02 0xff "Device Installed",
   EventSensorType.mk 0x21 0x03 0xff "Ready for Device Installation",
   EventSensorType.mk 0x21 0x04 0xff "Ready for Device Removal",
   EventSensorType.mk 0x21 0x05 0xff "Slot Power is Off",
   EventSensorType.mk 0x21 0x06 0xff "Device Removal Request",
   EventSensorType.mk 0x21 0x07 0xff "Interlock",
   EventSensorType.mk 0x21 0x08 0xff "Slot is Disabled",
   EventSensorType.mk 0x21 0x09 0xff "Spare Device",
   EventSensorType.mk 0x22 0x00 0xff "S0/G0: working",
   EventSensorType.mk 0x22 0x01 0xff "S1: sleeping with system hw & processor context maintained",
   EventSensorType.mk 0x22 0x02 0xff "S2: sleeping, processor context lost",
   EventSensorType.mk 0x22 0x03 0xff "S3: sleeping, processor & hw context lost, memory retained",
   EventSensorType.mk 0x22 0x04 0xff "S4: non-volatile sleep/suspend-to-disk",
   EventSensorType.mk 0x22 0x05 0xff "S5/G2: soft-off",
   EventSensorType.mk 0x22 0x06 0xff "S4/S5: soft-off",
   EventSensorType.mk 0x22 0x07 0xff "G3: mechanical off",
   EventSensorType.mk 0x22 0x08 0xff "Sleeping in S1/S2/S3 state",
   EventSensorType.mk 0x22 0x09 0xff "G1: sleeping",
   EventSensorType.mk 0x22 0x0a 0xff "S5: entered by override",
   EventSensorType.mk 0x22 0x0b 0xff "Legacy ON state",
   EventSensorType.mk 0x22 0x0c 0xff "Legacy OFF state",
   EventSensorType.mk 0x22 0x0e 0xff "Unknown",
   EventSensorType.mk 0x23 0x00 0xff "Timer expired",
   EventSensorType.mk 0x23 0x01 0xff "Hard reset",
   EventSensorType.mk 0x23 0x02 0xff "Power down",
   EventSensorType.mk 0x23 0x03 0xff "Power cycle",
   EventSensorType.mk 0x23 0x04 0xff "reserved",
   EventSensorType.mk 0x23 0x05 0xff "reserved",
   EventSensorType.mk 0x23 0x06 0xff "reserved",
   EventSensorType.mk 0x23 0x07 0xff "reserved",
   EventSensorType.mk 0x23 0x08 0xff "Timer interrupt",
   EventSensorType.mk 0x24 0x00 0xff "Platform generated page",
   EventSensorType.mk 0x24 0x01 0xff "Platform generated LAN alert",
   EventSensorType.mk 0x24 0x02 0xff "Platform Event Trap generated",
   EventSensorType.mk 0x24 0x03 0xff "Platform generated SNMP trap, OEM format",
   EventSensorType.mk 0x25 0x00 0xff "Present",
   EventSensorType.mk 0x25 0x01 0xff "Absent",
   EventSensorType.mk 0x25 0x02 0xff "Disabled",
   EventSensorType.mk 0x27 0x00 0xff "Heartbeat Lost",
   EventSensorType.mk 0x27 0x01 0xff "Heartbeat",
   EventSensorType.mk 0x28 0x00 0xff "Sensor access degraded or unavailable",
   EventSensorType.mk 0x28 0x01 0xff "Controller access degraded or unavailable",
   EventSensorType.mk 0x28 0x02 0xff "Management controller off-line",
   EventSensorType.mk 0x28 0x03 0xff "Management controller unavailable",
   EventSensorType.mk 0x28 0x04 0xff "Sensor failure",
   EventSensorType.mk 0x28 0x05 0xff "FRU failure",
   EventSensorType.mk 0x29 0x00 0xff "Low",
   EventSensorType.mk 0x29 0x01 0xff "Failed",
   EventSensorType.mk 0x29 0x02 0xff "Presence Detected",
   EventSensorType.mk 0x2b 0x00 0xff "Hardware change detected",
   EventSensorType.mk 0x2b 0x01 0x00 "Firmware or software change detected",
   EventSensorType.mk 0x2b 0x01 0x01 "Firmware or software change detected, Mngmt Ctrl Dev Id",
   EventSensorType.mk 0x2b 0x01 0x02 "Firmware or software change detected, Mngmt Ctrl Firm Rev",
   EventSensorType.mk 0x2b 0x01 0x03 "Firmware or software change detected, Mngmt Ctrl Dev Rev",
   EventSensorType.mk 0x2b 0x01 0x04 "Firmware or software change detected, Mngmt Ctrl Manuf Id",
   EventSensorType.mk 0x2b 0x01 0x05 "Firmware or software change detected, Mngmt Ctrl IPMI Vers",
   EventSensorType.mk 0x2b 0x01 0x06 "Firmware or software change detected, Mngmt Ctrl Aux Firm Id",
   EventSensorType.mk 0x2b 0x01 0x07 "Firmware or software change detected, Mngmt Ctrl Firm Boot Block",
   EventSensorType.mk 0x2b 0x01 0x08 "Firmware or software change detected, Mngmt Ctrl Other",
   EventSensorType.mk 0x2b 0x01 0x09 "Firmware or software change detected, BIOS/EFI change",
   EventSensorType.mk 0x2b 0x01 0x0A "Firmware or software change detected, SMBIOS change",
   EventSensorType.mk 0x2b 0x01 0x0B "Firmware or software change detected, O/S change",
   EventSensorType.mk 0x2b 0x01 0x0C "Firmware or software change detected, O/S loader change",
   EventSensorType.mk 0x2b 0x01 0x0D "Firmware or software change detected, Service Diag change",
   EventSensorType.mk 0x2b 0x01 0x0E "Firmware or software change detected, Mngmt SW agent change",
   EventSensorType.mk 0x2b 0x01 0x0F "Firmware or software change detected, Mngmt SW App change",
   EventSensorType.mk 0x2b 0x01 0x10 "Firmware or software change detected, Mngmt SW Middle",
   EventSensorType.mk 0x2b 0x01 0x11 "Firmware or software change detected, Prog HW Change (FPGA)",
   EventSensorType.mk 0x2b 0x01 0x12 "Firmware or software change detected, board/FRU module change",
   EventSensorType.mk 0x2b 0x01 0x13 "Firmware or software change detected, board/FRU component change",
   EventSensorType.mk 0x2b 0x01 0x14 "Firmware or software change detected, board/FRU replace equ ver",
   EventSensorType.mk 0x2b 0x01 0x15 "Firmware or software change detected, board/FRU replace new ver",
   EventSensorType.mk 0x2b 0x01 0x16 "Firmware or software change detected, board/FRU replace old ver",
   EventSensorType.mk 0x2b 0x01 0x17 "Firmware or software change detected, board/FRU HW conf change",
   EventSensorType.mk 0x2b 0x02 0xff "Hardware incompatibility detected",
   EventSensorType.mk 0x2b 0x03 0xff "Firmware or software incompatibility detected",
   EventSensorType.mk 0x2b 0x04 0xff "Invalid or unsupported hardware version",
   EventSensorType.mk 0x2b 0x05 0xff "Invalid or unsupported firmware or software version",
   EventSensorType.mk 0x2b 0x06 0xff "Hardware change success",
   EventSensorType.mk 0x2b 0x07 0x00 "Firmware or software change success",
   EventSensorType.mk 0x2b 0x07 0x01 "Firmware or software change success, Mngmt Ctrl Dev Id",
   EventSensorType.mk 0x2b 0x07 0x02 "Firmware or software change success, Mngmt Ctrl Firm Rev",
   EventSensorType.mk 0x2b 0x07 0x03 "Firmware or software change success, Mngmt Ctrl Dev Rev",
   EventSensorType.mk 0x2b 0x07 0x04 "Firmware or software change success, Mngmt Ctrl Manuf Id",
   EventSensorType.mk 0x2b 0x07 0x05 "Firmware or software change success, Mngmt Ctrl IPMI Vers",
   EventSensorType.mk 0x2b 0x07 0x06 "Firmware or software change success, Mngmt Ctrl Aux Firm Id",
   EventSensorType.mk 0x2b 0x07 0x07 "Firmware or software change success, Mngmt Ctrl Firm Boot Block",
   EventSensorType.mk 0x2b 0x07 0x08 "Firmware or software change success, Mngmt Ctrl Other",
   EventSensorType.mk 0x2b 0x07 0x09 "Firmware or software change success, BIOS/EFI change",
   EventSensorType.mk 0x2b 0x07 0x0A "Firmware or software change success, SMBIOS change",
   EventSensorType.mk 0x2b 0x07 0x0B "Firmware or software change success, O/S change",
   EventSensorType.mk 0x2b 0x07 0x0C "Firmware or software change success, O/S loader change",
   EventSensorType.mk 0x2b 0x07 0x0D "Firmware or software change success, Service Diag change",
   EventSensorType.mk 0x2b 0x07 0x0E "Firmware or software change success, Mngmt SW agent change",
   EventSensorType.mk 0x2b 0x07 0x0F "Firmware or software change success, Mngmt SW App change",
   EventSensorType.mk 0x2b 0x07 0x10 "Firmware or software change success, Mngmt SW Middle",
   EventSensorType.mk 0x2b 0x07 0x11 "Firmware or software change success, Prog HW Change (FPGA)",
   EventSensorType.mk 0x2b 0x07 0x12 "Firmware or software change success, board/FRU module change",
   EventSensorType.mk 0x2b 0x07 0x13 "Firmware or software change success, board/FRU component change",
   EventSensorType.mk 0x2b 0x07 0x14 "Firmware or software change success, board/FRU replace equ ver",
   EventSensorType.mk 0x2b 0x07 0x15 "Firmware or software change success, board/FRU replace new ver",
   EventSensorType.mk 0x2b 0x07 0x16 "Firmware or software change success, board/FRU replace old ver",
   EventSensorType.mk 0x2b 0x07 0x17 "Firmware or software change success, board/FRU HW conf change",
   EventSensorType.mk 0x2c 0x00 0xff "Not Installed",
   EventSensorType.mk 0x2c 0x01 0xff "Inactive",
   EventSensorType.mk 0x2c 0x02 0xff "Activation Requested",
   EventSensorType.mk 0x2c 0x03 0xff "Activation in Progress",
   EventSensorType.mk 0x2c 0x04 0xff "Active",
   EventSensorType.mk 0x2c 0x05 0xff "Deactivation Requested",
   EventSensorType.mk 0x2c 0x06 0xff "Deactivation in Progress",
   EventSensorType.mk 0x2c 0x07 0xff "Communication lost",
   EventSensorType.mk 0xF0 0x00 0xFF "Transition to M0",
   EventSensorType.mk 0xF0 0x01 0xFF "Transition to M1",
   EventSensorType.mk 0xF0 0x02 0xFF "Transition to M2",
   EventSensorType.mk 0xF0 0x03 0xFF "Transition to M3",
   EventSensorType.mk 0xF0 0x04 0xFF "Transition to M4",
   EventSensorType.mk 0xF0 0x05 0xFF "Transition to M5",
   EventSensorType.mk 0xF0 0x06 0xFF "Transition to M6",
   EventSensorType.mk 0xF0 0x07 0xFF "Transition to M7",
   EventSensorType.mk 0xF1 0x00 0xff "IPMB-A disabled, IPMB-B disabled",
   EventSensorType.mk 0xF1 0x01 0xff "IPMB-A enabled, IPMB-B disabled",
   EventSensorType.mk 0xF1 0x02 0xff "IPMB-A disabled, IPMB-B enabled",
   EventSensorType.mk 0xF1 0x03 0xff "IPMB-A enabled, IPMP-B enabled",
   EventSensorType.mk 0xF2 0x00 0xff "Module Handle Closed",
   EventSensorType.mk 0xF2 0x01 0xff "Module Handle Opened",
   EventSensorType.mk 0xF2 0x02 0xff "Quiesced"]

/-- Go `GetEventSensorType(sensorType, eventType, oem, filter)`: the first entry of the
chosen table whose `Code` is the lookup key and that passes `filter`; nil is `none`. -/
def GetEventSensorType (sensorType eventType : Byte) (oem : Nat)
    (filter : EventSensorType → Bool) : Option EventSensorType :=
  let sel : List EventSensorType × Byte :=
    if eventType = 0x6f then
      if sensorType ≥ 0xC0 ∧ sensorType ≤ 0xF0 ∧ oem = 15000 then
        (oemKontronEventTypes, sensorType)
      else
        (sensorSpecificEventTypes, sensorType)
    else
      (genericEventTypes, eventType)
  sel.1.find? (fun eventSensorType =>
    eventSensorType.Code == sel.2 && filter eventSensorType)

/-- Go `(*StandardSpecSelRec).GetEventSensorType(oem)`. -/
def StandardSpecSelRec.GetEventSensorType (s : StandardSpecSelRec) (oem : Nat) :
    Option EventSensorType :=
  let offset : Byte := Fin.ofNat ((s.EventData.getD 0 0).val &&& 0xf)
  Goipmi.GetEventSensorType s.SensorType s.EventType oem (fun evt =>
    if evt.Offset = offset ∧ (evt.Data = 0xff ∨
        ((Fin.ofNat ((s.EventData.getD 0 0).val &&& 0xc0) : Byte) ≠ 0 ∧
          evt.Data = s.EventData.getD 1 0)) then
      true
    else
      false)

/-- The four bytes `entry[n .. n+3]` as the operand of `time.Unix`:
`int64(uint32(entry[n]) | uint32(entry[n+1])<<8 | uint32(entry[n+2])<<16 |
uint32(entry[n+3])<<24)`. -/
def selTimestamp (entry : List Byte) (n : Nat) : Int :=
  (((entry.getD n 0).val ||| ((entry.getD (n + 1) 0).val <<< 8)
    ||| ((entry.getD (n + 2) 0).val <<< 16)
    ||| ((entry.getD (n + 3) 0).val <<< 24) : Nat) : Int)

/-- Go `UnmarshalSelBinary(entry)`. After the length test every index is in range, so
`entry[i]` is `entry.getD i 0`. -/
def UnmarshalSelBinary (entry : List Byte) : Except Error SelEntry :=
  if entry.length ≠ 16 then Except.error Error.ErrShortBuffer
  else
    let recordId : Nat := (entry.getD 0 0).val ||| ((entry.getD 1 0).val <<< 8)
    let recordType : Byte := entry.getD 2 0
    let e : SelEntry := { RecordId := recordId, RecordType := recordType,
                          StandardType := none, OemTsType := none, OemNotsType := none }
    if recordType < 0xc0 then
      let eventTd : Byte := entry.getD 12 0
      Except.ok { e with
        StandardType := some
          { Timestamp := selTimestamp entry 3
            GenId := (entry.getD 7 0).val ||| ((entry.getD 8 0).val <<< 8)
            EvmRev := entry.getD 9 0
            SensorType := entry.getD 10 0
            SensorNum := entry.getD 11 0
            EventType := Fin.ofNat (eventTd.val &&& 0x7f)
            EventDir := Fin.ofNat ((eventTd.val &&& 0x80) >>> 7)
            EventData := [entry.getD 13 0, entry.getD 14 0, entry.getD 14 0] } }
    else if recordType < 0xe0 then
      Except.ok { e with
        OemTsType := some
          { Timestamp := selTimestamp entry 3
            ManfId := [entry.getD 9 0, entry.getD 8 0, entry.getD 7 0]
            OemDefined := (List.range SEL_OEM_TS_DATA_LEN).map
              (fun i => entry.getD (10 + i) 0) } }
    else
      Except.ok { e with
        OemNotsType := some
          { OemDefined := (List.range SEL_OEM_NOTS_DATA_LEN).map
              (fun i => entry.getD (3 + i) 0) } }

/-! ## Auxiliary definitions for the statements -/

/-- The record that `SdrFullSensorRecord.UnmarshalBinary` builds from the bytes at the
fixed offsets `d 5 .. d 46` and the device-id string `id`. -/
def fullRecordOfBytes (s : SdrFullSensorRecord) (d : Nat → Byte) (id : List Byte) :
    SdrFullSensorRecord :=
  { s with
    Id := id, ownerId := d 5, ownerLun := Fin.ofNat ((d 6).val &&& 0x3), number := d 7,
    entityId := d 8, entityInstance := d 9,
    initialization := flagNames (d 10).val
      [(0x40, "scanning"), (0x20, "events"), (0x10, "thresholds"), (0x08, "hysteresis"),
       (0x04, "type"), (0x02, "default_event_generation"), (0x01, "default_scanning")],
    capabilities := SdrFullSensorRecord.decodeCapabilities (d 11).val,
    analogCharacteristic := flagNames (d 30).val
      [(0x01, "nominal_reading"), (0x02, "normal_max"), (0x04, "normal_min")],
    sensorTypeCode := d 12, eventReadingTypeCode := d 13,
    assertionMask := (d 14).val ||| ((d 15).val <<< 8),
    deassertionMask := (d 16).val ||| ((d 17).val <<< 8),
    discreteReadingMask := (d 18).val ||| ((d 19).val <<< 8),
    units1 := d 20, units2 := d 21, units3 := d 22,
    analogDataFormat := Fin.ofNat (((d 20).val >>> 6) &&& 0x3),
    rateUnit := Fin.ofNat (((d 20).val >>> 6) >>> 0x7),
    modifierUnit := Fin.ofNat (((d 20).val >>> 1) &&& 0x2),
    percentage := Fin.ofNat ((d 20).val &&& 0x1),
    linearization := Fin.ofNat ((d 23).val &&& 0x7f),
    tolerance := Fin.ofNat ((d 25).val &&& 0x3f),
    m := ConvertComplement ((((d 24).val &&& 0xff) ||| (((d 25).val &&& 0xc0) <<< 2) : Nat) : Int) 10,
    b := ConvertComplement ((((d 26).val &&& 0xff) ||| (((d 27).val &&& 0xc0) <<< 2) : Nat) : Int) 10,
    accuracy := ((((d 27).val &&& 0x3f) ||| (((d 28).val &&& 0xf0) <<< 4) : Nat) : Int),
    accuracyExp := ((((d 28).val &&& 0x0c) >>> 2 : Nat) : Int),
    k2 := ConvertComplement ((((d 29).val &&& 0xf0) >>> 4 : Nat) : Int) 4,
    k1 := ConvertComplement (((d 29).val &&& 0x0f : Nat) : Int) 4,
    sensorMinimumReading := d 35, nominalReading := d 31, normalMaximum := d 32,
    normalMinimum := d 33, sensorMaximumReading := d 34,
    threshold := [("unr", d 36), ("ucr", d 37), ("unc", d 38), ("lnr", d 39), ("lcr", d 40),
                  ("lnc", d 41)],
    hysteresis := [("positive_going", d 42), ("negative_going", d 43)],
    reserved := (d 44).val ||| ((d 45).val <<< 8), oem := d 46 }

/-- The record that `SdrCompactSensorRecord.UnmarshalBinary` builds from the bytes at
the fixed offsets `d 5 .. d 30` and the device-id string `id`. -/
def compactRecordOfBytes (s : SdrCompactSensorRecord) (d : Nat → Byte) (id : List Byte) :
    SdrCompactSensorRecord :=
  { s with
    ownerId := d 5, ownerLun := Fin.ofNat ((d 6).val &&& 0x3), number := d 7,
    entityId := d 8, entityInstance := d 9, initialization := d 10, capabilities := d 11,
    sensorTypeCode := d 12, readingType := d 13,
    assertionMask := (d 14).val ||| ((d 15).val <<< 8),
    deassertionMask := (d 16).val ||| ((d 17).val <<< 8),
    discreteReadingMask := (d 18).val ||| ((d 19).val <<< 8),
    units1 := d 20, units2 := d 21, units3 := d 22,
    recordSharing := (d 23).val ||| ((d 24).val <<< 8),
    positiveGoingHysteresis := d 25, negativeGoingHysteresis := d 26,
    reserved := (d 27).val ||| ((d 28).val <<< 8) ||| ((d 29).val <<< 16), oem := d 30,
    Id := id }

/-- The driver, in state `c`, serves the full sensor record `t` under record id
`recordId`: it answers the header request (offset 0, 5 bytes) with a chunk `hdr` of at
least 5 bytes, the payload request (record id, offset and length taken from `hdr`) with
a chunk `payload` and the next record id `next`, the two chunks decode to `t`, and it
answers the Get-Sensor-Reading request for `t` with completion code 0 and at least two
bytes; `c'` is the state after the three exchanges. -/
def ServesFullRecord {σ : Type} (ipmi_send : IpmiSend σ) (reservationId : Nat) (c : σ)
    (recordId : Nat) (t : SdrFullSensorRecord) (c' : σ) (next : Nat) : Prop :=
  ∃ (hdr payload reading : List Byte) (b0 b1 n0 n1 : Byte) (c1 c2 : σ),
    ipmi_send c (requestOf (Message.GetSdrReq reservationId recordId 0 5))
      = (0, 0 :: b0 :: b1 :: hdr, c1) ∧
    5 ≤ hdr.length ∧
    ipmi_send c1 (requestOf (Message.GetSdrReq reservationId
        ((hdr.getD 0 0).val ||| ((hdr.getD 1 0).val <<< 8))
        (Fin.ofNat hdr.length) (hdr.getD 4 0)))
      = (0, 0 :: n0 :: n1 :: payload, c2) ∧
    next = (n0.val ||| (n1.val <<< 8)) ∧
    SdrCommonFromData (hdr ++ payload) next = Except.ok (SdrCommon.full t) ∧
    ipmi_send c2 (requestOf (Message.GetSensorReadingReq t.number t.ownerLun))
      = (0, 0 :: reading, c') ∧
    2 ≤ reading.length

/-- The driver, from state `c`, serves the chain of full sensor records `ts` starting at
record id `recordId`, each record reporting the id of the next and the last one
reporting 0xFFFF; `c'` is the state after the last exchange. -/
def ServesChain {σ : Type} (ipmi_send : IpmiSend σ) (reservationId : Nat) :
    σ → Nat → List SdrFullSensorRecord → σ → Prop
  | c, recordId, [], c' => recordId = 0xffff ∧ c' = c
  | c, recordId, t :: ts, c' =>
    recordId ≠ 0xffff ∧
    ∃ (cm : σ) (next : Nat), ServesFullRecord ipmi_send reservationId c recordId t cm next ∧
      ServesChain ipmi_send reservationId cm next ts c'

/-- Every response of the driver that reports success (`rv = 0`) carries at least the
completion-code byte. -/
def FramesNonEmpty {σ : Type} (ipmi_send : IpmiSend σ) : Prop :=
  ∀ (c : σ) (rq : IpmiRq), (ipmi_send c rq).1 = 0 → (ipmi_send c rq).2.1 ≠ []

/-- The driver, in state `c`, serves under record id `recordId` a record whose type
byte (offset 3 of the header chunk) is neither 0x01 nor 0x02: it answers the header
request (offset 0, 5 bytes) with a chunk `hdr` of at least 5 bytes and the payload
request (record id, offset and length taken from `hdr`) with a chunk and the next
record id `next`; `c'` is the state after the two exchanges. -/
def ServesUnsupportedRecord {σ : Type} (ipmi_send : IpmiSend σ) (reservationId : Nat)
    (c : σ) (recordId : Nat) (c' : σ) (next : Nat) : Prop :=
  ∃ (hdr payload : List Byte) (b0 b1 n0 n1 : Byte) (c1 : σ),
    ipmi_send c (requestOf (Message.GetSdrReq reservationId recordId 0 5))
      = (0, 0 :: b0 :: b1 :: hdr, c1) ∧
    5 ≤ hdr.length ∧
    ipmi_send c1 (requestOf (Message.GetSdrReq reservationId
        ((hdr.getD 0 0).val ||| ((hdr.getD 1 0).val <<< 8))
        (Fin.ofNat hdr.length) (hdr.getD 4 0)))
      = (0, 0 :: n0 :: n1 :: payload, c') ∧
    next = (n0.val ||| (n1.val <<< 8)) ∧
    hdr.getD 3 0 ≠ 0x01 ∧ hdr.getD 3 0 ≠ 0x02

/-- The table in which `GetEventSensorType` looks an event up. -/
def eventTable (sensorType eventType : Byte) (oem : Nat) : List EventSensorType :=
  if eventType = 0x6f then
    if 0xC0 ≤ sensorType.val ∧ sensorType.val ≤ 0xF0 ∧ oem = 15000 then oemKontronEventTypes
    else sensorSpecificEventTypes
  else genericEventTypes

/-- The lookup key of `GetEventSensorType`. -/
def eventKey (sensorType eventType : Byte) : Byte :=
  if eventType = 0x6f then sensorType else eventType

/-- A table entry matches the event of a standard record under the lookup key `key`:
its `Code` is the key, its `Offset` is `EventData[0] & 0x0F`, and its `Data` is 0xFF or,
when `(EventData[0] & 0xC0) != 0`, equal to `EventData[1]`. -/
def EventMatches (s : StandardSpecSelRec) (key : Byte) (e : EventSensorType) : Prop :=
  e.Code = key ∧ e.Offset.val = (s.EventData.getD 0 0).val &&& 0x0F ∧
    (e.Data = 0xFF ∨
      ((s.EventData.getD 0 0).val &&& 0xC0 ≠ 0 ∧ e.Data = s.EventData.getD 1 0))

/-- The next record id carried by the first two bytes of a Get-SEL-Entry response
payload, as `SelEntries` computes it. -/
def selNextId (d : List Byte) : Nat := (d.getD 0 0).val ||| ((d.getD 1 0).val <<< 8)

/-- From the handle state `c`, the driver answers the Get-SEL-Entry requests of a walk
that is at record id `currId` with the payloads `ds`, one after the other, each with
return value 0, completion code 0 and at least the two bytes of the next record id;
each request asks for the next record id of the previous answer. `cEnd` is the state
after the last answer. -/
def ServesSelChain {σ : Type} (ipmi_send : IpmiSend σ) :
    σ → Nat → List (List Byte) → σ → Prop
  | c, _, [], cEnd => cEnd = c
  | c, currId, d :: ds, cEnd =>
    ∃ c1 : σ,
      ipmi_send c (requestOf (Message.GetSelEntryReq currId 0 0xff)) = (0, 0 :: d, c1) ∧
      2 ≤ d.length ∧ ServesSelChain ipmi_send c1 (selNextId d) ds cEnd

/-- The number of the answers `ds` that a walk delivers to the callback `fn` when all
of them carry a non-zero next record id: up to and including the first one on which
the callback returns false or whose next record id is 0xFFFF. -/
def selStopIndex (fn : List (List Byte) → List Byte → Bool) :
    List (List Byte) → List (List Byte) → Nat
  | _, [] => 0
  | calls, d :: ds =>
    if fn calls (d.drop 2) = false ∨ selNextId d = 0xffff then 1
    else 1 + selStopIndex fn (calls ++ [d.drop 2]) ds

/-- The driver answers the SEL-Info request and then the Reserve-SEL request of
`SelEntries` successfully, with a SEL-Info payload whose first two bytes are not both
zero; `c2` is the handle state after the two answers. -/
def ServesSelStart {σ : Type} (ipmi_send : IpmiSend σ) (c : σ) (c2 : σ) : Prop :=
  ∃ (info rsv : List Byte) (c1 : σ),
    ipmi_send c (requestOf Message.GetSelInfoReq) = (0, 0 :: info, c1) ∧
    2 ≤ info.length ∧ ¬ (info.getD 0 0 = 0 ∧ info.getD 1 0 = 0) ∧
    ipmi_send c1 (requestOf Message.ReserveSelReq) = (0, 0 :: rsv, c2)

/-- The pops that fit the bytes `bs` succeed on the buffer `b2` with those bytes: each
of `PopUint8/16/24/32`, `PopString(m)` and `PopSlice(m)` whose width is at most
`len(bs)` returns the value of the first bytes of `bs` and leaves the rest of `bs`. -/
def PopsServe (b2 : ByteBuffer) (bs : List Byte) : Prop :=
  (1 ≤ bs.length → b2.PopUint8 = (Except.ok (bs.getD 0 0), { b := bs.drop 1 })) ∧
  (2 ≤ bs.length →
    b2.PopUint16 = (Except.ok ((bs.getD 0 0).val ||| ((bs.getD 1 0).val <<< 8)),
      { b := bs.drop 2 })) ∧
  (3 ≤ bs.length →
    b2.PopUint24 = (Except.ok ((bs.getD 0 0).val ||| ((bs.getD 1 0).val <<< 8)
      ||| ((bs.getD 2 0).val <<< 16)), { b := bs.drop 3 })) ∧
  (4 ≤ bs.length →
    b2.PopUint32 = (Except.ok ((bs.getD 0 0).val ||| ((bs.getD 1 0).val <<< 8)
      ||| ((bs.getD 2 0).val <<< 16) ||| ((bs.getD 3 0).val <<< 24)),
      { b := bs.drop 4 })) ∧
  (∀ m : Nat, m ≤ bs.length →
    b2.PopString (m : Int) = (Except.ok (bs.take m), { b := bs.drop m }) ∧
    b2.PopSlice (m : Int) = (Except.ok { b := bs.take m }, { b := bs.drop m }))

/-! ## Instances used to instantiate the statements -/

/-- Exact rational arithmetic as an instance of `Float64Ops`: conversion, `+`, `*`, `/`
and powers with an integer exponent are exact; the other operations, which are not
rational-valued, are set to 0. -/
def ratOps : Float64Ops ℚ where
  ofInt := fun n => (n : ℚ)
  add := fun x y => x + y
  mul := fun x y => x * y
  div := fun x y => x / y
  pow := fun x y => if y.den = 1 then x ^ y.num else 0
  log := fun _ => 0
  log10 := fun _ => 0
  log2 := fun _ => 0
  exp := fun _ => 0
  sqrt := fun _ => 0
  oneThird := 1 / 3

/-- A full sensor record with `m = 1`, `b = 0`, `k1 = k2 = 0`, unsigned and linear. -/
def unitRecord : SdrFullSensorRecord := { m := 1 }

/-- A driver without state that answers every request with the same frame. -/
def constSend (frame : List Byte) : IpmiSend Unit := fun c _ => (0, frame, c)

/-- A record body of type 0x01 with record id 1, sensor number 7, `m = 1`, `b = 0`,
`k1 = k2 = 0`, unsigned and linear, and the device-id string "Temp". -/
def stubRecordA : List Byte :=
  [0x01, 0x00, 0x51, 0x01, 47,
   0x20, 0x00, 7, 3, 1, 0x7f, 0x68, 0x01, 0x01, 0, 0, 0, 0, 0, 0,
   0x00, 1, 0, 0, 1, 0, 0, 0, 0, 0,
   7, 0, 0, 0, 0, 0, 0, 0, 0, 0, 0, 0, 0, 0, 0, 0, 0,
   0xC4, 84, 101, 109, 112]

/-- A record body of type 0x01 with record id 2, sensor number 8 and the device-id
string "Fan1". -/
def stubRecordB : List Byte :=
  [0x02, 0x00, 0x51, 0x01, 47,
   0x20, 0x00, 8, 29, 1, 0x7f, 0x68, 0x04, 0x01, 0, 0, 0, 0, 0, 0,
   0x00, 18, 0, 0, 1, 0, 0, 0, 0, 0,
   7, 0, 0, 0, 0, 0, 0, 0, 0, 0, 0, 0, 0, 0, 0, 0, 0,
   0xC4, 70, 97, 110, 49]

/-- The full sensor record decoded from `stubRecordA` with next record id 2. -/
def stubFullA : SdrFullSensorRecord :=
  fullRecordOfBytes
    { SdrCommonHeader := { id := 1, version := 0x51, typ := 0x01, length := 47 },
      Data := stubRecordA, nextId := 2 }
    (fun i => stubRecordA.getD i 0) [84, 101, 109, 112]

/-- The full sensor record decoded from `stubRecordB` with next record id 0xFFFF. -/
def stubFullB : SdrFullSensorRecord :=
  fullRecordOfBytes
    { SdrCommonHeader := { id := 2, version := 0x51, typ := 0x01, length := 47 },
      Data := stubRecordB, nextId := 0xffff }
    (fun i => stubRecordB.getD i 0) [70, 97, 110, 49]

/-- A driver without state over a repository of the two records `stubRecordA` (ids 0
and 1, next id 2) and `stubRecordB` (id 2, next id 0xFFFF): reservation id 0x1234, the
requested chunk of the requested record, completion code 0xCB for any other record id,
and the sensor reading 0x2A with config byte 0x40. -/
def stubSend : IpmiSend Unit := fun c rq =>
  if rq.cmd = CommandGetReserveSDRRepo then (0, [0x00, 0x34, 0x12], c)
  else if rq.cmd = CommandGetSensorReading then (0, [0x00, 0x2A, 0x40], c)
  else if rq.cmd = CommandGetSDR then
    match rq.data with
    | [_, _, idLo, idHi, offset, count] =>
      let id := idLo.val ||| (idHi.val <<< 8)
      if id = 0 ∨ id = 1 then
        (0, [0x00, 0x02, 0x00] ++ (stubRecordA.drop offset.val).take count.val, c)
      else if id = 2 then
        (0, [0x00, 0xFF, 0xFF] ++ (stubRecordB.drop offset.val).take count.val, c)
      else (0, [0xCB], c)
    | _ => (0, [0xC7], c)
  else (0, [0xC1], c)

/-- A record body of type 0xC0 (OEM) with record id 5 and three payload bytes. -/
def stubRecordOem : List Byte := [0x05, 0x00, 0x51, 0xC0, 3, 1, 2, 3]

/-- A record body of type 0x02 (compact) with record id 3, sensor number 9 and the
device-id string "PS1". -/
def stubRecordCompact : List Byte :=
  [0x03, 0x00, 0x51, 0x02, 30,
   0x20, 0x00, 9, 10, 1, 0x67, 0x40, 0x08, 0x6f, 0, 0, 0, 0, 0, 0,
   0x00, 0, 0, 0, 0, 0, 0, 0, 0, 0, 0,
   0xC3, 80, 83, 49]

/-- The compact sensor record decoded from `stubRecordCompact` with next record id 2. -/
def stubCompact : SdrCompactSensorRecord :=
  compactRecordOfBytes
    { SdrCommonHeader := { id := 3, version := 0x51, typ := 0x02, length := 30 },
      Data := stubRecordCompact, nextId := 2 }
    (fun i => stubRecordCompact.getD i 0) [80, 83, 49]

/-- A driver without state over a repository given as a list of
(record id, record body, next record id): reservation id 0x1234, the requested chunk of
the requested record, completion code 0xCB for an unknown record id, and the frame
`readingFrame` for every Get-Sensor-Reading. -/
def repoSend (readingFrame : List Byte) (repo : List (Nat × List Byte × Nat)) :
    IpmiSend Unit := fun c rq =>
  if rq.cmd = CommandGetReserveSDRRepo then (0, [0x00, 0x34, 0x12], c)
  else if rq.cmd = CommandGetSensorReading then (0, readingFrame, c)
  else if rq.cmd = CommandGetSDR then
    match rq.data with
    | [_, _, idLo, idHi, offset, count] =>
      match repo.find? (fun e => e.1 == (idLo.val ||| (idHi.val <<< 8))) with
      | some (_, body, next) =>
        (0, [0x00, Fin.ofNat next, Fin.ofNat (next >>> 8)]
              ++ (body.drop offset.val).take count.val, c)
      | none => (0, [0xCB], c)
    | _ => (0, [0xC7], c)
  else (0, [0xC1], c)

/-- A repository whose first record is of the unsupported type 0xC0 and reports the
next record id 2, the id of the full sensor record `stubRecordB`. -/
def skipRepo : List (Nat × List Byte × Nat) :=
  [(0, stubRecordOem, 2), (5, stubRecordOem, 2), (2, stubRecordB, 0xffff)]

/-- A repository whose first record is a compact sensor record and reports the next
record id 2, the id of the full sensor record `stubRecordB`. -/
def compactRepo : List (Nat × List Byte × Nat) :=
  [(0, stubRecordCompact, 2), (3, stubRecordCompact, 2), (2, stubRecordB, 0xffff)]

/-- The repository of `stubSend`: the two full sensor records. -/
def fullRepo : List (Nat × List Byte × Nat) :=
  [(0, stubRecordA, 2), (1, stubRecordA, 2), (2, stubRecordB, 0xffff)]

/-- A driver that answers the requests it receives with the frames of a script, one
after the other, whatever the request, and keeps the requests it has seen; when the
script is used up it answers with completion code 0xCB. -/
def scriptSend : IpmiSend (List (List Byte) × List IpmiRq) := fun c rq =>
  match c.1 with
  | [] => (0, [0xCB], ([], c.2 ++ [rq]))
  | frame :: rest => (0, frame, (rest, c.2 ++ [rq]))

/-- A SEL-Info response frame: version 0x51, one entry, addition time 0x12345678. -/
def selInfoFrame : List Byte :=
  [0x00, 0x51, 0x01, 0x00, 0xF0, 0xFF, 0x78, 0x56, 0x34, 0x12, 0, 0, 0, 0, 0x02]

/-- A Reserve-SEL response frame. -/
def selReserveFrame : List Byte := [0x00, 0x01, 0x00]

/-- A Get-SEL-Entry response frame with the given next record id and a 16-byte entry of
record type 0x02 whose record id and sensor number are `tag`. -/
def selEntryFrame (next : Nat) (tag : Byte) : List Byte :=
  [0x00, Fin.ofNat next, Fin.ofNat (next >>> 8),
   tag, 0x00, 0x02, 0x78, 0x56, 0x34, 0x12, 0x20, 0x00, 0x04, 0x01, tag, 0x01,
   0x57, 0x00, 0x00]

/-- The callback that accepts every entry. -/
def acceptAll : List (List Byte) → List Byte → Bool := fun _ _ => true

/-- The callback that stops at its second invocation. -/
def stopAtSecond : List (List Byte) → List Byte → Bool := fun calls _ => calls.length < 1

/-- A driver without state of its own, run with a log: the handle state is the list of
the requests received so far. -/
def logSend (send : IpmiSend Unit) : IpmiSend (List IpmiRq) := fun log rq =>
  ((send () rq).1, (send () rq).2.1, log ++ [rq])

/-- The repository `fullRepo` of two full sensor records, which also answers a read
of record id 0xFFFF with its last record. -/
def lastRepo : List (Nat × List Byte × Nat) :=
  [(0, stubRecordA, 2), (1, stubRecordA, 2), (2, stubRecordB, 0xffff),
   (0xffff, stubRecordB, 0xffff)]

/-- The record ids of the Get-SDR requests in a log of requests, in order. -/
def sdrRequestIds (log : List IpmiRq) : List Nat :=
  (log.filter (fun r => r.cmd == CommandGetSDR)).map
    (fun r => (r.data.getD 2 0).val ||| ((r.data.getD 3 0).val <<< 8))

/-! # Theorems -/

/-! ## Machine integers: helper lemmas -/

theorem toU64_natCast (n : Nat) (h : n < 2 ^ 64) : toU64 (n : Int) = n := by
  unfold toU64
  have : ((n : Int) % 2 ^ 64) = (n : Int) := Int.emod_eq_of_lt (by omega) (by exact_mod_cast h)
  rw [this]; simp

theorem ofU64_of_lt (n : Nat) (h : n < 2 ^ 63) : ofU64 n = (n : Int) := by
  unfold ofU64
  have h1 : n % 2 ^ 64 = n := Nat.mod_eq_of_lt (by omega)
  rw [h1, if_pos h]

theorem and_two_pow_of_lt (v k : Nat) (h : v < 2 ^ (k + 1)) :
    v &&& 2 ^ k = if 2 ^ k ≤ v then 2 ^ k else 0 := by
  apply Nat.eq_of_testBit_eq
  intro i
  rw [Nat.testBit_and, Nat.testBit_two_pow]
  by_cases hik : k = i
  · subst hik
    simp only [decide_True, Bool.and_true]
    split
    · rename_i hle
      rw [Nat.testBit_two_pow_self]
      rw [Nat.testBit_to_div_mod]
      have h1 : v / 2 ^ k = 1 := by
        apply Nat.div_eq_of_lt_le
        · simpa using hle
        · rw [Nat.pow_succ] at h; omega
      simp [h1]
    · rename_i hlt
      simp only [Nat.zero_testBit]
      exact Nat.testBit_lt_two_pow (by omega)
  · simp only [hik, decide_False, Bool.and_false]
    split
    · rw [Nat.testBit_two_pow_of_ne hik]
    · simp


theorem uintPred_natCast (s : Nat) (h1 : 1 ≤ s) (h : s < 2 ^ 63) : uintPred (s : Int) = s - 1 := by
  unfold uintPred
  rw [toU64_natCast s (by omega)]
  omega

theorem wrapInt64_of_range (x : Int) (hlo : -2 ^ 63 ≤ x) (hhi : x < 2 ^ 63) : wrapInt64 x = x := by
  unfold wrapInt64 ofU64 toU64
  split <;> omega

/-- The value of `ConvertComplement` on a `size`-bit pattern: two's complement. -/
theorem ConvertComplement_eq (value : Int) (size : Nat) (hs : 1 ≤ size)
    (hsz : size < 2 ^ 63) (h0 : 0 ≤ value) (hv : value < 2 ^ size) (hint : value < 2 ^ 63) :
    ConvertComplement value size
        = (if value < 2 ^ (size - 1) then value else value - 2 ^ size) := by
  obtain ⟨v, rfl⟩ := Int.eq_ofNat_of_zero_le h0
  have hv63 : v < 2 ^ 63 := by exact_mod_cast hint
  have hvs : v < 2 ^ size := by exact_mod_cast hv
  unfold ConvertComplement
  rw [uintPred_natCast size hs hsz, toU64_natCast size (by omega)]
  unfold andInt
  rw [toU64_natCast v (by omega)]
  by_cases hbig : 65 ≤ size
  · have hle : (2:Nat) ^ 63 ≤ 2 ^ (size - 1) := Nat.pow_le_pow_right (by decide) (by omega)
    have hlt : (v : Int) < 2 ^ (size - 1) := by
      have : v < 2 ^ (size - 1) := by omega
      exact_mod_cast this
    have : shlInt 1 (size - 1) = 0 := by unfold shlInt; rw [if_pos (by omega)]
    rw [this]
    simp [toU64, ofU64, hlt]
  by_cases h64 : size = 64
  · subst h64
    have hsh : shlInt 1 (64 - 1) = -2 ^ 63 := by decide
    have htu : toU64 (-2 ^ 63) = 2 ^ 63 := by decide
    have hge : ¬ (2 ^ 63 ≤ v) := by omega
    have hlt : (v : Int) < 2 ^ (64 - 1) := by exact_mod_cast hv63
    have hz : ofU64 0 = 0 := by decide
    rw [hsh, htu, and_two_pow_of_lt v 63 (by omega), if_neg hge, hz, if_pos hlt]
    simp
  have hk : size - 1 ≤ 62 := by omega
  have hple : (2:Nat) ^ (size - 1) ≤ 2 ^ 62 := Nat.pow_le_pow_right (by decide) hk
  have hpp : (2:Nat) ^ size = 2 * 2 ^ (size - 1) := by
    have : size = (size - 1) + 1 := by omega
    conv_lhs => rw [this, Nat.pow_succ]
    omega
  have hsh : shlInt 1 (size - 1) = ((2 ^ (size - 1) : Nat) : Int) := by
    unfold shlInt
    rw [if_neg (by omega)]
    have : toU64 1 = 1 := by decide
    rw [this, Nat.one_mul, ofU64_of_lt _ (by omega)]
  rw [hsh, toU64_natCast _ (by omega), and_two_pow_of_lt v (size - 1) (by
    have : size - 1 + 1 = size := by omega
    rw [this]; exact hvs)]
  by_cases hge : 2 ^ (size - 1) ≤ v
  · have hnlt : ¬ ((v : Int) < 2 ^ (size - 1)) := by
      have : ¬ (v < 2 ^ (size - 1)) := by omega
      exact_mod_cast this
    have hne : ofU64 (2 ^ (size - 1)) ≠ 0 := by
      rw [ofU64_of_lt _ (by omega)]
      have : 0 < 2 ^ (size - 1) := Nat.pow_pos (by decide)
      omega
    rw [if_pos hge, if_pos hne, if_neg hnlt]
    by_cases h63 : size = 63
    · subst h63
      have h1 : shlInt 1 ((63 : Nat) : Int).toNat = -2 ^ 63 := by decide
      have h2 : wrapInt64 (-(-2 ^ 63)) = -2 ^ 63 := by decide
      simp only [Int.toNat_ofNat] at h1
      rw [h1, h2, wrapInt64_of_range _ (by omega) (by omega)]
      push_cast
      omega
    · have hple2 : (2:Nat) ^ size ≤ 2 ^ 62 := Nat.pow_le_pow_right (by decide) (by omega)
      have h1 : shlInt 1 size = ((2 ^ size : Nat) : Int) := by
        unfold shlInt
        rw [if_neg (by omega)]
        have : toU64 1 = 1 := by decide
        rw [this, Nat.one_mul, ofU64_of_lt _ (by omega)]
      have hw1 : wrapInt64 (-((2 ^ size : Nat) : Int)) = -((2 ^ size : Nat) : Int) :=
        wrapInt64_of_range _ (by omega) (by omega)
      have hw2 : wrapInt64 (-((2 ^ size : Nat) : Int) + (v : Int))
          = -((2 ^ size : Nat) : Int) + (v : Int) :=
        wrapInt64_of_range _ (by omega) (by omega)
      rw [h1, hw1, hw2]
      push_cast
      omega
  · have hlt : (v : Int) < 2 ^ (size - 1) := by
      have : v < 2 ^ (size - 1) := by omega
      exact_mod_cast this
    rw [if_neg hge, if_pos hlt]
    simp [ofU64]


/-- C1: for every size >= 1 and every value with 0 <= value < 2^size (both Go ints,
so below 2^63), `ConvertComplement value size` is `value` when value < 2^(size-1) and
value - 2^size otherwise, hence lies in [-2^(size-1), 2^(size-1) - 1]; in particular
ConvertComplement(0x3FF,10) = -1, ConvertComplement(0x200,10) = -512 and
ConvertComplement(0x0FF,10) = 255. -/
theorem ConvertComplement_twos_complement (value : Int) (size : Nat) (hs : 1 ≤ size)
    (hsz : size < 2 ^ 63) (h0 : 0 ≤ value) (hv : value < 2 ^ size) (hint : value < 2 ^ 63) :
    ConvertComplement value size
        = (if value < 2 ^ (size - 1) then value else value - 2 ^ size) ∧
    -(2 ^ (size - 1)) ≤ ConvertComplement value size ∧
    ConvertComplement value size ≤ 2 ^ (size - 1) - 1 ∧
    ConvertComplement 0x3FF 10 = -1 ∧ ConvertComplement 0x200 10 = -512 ∧
    ConvertComplement 0x0FF 10 = 255 := by
  have heq := ConvertComplement_eq value size hs hsz h0 hv hint
  have hpow : (2 : Int) ^ size = 2 * 2 ^ (size - 1) := by
    have : size = (size - 1) + 1 := by omega
    conv_lhs => rw [this, pow_succ]
    ring
  have hpos : (0 : Int) < 2 ^ (size - 1) := by positivity
  refine ⟨heq, ?_, ?_, by decide, by decide, by decide⟩
  · rw [heq]; split <;> omega
  · rw [heq]; split <;> omega

/-- C1 at value = 0x3FF, size = 10. -/
theorem ConvertComplement_twos_complement_witness :
    ConvertComplement 0x3FF (10 : Nat)
        = (if (0x3FF : Int) < 2 ^ (10 - 1) then 0x3FF else 0x3FF - 2 ^ 10) ∧
    -(2 ^ (10 - 1)) ≤ ConvertComplement 0x3FF (10 : Nat) ∧
    ConvertComplement 0x3FF (10 : Nat) ≤ 2 ^ (10 - 1) - 1 ∧
    ConvertComplement 0x3FF 10 = -1 ∧ ConvertComplement 0x200 10 = -512 ∧
    ConvertComplement 0x0FF 10 = 255 :=
  ConvertComplement_twos_complement 0x3FF 10 (by decide) (by decide) (by decide)
    (by decide) (by decide)

/-! ## The record decoders: closed forms -/

/-- Closed form of the full-sensor decoder: panic below 5 bytes, `DataTooShort` below
48 bytes, then the device-id string read from offset 47 on. -/
theorem UnmarshalBinary_full_closed (s : SdrFullSensorRecord) (data : List Byte) :
    SdrFullSensorRecord.UnmarshalBinary s data =
      if data.length < 5 then Except.error Error.runtimePanic
      else if data.length < 48 then Except.error Error.DataTooShort
      else
        deviceIdString { b := data.drop 47 } >>= fun v =>
          Except.ok (fullRecordOfBytes s (fun i => data.getD i 0) v.1) := by
  rcases data with _ | ⟨a0, data⟩
  · rfl
  rcases data with _ | ⟨a1, data⟩
  · rfl
  rcases data with _ | ⟨a2, data⟩
  · rfl
  rcases data with _ | ⟨a3, data⟩
  · rfl
  rcases data with _ | ⟨a4, data⟩
  · rfl
  rcases data with _ | ⟨a5, data⟩
  · rfl
  rcases data with _ | ⟨a6, data⟩
  · rfl
  rcases data with _ | ⟨a7, data⟩
  · rfl
  rcases data with _ | ⟨a8, data⟩
  · rfl
  rcases data with _ | ⟨a9, data⟩
  · rfl
  rcases data with _ | ⟨a10, data⟩
  · rfl
  rcases data with _ | ⟨a11, data⟩
  · rfl
  rcases data with _ | ⟨a12, data⟩
  · rfl
  rcases data with _ | ⟨a13, data⟩
  · rfl
  rcases data with _ | ⟨a14, data⟩
  · rfl
  rcases data with _ | ⟨a15, data⟩
  · rfl
  rcases data with _ | ⟨a16, data⟩
  · rfl
  rcases data with _ | ⟨a17, data⟩
  · rfl
  rcases data with _ | ⟨a18, data⟩
  · rfl
  rcases data with _ | ⟨a19, data⟩
  · rfl
  rcases data with _ | ⟨a20, data⟩
  · rfl
  rcases data with _ | ⟨a21, data⟩
  · rfl
  rcases data with _ | ⟨a22, data⟩
  · rfl
  rcases data with _ | ⟨a23, data⟩
  · rfl
  rcases data with _ | ⟨a24, data⟩
  · rfl
  rcases data with _ | ⟨a25, data⟩
  · rfl
  rcases data with _ | ⟨a26, data⟩
  · rfl
  rcases data with _ | ⟨a27, data⟩
  · rfl
  rcases data with _ | ⟨a28, data⟩
  · rfl
  rcases data with _ | ⟨a29, data⟩
  · rfl
  rcases data with _ | ⟨a30, data⟩
  · rfl
  rcases data with _ | ⟨a31, data⟩
  · rfl
  rcases data with _ | ⟨a32, data⟩
  · rfl
  rcases data with _ | ⟨a33, data⟩
  · rfl
  rcases data with _ | ⟨a34, data⟩
  · rfl
  rcases data with _ | ⟨a35, data⟩
  · rfl
  rcases data with _ | ⟨a36, data⟩
  · rfl
  rcases data with _ | ⟨a37, data⟩
  · rfl
  rcases data with _ | ⟨a38, data⟩
  · rfl
  rcases data with _ | ⟨a39, data⟩
  · rfl
  rcases data with _ | ⟨a40, data⟩
  · rfl
  rcases data with _ | ⟨a41, data⟩
  · rfl
  rcases data with _ | ⟨a42, data⟩
  · rfl
  rcases data with _ | ⟨a43, data⟩
  · rfl
  rcases data with _ | ⟨a44, data⟩
  · rfl
  rcases data with _ | ⟨a45, data⟩
  · rfl
  rcases data with _ | ⟨a46, data⟩
  · rfl
  rcases data with _ | ⟨a47, data⟩
  · rfl
  rfl

/-- Closed form of the compact-sensor decoder: panic below 5 bytes, `DataTooShort` below
32 bytes, then the device-id string read from offset 31 on. -/
theorem UnmarshalBinary_compact_closed (s : SdrCompactSensorRecord) (data : List Byte) :
    SdrCompactSensorRecord.UnmarshalBinary s data =
      if data.length < 5 then Except.error Error.runtimePanic
      else if data.length < 32 then Except.error Error.DataTooShort
      else
        deviceIdString { b := data.drop 31 } >>= fun v =>
          Except.ok (compactRecordOfBytes s (fun i => data.getD i 0) v.1) := by
  rcases data with _ | ⟨a0, data⟩
  · rfl
  rcases data with _ | ⟨a1, data⟩
  · rfl
  rcases data with _ | ⟨a2, data⟩
  · rfl
  rcases data with _ | ⟨a3, data⟩
  · rfl
  rcases data with _ | ⟨a4, data⟩
  · rfl
  rcases data with _ | ⟨a5, data⟩
  · rfl
  rcases data with _ | ⟨a6, data⟩
  · rfl
  rcases data with _ | ⟨a7, data⟩
  · rfl
  rcases data with _ | ⟨a8, data⟩
  · rfl
  rcases data with _ | ⟨a9, data⟩
  · rfl
  rcases data with _ | ⟨a10, data⟩
  · rfl
  rcases data with _ | ⟨a11, data⟩
  · rfl
  rcases data with _ | ⟨a12, data⟩
  · rfl
  rcases data with _ | ⟨a13, data⟩
  · rfl
  rcases data with _ | ⟨a14, data⟩
  · rfl
  rcases data with _ | ⟨a15, data⟩
  · rfl
  rcases data with _ | ⟨a16, data⟩
  · rfl
  rcases data with _ | ⟨a17, data⟩
  · rfl
  rcases data with _ | ⟨a18, data⟩
  · rfl
  rcases data with _ | ⟨a19, data⟩
  · rfl
  rcases data with _ | ⟨a20, data⟩
  · rfl
  rcases data with _ | ⟨a21, data⟩
  · rfl
  rcases data with _ | ⟨a22, data⟩
  · rfl
  rcases data with _ | ⟨a23, data⟩
  · rfl
  rcases data with _ | ⟨a24, data⟩
  · rfl
  rcases data with _ | ⟨a25, data⟩
  · rfl
  rcases data with _ | ⟨a26, data⟩
  · rfl
  rcases data with _ | ⟨a27, data⟩
  · rfl
  rcases data with _ | ⟨a28, data⟩
  · rfl
  rcases data with _ | ⟨a29, data⟩
  · rfl
  rcases data with _ | ⟨a30, data⟩
  · rfl
  rcases data with _ | ⟨a31, data⟩
  · rfl
  rfl


/-- What a successful full-sensor decode implies: at least 48 bytes, a device-id string
read from offset 47 on, and the record built from the bytes at their fixed offsets. -/
theorem UnmarshalBinary_full_ok (s r : SdrFullSensorRecord) (data : List Byte)
    (h : SdrFullSensorRecord.UnmarshalBinary s data = Except.ok r) :
    48 ≤ data.length ∧ ∃ v, deviceIdString { b := data.drop 47 } = Except.ok v ∧
      r = fullRecordOfBytes s (fun i => data.getD i 0) v.1 := by
  rw [UnmarshalBinary_full_closed] at h
  by_cases h5 : data.length < 5
  · rw [if_pos h5] at h; cases h
  rw [if_neg h5] at h
  by_cases h48 : data.length < 48
  · rw [if_pos h48] at h; cases h
  rw [if_neg h48] at h
  refine ⟨by omega, ?_⟩
  cases hd : deviceIdString { b := data.drop 47 } with
  | error e => rw [hd] at h; cases h
  | ok v =>
    rw [hd] at h
    have h2 : Except.ok (fullRecordOfBytes s (fun i => data.getD i 0) v.1) = Except.ok r := h
    exact ⟨v, rfl, (Except.ok.inj h2).symm⟩

/-- Masking a byte with 0xff leaves it unchanged. -/
theorem byte_and_ff (a : Byte) : a.val &&& 0xff = a.val :=
  Nat.and_pow_two_sub_one_of_lt_two_pow (n := 8) a.isLt

/-- The 10-bit pattern assembled from a byte and the two top bits of another. -/
theorem tenBit_lt (a b : Byte) : a.val ||| ((b.val &&& 0xc0) <<< 2) < 2 ^ 10 := by
  apply Nat.or_lt_two_pow
  · have := a.isLt; omega
  · have h1 : b.val &&& 0xc0 ≤ 0xc0 := Nat.and_le_right
    rw [Nat.shiftLeft_eq]
    omega

set_option maxRecDepth 100000 in
/-- The high nibble of a byte. -/
theorem byte_high_nibble (c : Byte) : (c.val &&& 0xf0) >>> 4 = c.val / 16 := by
  revert c; decide

/-- The low nibble of a byte. -/
theorem byte_low_nibble (c : Byte) : c.val &&& 0x0f = c.val % 16 :=
  Nat.and_pow_two_sub_one_eq_mod c.val 4

/-! ## C2 -/

/-- C2: for every record that `SdrFullSensorRecord.UnmarshalBinary` decodes
successfully, `m` is the 10-bit two's-complement value of
`data[24] | (data[25] & 0xC0) << 2` and `b` that of `data[26] | (data[27] & 0xC0) << 2`,
`k2` is the 4-bit two's-complement value of the high nibble of `data[29]` and `k1` that
of its low nibble; hence -512 <= m, b <= 511 and -8 <= k1, k2 <= 7. -/
theorem UnmarshalBinary_coefficients (s r : SdrFullSensorRecord) (data : List Byte)
    (h : SdrFullSensorRecord.UnmarshalBinary s data = Except.ok r) :
    30 ≤ data.length ∧
    r.m = ConvertComplement
      (((data.getD 24 0).val ||| (((data.getD 25 0).val &&& 0xC0) <<< 2) : Nat) : Int) 10 ∧
    r.m = (if (data.getD 24 0).val ||| (((data.getD 25 0).val &&& 0xC0) <<< 2) < 512
            then (((data.getD 24 0).val ||| (((data.getD 25 0).val &&& 0xC0) <<< 2) : Nat) : Int)
            else (((data.getD 24 0).val ||| (((data.getD 25 0).val &&& 0xC0) <<< 2) : Nat) : Int)
                  - 1024) ∧
    r.b = ConvertComplement
      (((data.getD 26 0).val ||| (((data.getD 27 0).val &&& 0xC0) <<< 2) : Nat) : Int) 10 ∧
    r.b = (if (data.getD 26 0).val ||| (((data.getD 27 0).val &&& 0xC0) <<< 2) < 512
            then (((data.getD 26 0).val ||| (((data.getD 27 0).val &&& 0xC0) <<< 2) : Nat) : Int)
            else (((data.getD 26 0).val ||| (((data.getD 27 0).val &&& 0xC0) <<< 2) : Nat) : Int)
                  - 1024) ∧
    r.k2 = ConvertComplement (((data.getD 29 0).val / 16 : Nat) : Int) 4 ∧
    r.k2 = (if (data.getD 29 0).val / 16 < 8 then (((data.getD 29 0).val / 16 : Nat) : Int)
            else (((data.getD 29 0).val / 16 : Nat) : Int) - 16) ∧
    r.k1 = ConvertComplement (((data.getD 29 0).val % 16 : Nat) : Int) 4 ∧
    r.k1 = (if (data.getD 29 0).val % 16 < 8 then (((data.getD 29 0).val % 16 : Nat) : Int)
            else (((data.getD 29 0).val % 16 : Nat) : Int) - 16) ∧
    (-512 ≤ r.m ∧ r.m ≤ 511) ∧ (-512 ≤ r.b ∧ r.b ≤ 511) ∧
    (-8 ≤ r.k1 ∧ r.k1 ≤ 7) ∧ (-8 ≤ r.k2 ∧ r.k2 ≤ 7) := by
  obtain ⟨hlen, v, -, rfl⟩ := UnmarshalBinary_full_ok s r data h
  have hm : (fullRecordOfBytes s (fun i => data.getD i 0) v.1).m = ConvertComplement
      (((data.getD 24 0).val ||| (((data.getD 25 0).val &&& 0xC0) <<< 2) : Nat) : Int) 10 := by
    show ConvertComplement ((((data.getD 24 0).val &&& 0xff) |||
      (((data.getD 25 0).val &&& 0xc0) <<< 2) : Nat) : Int) 10 = _
    rw [byte_and_ff]
  have hb : (fullRecordOfBytes s (fun i => data.getD i 0) v.1).b = ConvertComplement
      (((data.getD 26 0).val ||| (((data.getD 27 0).val &&& 0xC0) <<< 2) : Nat) : Int) 10 := by
    show ConvertComplement ((((data.getD 26 0).val &&& 0xff) |||
      (((data.getD 27 0).val &&& 0xc0) <<< 2) : Nat) : Int) 10 = _
    rw [byte_and_ff]
  have hk2 : (fullRecordOfBytes s (fun i => data.getD i 0) v.1).k2
      = ConvertComplement (((data.getD 29 0).val / 16 : Nat) : Int) 4 := by
    show ConvertComplement ((((data.getD 29 0).val &&& 0xf0) >>> 4 : Nat) : Int) 4 = _
    rw [byte_high_nibble]
  have hk1 : (fullRecordOfBytes s (fun i => data.getD i 0) v.1).k1
      = ConvertComplement (((data.getD 29 0).val % 16 : Nat) : Int) 4 := by
    show ConvertComplement (((data.getD 29 0).val &&& 0x0f : Nat) : Int) 4 = _
    rw [byte_low_nibble]
  have e10 : ∀ x : Nat, x < 2 ^ 10 → ConvertComplement (x : Int) 10
      = (if x < 512 then (x : Int) else (x : Int) - 1024) := by
    intro x hx
    have := ConvertComplement_eq (x : Int) 10 (by decide) (by decide) (by omega)
      (by exact_mod_cast hx) (by omega)
    rw [show ((10 : Nat) : Int) = 10 from rfl] at this
    rw [this]
    by_cases hlt : x < 512
    · rw [if_pos hlt, if_pos (by norm_num; omega)]
    · rw [if_neg hlt, if_neg (by norm_num; omega)]; norm_num
  have e4 : ∀ x : Nat, x < 2 ^ 4 → ConvertComplement (x : Int) 4
      = (if x < 8 then (x : Int) else (x : Int) - 16) := by
    intro x hx
    have := ConvertComplement_eq (x : Int) 4 (by decide) (by decide) (by omega)
      (by exact_mod_cast hx) (by omega)
    rw [show ((4 : Nat) : Int) = 4 from rfl] at this
    rw [this]
    by_cases hlt : x < 8
    · rw [if_pos hlt, if_pos (by norm_num; omega)]
    · rw [if_neg hlt, if_neg (by norm_num; omega)]; norm_num
  have xm := tenBit_lt (data.getD 24 0) (data.getD 25 0)
  have xb := tenBit_lt (data.getD 26 0) (data.getD 27 0)
  have xk2 : (data.getD 29 0).val / 16 < 2 ^ 4 := by
    have := (data.getD 29 0).isLt; omega
  have xk1 : (data.getD 29 0).val % 16 < 2 ^ 4 := by omega
  have hm2 := e10 _ xm
  have hb2 := e10 _ xb
  have hk22 := e4 _ xk2
  have hk12 := e4 _ xk1
  refine ⟨by omega, hm, hm.trans hm2, hb, hb.trans hb2, hk2, hk2.trans hk22, hk1,
    hk1.trans hk12, ?_, ?_, ?_, ?_⟩
  · rw [hm, hm2]; split <;> omega
  · rw [hb, hb2]; split <;> omega
  · rw [hk1, hk12]; split <;> omega
  · rw [hk2, hk22]; split <;> omega

/-- C2 at the record body `stubRecordA` (m = 1, b = 0, k1 = k2 = 0). -/
theorem UnmarshalBinary_coefficients_witness :
    (SdrFullSensorRecord.UnmarshalBinary {} stubRecordA).map (fun r => (r.m, r.b, r.k1, r.k2))
      = Except.ok (1, 0, 0, 0) ∧
    ∀ r, SdrFullSensorRecord.UnmarshalBinary {} stubRecordA = Except.ok r →
      (-512 ≤ r.m ∧ r.m ≤ 511) ∧ (-512 ≤ r.b ∧ r.b ≤ 511) ∧
      (-8 ≤ r.k1 ∧ r.k1 ≤ 7) ∧ (-8 ≤ r.k2 ∧ r.k2 ≤ 7) :=
  ⟨rfl, fun r h =>
    (UnmarshalBinary_coefficients {} r stubRecordA h).2.2.2.2.2.2.2.2.2⟩

/-! ## C3, C4, C5: raw reading to value -/

/-- Exact rational arithmetic satisfies the identities of `Float64Ops.Exact`. -/
theorem ratOps_exact : ratOps.Exact where
  pow_zero := by simp [ratOps]
  zero_mul_one := by simp [ratOps]
  one_mul := by intro n; simp [ratOps]
  mul_one := by intro n; simp [ratOps]
  add_zero := by intro n; simp [ratOps]

/-- With `m = 1`, `b = 0`, `k1 = k2 = 0` and linear linearization the conversion
returns the raw value after the analog data format is applied. -/
theorem ConvertSensorRawToValue_linear_unit {F : Type} (ops : Float64Ops F)
    (hex : ops.Exact) (s : SdrFullSensorRecord) (raw : Int)
    (hlin : s.linearization = 0) (hm : s.m = 1) (hb : s.b = 0) (hk1 : s.k1 = 0)
    (hk2 : s.k2 = 0) :
    s.ConvertSensorRawToValue ops raw
      = Except.ok (ops.ofInt (applyAnalogDataFormat s.analogDataFormat raw)) := by
  unfold SdrFullSensorRecord.ConvertSensorRawToValue
  have h0 : (s.linearization.val &&& 0x7f) = 0 := by rw [hlin]; rfl
  simp only [hm, hb, hk1, hk2, hex.pow_zero, hex.zero_mul_one, hex.one_mul, hex.add_zero,
    hex.mul_one]
  rw [h0]

set_option maxRecDepth 100000 in
/-- The 1's-complement and 2's-complement formats on a byte value. -/
theorem applyAnalogDataFormat_byte (n : Fin 256) :
    applyAnalogDataFormat DATA_FMT_UNSIGNED (n.val : Int) = (n.val : Int) ∧
    applyAnalogDataFormat DATA_FMT_1S_COMPLEMENT (n.val : Int)
      = (if (n.val : Int) < 128 then (n.val : Int)
         else -(xorInt (andInt (n.val : Int) 0x7f) 0x7f)) ∧
    applyAnalogDataFormat DATA_FMT_2S_COMPLEMENT (n.val : Int)
      = (if (n.val : Int) < 128 then (n.val : Int)
         else -(xorInt (andInt (n.val : Int) 0x7f) 0x7f) - 1) ∧
    (128 ≤ (n.val : Int) → -(xorInt (andInt (n.val : Int) 0x7f) 0x7f) = (n.val : Int) - 255) ∧
    (128 ≤ (n.val : Int) →
      -(xorInt (andInt (n.val : Int) 0x7f) 0x7f) - 1 = (n.val : Int) - 256) ∧
    applyAnalogDataFormat DATA_FMT_2S_COMPLEMENT (n.val : Int)
      = ConvertComplement (n.val : Int) 8 := by
  revert n; decide

/-- C3: for every raw in [0,255], `ConvertSensorRawToValue` on a record with
analogDataFormat = unsigned (0), linearization = linear (0), m = 1, b = 0, k1 = 0,
k2 = 0 returns exactly raw (as a float64) and no error. -/
theorem ConvertSensorRawToValue_identity {F : Type} (ops : Float64Ops F)
    (hex : ops.Exact) (s : SdrFullSensorRecord) (raw : Int)
    (hfmt : s.analogDataFormat = DATA_FMT_UNSIGNED) (hlin : s.linearization = 0)
    (hm : s.m = 1) (hb : s.b = 0) (hk1 : s.k1 = 0) (hk2 : s.k2 = 0)
    (h0 : 0 ≤ raw) (h255 : raw ≤ 255) :
    s.ConvertSensorRawToValue ops raw = Except.ok (ops.ofInt raw) := by
  obtain ⟨n, rfl⟩ := Int.eq_ofNat_of_zero_le h0
  have hn : n < 256 := by omega
  rw [ConvertSensorRawToValue_linear_unit ops hex s _ hlin hm hb hk1 hk2, hfmt]
  exact congrArg (fun x => Except.ok (ops.ofInt x)) (applyAnalogDataFormat_byte ⟨n, hn⟩).1

/-- C3 at raw = 200 with exact rational arithmetic. -/
theorem ConvertSensorRawToValue_identity_witness :
    unitRecord.ConvertSensorRawToValue ratOps 200 = Except.ok (ratOps.ofInt 200) :=
  ConvertSensorRawToValue_identity ratOps ratOps_exact unitRecord 200 rfl rfl rfl rfl rfl rfl
    (by decide) (by decide)

/-- C4: for every raw in [0,255], with m = 1, b = 0, k1 = k2 = 0 and linear
linearization, `ConvertSensorRawToValue` returns raw for the unsigned format; for the
1's-complement format raw when raw < 128 and -((raw & 0x7F) xor 0x7F) = raw - 255 when
raw >= 128; for the 2's-complement format raw when raw < 128 and
-((raw & 0x7F) xor 0x7F) - 1 = raw - 256 when raw >= 128, which is
ConvertComplement(raw, 8). -/
theorem ConvertSensorRawToValue_analog_format {F : Type} (ops : Float64Ops F)
    (hex : ops.Exact) (s : SdrFullSensorRecord) (raw : Int)
    (hlin : s.linearization = 0) (hm : s.m = 1) (hb : s.b = 0) (hk1 : s.k1 = 0)
    (hk2 : s.k2 = 0) (h0 : 0 ≤ raw) (h255 : raw ≤ 255) :
    (s.analogDataFormat = DATA_FMT_UNSIGNED →
      s.ConvertSensorRawToValue ops raw = Except.ok (ops.ofInt raw)) ∧
    (s.analogDataFormat = DATA_FMT_1S_COMPLEMENT →
      s.ConvertSensorRawToValue ops raw
        = Except.ok (ops.ofInt (if raw < 128 then raw
                                else -(xorInt (andInt raw 0x7f) 0x7f))) ∧
      s.ConvertSensorRawToValue ops raw
        = Except.ok (ops.ofInt (if raw < 128 then raw else raw - 255))) ∧
    (s.analogDataFormat = DATA_FMT_2S_COMPLEMENT →
      s.ConvertSensorRawToValue ops raw
        = Except.ok (ops.ofInt (if raw < 128 then raw
                                else -(xorInt (andInt raw 0x7f) 0x7f) - 1)) ∧
      s.ConvertSensorRawToValue ops raw
        = Except.ok (ops.ofInt (if raw < 128 then raw else raw - 256)) ∧
      s.ConvertSensorRawToValue ops raw
        = Except.ok (ops.ofInt (ConvertComplement raw 8))) ∧
    (128 ≤ raw → -(xorInt (andInt raw 0x7f) 0x7f) = raw - 255) ∧
    (128 ≤ raw → -(xorInt (andInt raw 0x7f) 0x7f) - 1 = raw - 256) := by
  obtain ⟨n, rfl⟩ := Int.eq_ofNat_of_zero_le h0
  have hn : n < 256 := by omega
  obtain ⟨e0, e1, e2, x1, x2, ec⟩ := applyAnalogDataFormat_byte ⟨n, hn⟩
  have hlinear := ConvertSensorRawToValue_linear_unit ops hex s (n : Int) hlin hm hb hk1 hk2
  have i1 : (if (n : Int) < 128 then (n : Int) else -(xorInt (andInt (n : Int) 0x7f) 0x7f))
      = (if (n : Int) < 128 then (n : Int) else (n : Int) - 255) := by
    by_cases hlt : (n : Int) < 128
    · rw [if_pos hlt, if_pos hlt]
    · rw [if_neg hlt, if_neg hlt]; exact x1 (Int.not_lt.mp hlt)
  have i2 : (if (n : Int) < 128 then (n : Int)
        else -(xorInt (andInt (n : Int) 0x7f) 0x7f) - 1)
      = (if (n : Int) < 128 then (n : Int) else (n : Int) - 256) := by
    by_cases hlt : (n : Int) < 128
    · rw [if_pos hlt, if_pos hlt]
    · rw [if_neg hlt, if_neg hlt]; exact x2 (Int.not_lt.mp hlt)
  refine ⟨?_, ?_, ?_, x1, x2⟩
  · intro hf
    rw [hlinear, hf]
    exact congrArg (fun x => Except.ok (ops.ofInt x)) e0
  · intro hf
    rw [hlinear, hf]
    exact ⟨congrArg (fun x => Except.ok (ops.ofInt x)) e1,
      congrArg (fun x => Except.ok (ops.ofInt x)) (e1.trans i1)⟩
  · intro hf
    rw [hlinear, hf]
    exact ⟨congrArg (fun x => Except.ok (ops.ofInt x)) e2,
      congrArg (fun x => Except.ok (ops.ofInt x)) (e2.trans i2),
      congrArg (fun x => Except.ok (ops.ofInt x)) ec⟩

/-- C4 at raw = 200 in the 2's-complement format: the value is -56. -/
theorem ConvertSensorRawToValue_analog_format_witness :
    ({ unitRecord with analogDataFormat := DATA_FMT_2S_COMPLEMENT } :
        SdrFullSensorRecord).ConvertSensorRawToValue ratOps 200
      = Except.ok (ratOps.ofInt (if (200 : Int) < 128 then 200 else 200 - 256)) :=
  ((ConvertSensorRawToValue_analog_format ratOps ratOps_exact
      { unitRecord with analogDataFormat := DATA_FMT_2S_COMPLEMENT } 200 rfl rfl rfl rfl rfl
      (by decide) (by decide)).2.2.1 rfl).2.1

/-- C5: for every full sensor record and every raw input, `ConvertSensorRawToValue`
returns an error if and only if the 7-bit linearization code (linearization & 0x7F) is
not one of the twelve codes 0..11; for codes 0..11 it returns a value and no error, and
the error names the code. -/
theorem ConvertSensorRawToValue_error_iff {F : Type} (ops : Float64Ops F)
    (s : SdrFullSensorRecord) (raw : Int) :
    ((∃ e, s.ConvertSensorRawToValue ops raw = Except.error e)
      ↔ ¬ (s.linearization.val &&& 0x7f ≤ 11)) ∧
    ((∃ v, s.ConvertSensorRawToValue ops raw = Except.ok v)
      ↔ s.linearization.val &&& 0x7f ≤ 11) ∧
    (¬ (s.linearization.val &&& 0x7f ≤ 11) →
      s.ConvertSensorRawToValue ops raw
        = Except.error (Error.unknownLinearization (s.linearization.val &&& 0x7f))) := by
  unfold SdrFullSensorRecord.ConvertSensorRawToValue
  generalize s.linearization.val &&& 0x7f = code
  rcases code with _ | _ | _ | _ | _ | _ | _ | _ | _ | _ | _ | _ | code <;> simp

/-! ## C6, C7: record dispatch and the common header -/

/-- C6: `SdrCommonFromData` dispatches on byte 3: a body shorter than 4 bytes fails with
`DataTooShort`; byte 3 = 0x01 selects the full-sensor decoder and byte 3 = 0x02 the
compact-sensor decoder; any other byte 3 yields an `UnsupportedSDRTypeErr` whose sdrType
is that byte and whose nextId is exactly the nextId passed in; `IsUnsupportedSDRTypeErr`
is true for that error and false for `DataTooShort`. -/
theorem SdrCommonFromData_dispatch (recordData : List Byte) (nextId : Nat) :
    (recordData.length < 4 →
      SdrCommonFromData recordData nextId = Except.error Error.DataTooShort) ∧
    (4 ≤ recordData.length → recordData.getD 3 0 = 0x01 →
      SdrCommonFromData recordData nextId
        = (NewSdrFullSensorRecord recordData nextId).map SdrCommon.full) ∧
    (4 ≤ recordData.length → recordData.getD 3 0 = 0x02 →
      SdrCommonFromData recordData nextId
        = (NewSdrCompactSensorRecord recordData nextId).map SdrCommon.compact) ∧
    (4 ≤ recordData.length → recordData.getD 3 0 ≠ 0x01 → recordData.getD 3 0 ≠ 0x02 →
      SdrCommonFromData recordData nextId
        = Except.error (Error.UnsupportedSDRTypeErr (recordData.getD 3 0) nextId) ∧
      IsUnsupportedSDRTypeErr (Error.UnsupportedSDRTypeErr (recordData.getD 3 0) nextId)
        = true) ∧
    IsUnsupportedSDRTypeErr Error.DataTooShort = false := by
  refine ⟨?_, ?_, ?_, ?_, rfl⟩
  · intro h
    unfold SdrCommonFromData
    rw [if_pos h]
  · intro h h1
    unfold SdrCommonFromData
    have h2 : recordData.getD 3 0 ≠ 0x02 := by rw [h1]; decide
    rw [if_neg (by omega)]
    simp only [h1, if_pos, if_neg h2]
    exact if_neg (by decide)
  · intro h h2
    unfold SdrCommonFromData
    rw [if_neg (by omega)]
    simp only [h2]
    rfl
  · intro h h1 h2
    unfold SdrCommonFromData
    rw [if_neg (by omega)]
    simp only [if_neg h1, if_neg h2]
    exact ⟨rfl, rfl⟩

/-- C6 at the body [0x01, 0x00, 0x51, 0xC0] (an OEM record) with nextId = 7. -/
theorem SdrCommonFromData_dispatch_witness :
    SdrCommonFromData [0x01, 0x00, 0x51, 0xC0] 7
        = Except.error (Error.UnsupportedSDRTypeErr 0xC0 7) ∧
    IsUnsupportedSDRTypeErr (Error.UnsupportedSDRTypeErr 0xC0 7) = true :=
  (SdrCommonFromData_dispatch [0x01, 0x00, 0x51, 0xC0] 7).2.2.2.1 (by decide) (by decide)
    (by decide)

/-- The common header in closed form. -/
theorem CommonHeader_closed (data : List Byte) :
    CommonHeader data =
      if data.length < 5 then Except.error Error.DataTooShort
      else Except.ok { id := (data.getD 0 0).val ||| ((data.getD 1 0).val <<< 8),
                       version := data.getD 2 0, typ := data.getD 3 0,
                       length := data.getD 4 0 } := by
  rcases data with _ | ⟨a0, data⟩
  · rfl
  rcases data with _ | ⟨a1, data⟩
  · rfl
  rcases data with _ | ⟨a2, data⟩
  · rfl
  rcases data with _ | ⟨a3, data⟩
  · rfl
  rcases data with _ | ⟨a4, data⟩
  · rfl
  rfl

/-- C7: for every byte sequence data, `CommonHeader(data)` fails if and only if
len(data) < 5 (even though the error of its first `PopUint16` is discarded), the error
being `DataTooShort`, and when len(data) >= 5 it returns id = data[0] | data[1] << 8,
version = data[2], typ = data[3], length = data[4]. -/
theorem CommonHeader_spec (data : List Byte) :
    ((∃ e, CommonHeader data = Except.error e) ↔ data.length < 5) ∧
    CommonHeader data =
      (if data.length < 5 then Except.error Error.DataTooShort
       else Except.ok { id := (data.getD 0 0).val ||| ((data.getD 1 0).val <<< 8),
                        version := data.getD 2 0, typ := data.getD 3 0,
                        length := data.getD 4 0 }) := by
  refine ⟨?_, CommonHeader_closed data⟩
  rw [CommonHeader_closed]
  by_cases h : data.length < 5
  · rw [if_pos h]
    exact ⟨fun _ => h, fun _ => ⟨_, rfl⟩⟩
  · rw [if_neg h]
    constructor
    · rintro ⟨e, he⟩
      cases he
    · intro h5
      exact absurd h5 h

/-! ## C8, C9: the sensor reading -/

/-- `SendMessage` on an open handle when the driver returns success and a frame with
completion code 0: the decoder applied to the rest of the frame. -/
theorem SendMessage_frame {σ ρ : Type} (ipmi_send : IpmiSend σ) (l : LocalIPMI σ)
    (req : Message) (decode : List Byte → Except Error ρ) (payload : List Byte) (c' : σ)
    (hopen : l.close ≠ 1)
    (hs : ipmi_send l.ctx (requestOf req) = (0, 0 :: payload, c')) :
    l.SendMessage ipmi_send req decode = (decode payload, { l with ctx := c' }) := by
  unfold LocalIPMI.SendMessage LocalIPMI.IsClose
  have hc : (l.close == 1) = false := by simpa using hopen
  simp [hc, hs]

/-- A one-bit value converted to a byte is 0 exactly when it is 0. -/
theorem bit_byte_eq_zero (x : Nat) : ((Fin.ofNat (x &&& 1) : Byte) = 0) ↔ x &&& 1 = 0 := by
  have h : x &&& 1 ≤ 1 := Nat.and_le_right
  constructor
  · intro e
    have h2 : ((Fin.ofNat (x &&& 1) : Byte) : Nat) = ((0 : Byte) : Nat) := congrArg Fin.val e
    have h3 : ((Fin.ofNat (x &&& 1) : Byte) : Nat) = (x &&& 1) % 256 := rfl
    have h1 : ((0 : Byte) : Nat) = 0 := rfl
    omega
  · intro e
    rw [e]; rfl

/-- A one-bit value converted to a byte is 1 exactly when it is 1. -/
theorem bit_byte_eq_one (x : Nat) : ((Fin.ofNat (x &&& 1) : Byte) = 1) ↔ x &&& 1 = 1 := by
  have h : x &&& 1 ≤ 1 := Nat.and_le_right
  constructor
  · intro e
    have h2 : ((Fin.ofNat (x &&& 1) : Byte) : Nat) = ((1 : Byte) : Nat) := congrArg Fin.val e
    have h3 : ((Fin.ofNat (x &&& 1) : Byte) : Nat) = (x &&& 1) % 256 := rfl
    have h1 : ((1 : Byte) : Nat) = 1 := rfl
    omega
  · intro e
    rw [e]; rfl

/-- The result of `getSensorReading` on an open handle when the driver answers with
completion code 0 and a payload of at least two bytes. -/
theorem getSensorReading_frame {σ : Type} (ipmi_send : IpmiSend σ) (l : LocalIPMI σ)
    (number ownerLun : Byte) (payload : List Byte) (c' : σ) (hopen : l.close ≠ 1)
    (hs : ipmi_send l.ctx (requestOf (Message.GetSensorReadingReq number ownerLun))
      = (0, 0 :: payload, c'))
    (hlen : 2 ≤ payload.length) :
    l.getSensorReading ipmi_send number ownerLun =
      (Except.ok
        ((if ((payload.getD 1 0).val >>> 6) &&& 1 = 0 then none
          else if ((payload.getD 1 0).val >>> 5) &&& 1 = 1 then none
          else some (payload.getD 0 0)),
         (if payload.length > 2 then
            (if payload.length > 3 then
              some ((((payload.getD 2 0).val ||| ((payload.getD 3 0).val <<< 8) : Nat)) : Int)
             else some ((payload.getD 2 0).val : Int))
          else none)),
       { l with ctx := c' }) := by
  unfold LocalIPMI.getSensorReading
  rw [SendMessage_frame ipmi_send l _ _ payload c' hopen hs]
  unfold GetSensorReadingRsp.UnmarshalBinary
  rw [if_neg (by omega)]
  simp only [GetSensorReadingRsp.SensorScanningDisabled,
    GetSensorReadingRsp.InitialUpdateInProgress, bit_byte_eq_zero, bit_byte_eq_one]
  by_cases h6 : ((payload.getD 1 0).val >>> 6) &&& 1 = 0
  · simp only [h6, if_true]
    by_cases h2 : payload.length > 2
    · by_cases h3 : payload.length > 3
      · simp only [h2, h3, if_true]
      · simp only [h2, h3, if_true, if_false]
    · have h3 : ¬ payload.length > 3 := by omega
      simp only [h2, h3, if_false]
  · simp only [h6, if_false]
    by_cases h2 : payload.length > 2
    · by_cases h3 : payload.length > 3
      · simp only [h2, h3, if_true]
      · simp only [h2, h3, if_true, if_false]
    · have h3 : ¬ payload.length > 3 := by omega
      simp only [h2, h3, if_false]

/-- C8 as stated fails: on the payload [0x2A, 0x40], whose config byte 0x40 has bit 6
set and bit 5 clear, `getSensorReading` reports the raw reading 0x2A, not an absent
reading; so "bit 6 set implies reading absent" does not hold. -/
theorem getSensorReading_bit6_set_reading_present :
    (((([0x2A, 0x40] : List Byte).getD 1 0).val >>> 6) &&& 1 = 1) ∧
    (LocalIPMI.getSensorReading (constSend [0x00, 0x2A, 0x40]) { ctx := () } 7 0).1
      = Except.ok (some 0x2A, none) ∧
    ¬ (∀ (payload : List Byte) (number ownerLun : Byte), 2 ≤ payload.length →
        ((payload.getD 1 0).val >>> 6) &&& 1 = 1 →
        ∃ states,
          (LocalIPMI.getSensorReading (constSend (0 :: payload)) { ctx := () }
            number ownerLun).1 = Except.ok (none, states)) := by
  refine ⟨by decide, rfl, ?_⟩
  intro h
  obtain ⟨states, hst⟩ := h [0x2A, 0x40] 7 0 (by decide) (by decide)
  have e : (LocalIPMI.getSensorReading (constSend (0 :: [0x2A, 0x40])) { ctx := () } 7 0).1
      = Except.ok (some 0x2A, none) := rfl
  rw [e] at hst
  have h2 := Except.ok.inj hst
  have h3 := congrArg Prod.fst h2
  cases h3

/-- C8, amended: for every Get-Sensor-Reading response payload of at least 2 bytes
whose config byte (payload byte 1) has bit 6 clear, `getSensorReading` reports the raw
reading as absent, whatever the value of bit 5; with bit 6 set the reading is absent
when bit 5 is set and is payload byte 0 when bit 5 is clear. -/
theorem getSensorReading_scanning_bit {σ : Type} (ipmi_send : IpmiSend σ)
    (l : LocalIPMI σ) (number ownerLun : Byte) (payload : List Byte) (c' : σ)
    (hopen : l.close ≠ 1)
    (hs : ipmi_send l.ctx (requestOf (Message.GetSensorReadingReq number ownerLun))
      = (0, 0 :: payload, c'))
    (hlen : 2 ≤ payload.length) :
    (((payload.getD 1 0).val >>> 6) &&& 1 = 0 →
      ∃ states, (l.getSensorReading ipmi_send number ownerLun).1
        = Except.ok (none, states)) ∧
    (((payload.getD 1 0).val >>> 6) &&& 1 = 1 → ((payload.getD 1 0).val >>> 5) &&& 1 = 1 →
      ∃ states, (l.getSensorReading ipmi_send number ownerLun).1
        = Except.ok (none, states)) ∧
    (((payload.getD 1 0).val >>> 6) &&& 1 = 1 → ((payload.getD 1 0).val >>> 5) &&& 1 = 0 →
      ∃ states, (l.getSensorReading ipmi_send number ownerLun).1
        = Except.ok (some (payload.getD 0 0), states)) := by
  rw [getSensorReading_frame ipmi_send l number ownerLun payload c' hopen hs hlen]
  refine ⟨?_, ?_, ?_⟩
  · intro h6
    exact ⟨_, by rw [if_pos h6]⟩
  · intro h6 h5
    have n6 : ¬ (((payload.getD 1 0).val >>> 6) &&& 1 = 0) := by omega
    exact ⟨_, by rw [if_neg n6, if_pos h5]⟩
  · intro h6 h5
    have n6 : ¬ (((payload.getD 1 0).val >>> 6) &&& 1 = 0) := by omega
    have n5 : ¬ (((payload.getD 1 0).val >>> 5) &&& 1 = 1) := by omega
    exact ⟨_, by rw [if_neg n6, if_neg n5]⟩

/-- C8, amended, at the payload [0x2A, 0x20] (bit 6 clear, bit 5 set): reading absent. -/
theorem getSensorReading_scanning_bit_witness :
    ∃ states, (LocalIPMI.getSensorReading (constSend [0x00, 0x2A, 0x20]) { ctx := () }
      7 0).1 = Except.ok (none, states) :=
  (getSensorReading_scanning_bit (constSend [0x00, 0x2A, 0x20]) { ctx := () } 7 0
    [0x2A, 0x20] () (by decide) rfl (by decide)).1 (by decide)

/-- C9: for every Get-Sensor-Reading response payload, decoding fails iff it has fewer
than 2 bytes; with exactly 2 bytes the state mask is absent; with exactly 3 bytes it
equals payload byte 2 (below 2^8); with 4 or more bytes it equals
byte 2 | (byte 3 << 8) (below 2^16). The state mask does not depend on the config byte:
a response that differs only in payload byte 1 gives the same state mask. -/
theorem getSensorReading_state_mask {σ : Type} (ipmi_send : IpmiSend σ)
    (l l' : LocalIPMI σ) (number ownerLun config : Byte) (payload : List Byte) (c1 c2 : σ)
    (hopen : l.close ≠ 1) (hopen' : l'.close ≠ 1)
    (hs : ipmi_send l.ctx (requestOf (Message.GetSensorReadingReq number ownerLun))
      = (0, 0 :: payload, c1))
    (hs' : ipmi_send l'.ctx (requestOf (Message.GetSensorReadingReq number ownerLun))
      = (0, 0 :: payload.set 1 config, c2)) :
    ((∃ e, GetSensorReadingRsp.UnmarshalBinary payload = Except.error e)
      ↔ payload.length < 2) ∧
    ((∃ e, (l.getSensorReading ipmi_send number ownerLun).1 = Except.error e)
      ↔ payload.length < 2) ∧
    (payload.length = 2 → ∃ reading,
      (l.getSensorReading ipmi_send number ownerLun).1 = Except.ok (reading, none)) ∧
    (payload.length = 3 → (payload.getD 2 0).val < 2 ^ 8 ∧ ∃ reading,
      (l.getSensorReading ipmi_send number ownerLun).1
        = Except.ok (reading, some ((payload.getD 2 0).val : Int))) ∧
    (4 ≤ payload.length →
      (payload.getD 2 0).val ||| ((payload.getD 3 0).val <<< 8) < 2 ^ 16 ∧ ∃ reading,
      (l.getSensorReading ipmi_send number ownerLun).1
        = Except.ok (reading,
            some ((((payload.getD 2 0).val ||| ((payload.getD 3 0).val <<< 8) : Nat)) : Int))) ∧
    (2 ≤ payload.length →
      ((l.getSensorReading ipmi_send number ownerLun).1.map Prod.snd)
        = ((l'.getSensorReading ipmi_send number ownerLun).1.map Prod.snd)) := by
  have hA : (∃ e, GetSensorReadingRsp.UnmarshalBinary payload = Except.error e)
      ↔ payload.length < 2 := by
    unfold GetSensorReadingRsp.UnmarshalBinary
    by_cases h : payload.length < 2
    · rw [if_pos h]; exact ⟨fun _ => h, fun _ => ⟨_, rfl⟩⟩
    · rw [if_neg h]
      constructor
      · rintro ⟨e, he⟩; cases he
      · intro h2; exact absurd h2 h
  refine ⟨hA, ?_, ?_, ?_, ?_, ?_⟩
  · by_cases h : payload.length < 2
    · constructor
      · intro _; exact h
      · intro _
        unfold LocalIPMI.getSensorReading
        rw [SendMessage_frame ipmi_send l _ _ payload c1 hopen hs]
        unfold GetSensorReadingRsp.UnmarshalBinary
        rw [if_pos h]
        exact ⟨_, rfl⟩
    · rw [getSensorReading_frame ipmi_send l number ownerLun payload c1 hopen hs (by omega)]
      constructor
      · rintro ⟨e, he⟩; cases he
      · intro h2; exact absurd h2 h
  · intro h
    rw [getSensorReading_frame ipmi_send l number ownerLun payload c1 hopen hs (by omega)]
    exact ⟨_, by rw [if_neg (show ¬ payload.length > 2 from by omega)]⟩
  · intro h
    rw [getSensorReading_frame ipmi_send l number ownerLun payload c1 hopen hs (by omega)]
    exact ⟨(payload.getD 2 0).isLt, _, by
      rw [if_pos (show payload.length > 2 from by omega),
        if_neg (show ¬ payload.length > 3 from by omega)]⟩
  · intro h
    rw [getSensorReading_frame ipmi_send l number ownerLun payload c1 hopen hs (by omega)]
    refine ⟨?_, _, by
      rw [if_pos (show payload.length > 2 from by omega),
        if_pos (show payload.length > 3 from by omega)]⟩
    apply Nat.or_lt_two_pow
    · have := (payload.getD 2 0).isLt; omega
    · have := (payload.getD 3 0).isLt
      rw [Nat.shiftLeft_eq]; omega
  · intro h
    rw [getSensorReading_frame ipmi_send l number ownerLun payload c1 hopen hs h,
      getSensorReading_frame ipmi_send l' number ownerLun (payload.set 1 config) c2 hopen'
        hs' (by rw [List.length_set]; exact h)]
    have g2 : (payload.set 1 config).getD 2 0 = payload.getD 2 0 := by
      simp [List.getD_eq_getElem?_getD, List.getElem?_set]
    have g3 : (payload.set 1 config).getD 3 0 = payload.getD 3 0 := by
      simp [List.getD_eq_getElem?_getD, List.getElem?_set]
    simp only [List.length_set, g2, g3]
    rfl

/-- C9 at the payloads [0x2A, 0x40, 0x81, 0x02] and, with another config byte,
[0x2A, 0x00, 0x81, 0x02]: the state mask is 0x0281 in both. -/
theorem getSensorReading_state_mask_witness :
    ∃ reading, (LocalIPMI.getSensorReading (constSend [0x00, 0x2A, 0x40, 0x81, 0x02])
      { ctx := () } 7 0).1 = Except.ok (reading, some 0x0281) :=
  ((getSensorReading_state_mask (constSend [0x00, 0x2A, 0x40, 0x81, 0x02])
    { ctx := () } { ctx := () } 7 0 0x40 [0x2A, 0x40, 0x81, 0x02] () () (by decide)
    (by decide) rfl rfl).2.2.2.2.1 (by decide)).2

/-! ## C10: the repository walk over a chain of full sensor records -/

/-- `PopUint8` on a non-empty buffer. -/
theorem PopUint8_cons (x : Byte) (xs : List Byte) :
    ByteBuffer.PopUint8 { b := x :: xs } = (Except.ok x, { b := xs }) := by
  have h : ¬ (((x :: xs).length : Int) < 1) := by
    simp only [List.length_cons]; omega
  simp only [ByteBuffer.PopUint8, ByteBuffer.checkLen, if_neg h]

/-- `PopUint16` on a buffer of at least two bytes. -/
theorem PopUint16_cons (x y : Byte) (xs : List Byte) :
    ByteBuffer.PopUint16 { b := x :: y :: xs }
      = (Except.ok (x.val ||| (y.val <<< 8)), { b := xs }) := by
  have h : ¬ (((x :: y :: xs).length : Int) < 2) := by
    simp only [List.length_cons]; omega
  simp only [ByteBuffer.PopUint16, ByteBuffer.checkLen, if_neg h]

/-- `orReturn` on a successful pop. -/
theorem orReturn_ok {α : Type} (v : α) (buff : ByteBuffer) :
    orReturn (Except.ok v, buff) = Except.ok (v, buff) := rfl

/-- `orReturn` on a failed pop. -/
theorem orReturn_error {α : Type} (e : Error) (buff : ByteBuffer) :
    orReturn ((Except.error e : Except Error α), buff) = Except.error e := rfl

/-- `PopUint8` never panics. -/
theorem PopUint8_ne_panic (b : ByteBuffer) :
    b.PopUint8.1 ≠ Except.error Error.runtimePanic := by
  rcases b with ⟨_ | ⟨x, xs⟩⟩
  · intro h; cases h
  · rw [PopUint8_cons]; intro h; cases h

/-- `PopUint16` never panics. -/
theorem PopUint16_ne_panic (b : ByteBuffer) :
    b.PopUint16.1 ≠ Except.error Error.runtimePanic := by
  rcases b with ⟨_ | ⟨x, _ | ⟨y, xs⟩⟩⟩
  · intro h; cases h
  · intro h; cases h
  · rw [PopUint16_cons]; intro h; cases h

/-- `getSdrChunk` on an open handle when the driver returns success and a frame with
completion code 0 and at least the two bytes of the next record id. -/
theorem getSdrChunk_frame {σ : Type} (ipmi_send : IpmiSend σ) (l : LocalIPMI σ)
    (reservationId recordId : Nat) (offset length n0 n1 : Byte) (data : List Byte) (c' : σ)
    (hopen : l.close ≠ 1)
    (hs : ipmi_send l.ctx
        (requestOf (Message.GetSdrReq reservationId recordId offset length))
      = (0, 0 :: n0 :: n1 :: data, c')) :
    l.getSdrChunk ipmi_send reservationId recordId offset length
      = (Except.ok (n0.val ||| (n1.val <<< 8), data), { l with ctx := c' }) := by
  unfold LocalIPMI.getSdrChunk
  rw [SendMessage_frame ipmi_send l _ _ (n0 :: n1 :: data) c' hopen hs]
  rfl

/-- `GetRepositorySdr` on an open handle for a record that the driver serves. -/
theorem GetRepositorySdr_served {σ : Type} (ipmi_send : IpmiSend σ) (l : LocalIPMI σ)
    (reservationId recordId : Nat) (hdr payload : List Byte) (b0 b1 n0 n1 : Byte)
    (c1 c2 : σ) (t : SdrFullSensorRecord) (hopen : l.close ≠ 1)
    (h1 : ipmi_send l.ctx (requestOf (Message.GetSdrReq reservationId recordId 0 5))
      = (0, 0 :: b0 :: b1 :: hdr, c1))
    (h5 : 5 ≤ hdr.length)
    (h2 : ipmi_send c1 (requestOf (Message.GetSdrReq reservationId
        ((hdr.getD 0 0).val ||| ((hdr.getD 1 0).val <<< 8))
        (Fin.ofNat hdr.length) (hdr.getD 4 0)))
      = (0, 0 :: n0 :: n1 :: payload, c2))
    (hd : SdrCommonFromData (hdr ++ payload) (n0.val ||| (n1.val <<< 8))
      = Except.ok (SdrCommon.full t)) :
    l.GetRepositorySdr ipmi_send recordId reservationId
      = ((Except.ok (SdrCommon.full t), n0.val ||| (n1.val <<< 8)),
         { l with ctx := c2 }) := by
  rcases hdr with _ | ⟨a0, _ | ⟨a1, _ | ⟨a2, _ | ⟨a3, _ | ⟨a4, rest⟩⟩⟩⟩⟩
  · simp at h5
  · simp at h5
  · simp at h5
  · simp at h5
  · simp at h5
  have h2' : ipmi_send ({ l with ctx := c1 } : LocalIPMI σ).ctx
      (requestOf (Message.GetSdrReq reservationId (a0.val ||| (a1.val <<< 8))
        (Fin.ofNat (a0 :: a1 :: a2 :: a3 :: a4 :: rest).length) a4))
      = (0, 0 :: n0 :: n1 :: payload, c2) := h2
  unfold LocalIPMI.GetRepositorySdr LocalIPMI.getSdrDataHelper
  rw [getSdrChunk_frame ipmi_send l reservationId recordId 0 5 b0 b1 _ c1 hopen h1]
  simp only [NewByteBuffer, PopUint16_cons, PopUint8_cons]
  rw [getSdrChunk_frame ipmi_send { l with ctx := c1 } reservationId _ _ _ n0 n1 payload c2
    hopen h2']
  simp only [hd]

/-- An error that is not a panic, at another result type. -/
theorem error_ne_panic_cast {α β : Type} {e : Error}
    (h : (Except.error e : Except Error α) ≠ Except.error Error.runtimePanic) :
    (Except.error e : Except Error β) ≠ Except.error Error.runtimePanic := by
  intro hh
  apply h
  cases hh
  rfl

/-- `SendMessage` does not panic when every successful response of the driver carries
a completion code and the decoder does not panic. -/
theorem SendMessage_ne_panic {σ ρ : Type} (ipmi_send : IpmiSend σ)
    (hwf : FramesNonEmpty ipmi_send) (l : LocalIPMI σ) (req : Message)
    (decode : List Byte → Except Error ρ)
    (hdec : ∀ p, decode p ≠ Except.error Error.runtimePanic) :
    (l.SendMessage ipmi_send req decode).1 ≠ Except.error Error.runtimePanic := by
  unfold LocalIPMI.SendMessage
  by_cases hc : l.IsClose = true
  · simp only [hc, if_true]
    intro h; cases h
  · simp only [hc]
    have hw := hwf l.ctx (requestOf req)
    rcases hsend : ipmi_send l.ctx (requestOf req) with ⟨rv, respData, ctx⟩
    rw [hsend] at hw
    simp only
    by_cases hrv : rv = 0
    · have hne : respData ≠ [] := hw hrv
      rcases respData with _ | ⟨code, rest⟩
      · exact absurd rfl hne
      · simp only [hrv]
        by_cases hcode : code = 0
        · simp only [hcode]
          exact hdec rest
        · simp only [ne_eq, hcode, not_false_eq_true, if_true]
          intro h; cases h
    · simp only [ne_eq, hrv, not_false_eq_true, if_true]
      intro h; cases h

/-- `GetSdrRsp.UnmarshalBinary` never panics. -/
theorem GetSdrRsp_UnmarshalBinary_ne_panic (p : List Byte) :
    GetSdrRsp.UnmarshalBinary p ≠ Except.error Error.runtimePanic := by
  rcases p with _ | ⟨x, _ | ⟨y, xs⟩⟩ <;> intro h <;> cases h

/-- `GetSensorReadingRsp.UnmarshalBinary` never panics. -/
theorem GetSensorReadingRsp_UnmarshalBinary_ne_panic (p : List Byte) :
    GetSensorReadingRsp.UnmarshalBinary p ≠ Except.error Error.runtimePanic := by
  unfold GetSensorReadingRsp.UnmarshalBinary
  split <;> intro h <;> cases h

/-- `getSdrChunk` does not panic over a driver whose frames are never empty. -/
theorem getSdrChunk_ne_panic {σ : Type} (ipmi_send : IpmiSend σ)
    (hwf : FramesNonEmpty ipmi_send) (l : LocalIPMI σ) (reservationId recordId : Nat)
    (offset length : Byte) :
    (l.getSdrChunk ipmi_send reservationId recordId offset length).1
      ≠ Except.error Error.runtimePanic := by
  have h := SendMessage_ne_panic ipmi_send hwf l
    (Message.GetSdrReq reservationId recordId offset length) GetSdrRsp.UnmarshalBinary
    GetSdrRsp_UnmarshalBinary_ne_panic
  unfold LocalIPMI.getSdrChunk
  rcases hS : l.SendMessage ipmi_send
    (Message.GetSdrReq reservationId recordId offset length) GetSdrRsp.UnmarshalBinary
    with ⟨r, l'⟩
  rw [hS] at h
  cases r with
  | error e => simp only; exact error_ne_panic_cast h
  | ok sr => intro h2; cases h2

/-- `getSdrDataHelper` does not panic over a driver whose frames are never empty. -/
theorem getSdrDataHelper_ne_panic {σ : Type} (ipmi_send : IpmiSend σ)
    (hwf : FramesNonEmpty ipmi_send) (l : LocalIPMI σ) (recordId reservationId : Nat) :
    (l.getSdrDataHelper ipmi_send recordId reservationId).1
      ≠ Except.error Error.runtimePanic := by
  unfold LocalIPMI.getSdrDataHelper
  have hA := getSdrChunk_ne_panic ipmi_send hwf l reservationId recordId 0 5
  rcases hS : l.getSdrChunk ipmi_send reservationId recordId 0 5 with ⟨r, l1⟩
  rw [hS] at hA
  cases r with
  | error e => simp only; exact error_ne_panic_cast hA
  | ok nd =>
    rcases nd with ⟨n, data⟩
    simp only
    have hP16 := PopUint16_ne_panic (NewByteBuffer data)
    rcases h16 : (NewByteBuffer data).PopUint16 with ⟨r16, buff1⟩
    rw [h16] at hP16
    cases r16 with
    | error e => simp only; exact error_ne_panic_cast hP16
    | ok rid =>
      simp only
      have hP1 := PopUint8_ne_panic buff1
      rcases h81 : buff1.PopUint8 with ⟨r1, buff2⟩
      rw [h81] at hP1
      cases r1 with
      | error e => simp only; exact error_ne_panic_cast hP1
      | ok x1 =>
        simp only
        have hP2 := PopUint8_ne_panic buff2
        rcases h82 : buff2.PopUint8 with ⟨r2, buff3⟩
        rw [h82] at hP2
        cases r2 with
        | error e => simp only; exact error_ne_panic_cast hP2
        | ok x2 =>
          simp only
          have hP3 := PopUint8_ne_panic buff3
          rcases h83 : buff3.PopUint8 with ⟨r3, buff4⟩
          rw [h83] at hP3
          cases r3 with
          | error e => simp only; exact error_ne_panic_cast hP3
          | ok plen =>
            simp only
            have hB := getSdrChunk_ne_panic ipmi_send hwf l1 reservationId rid
              (Fin.ofNat data.length) plen
            rcases hS2 : l1.getSdrChunk ipmi_send reservationId rid
              (Fin.ofNat data.length) plen with ⟨r2, l2⟩
            rw [hS2] at hB
            cases r2 with
            | error e => simp only; exact error_ne_panic_cast hB
            | ok nd2 => intro h; cases h

/-- `deviceIdString` never panics. -/
theorem deviceIdString_ne_panic (b : ByteBuffer) :
    deviceIdString b ≠ Except.error Error.runtimePanic := by
  rcases b with ⟨_ | ⟨x, xs⟩⟩
  · intro h; cases h
  · have e : deviceIdString { b := x :: xs }
        = orReturn (ByteBuffer.PopString { b := xs } ((parseIdLen x).val : Int)) := by
      unfold deviceIdString
      rw [PopUint8_cons]
      rfl
    rw [e]
    unfold ByteBuffer.PopString ByteBuffer.checkLen
    have hn : ¬ (((parseIdLen x).val : Int) < 0) := by omega
    by_cases hlt : ((({ b := xs } : ByteBuffer).b.length : Int) < ((parseIdLen x).val : Int))
    · rw [if_pos hlt]
      intro h; cases h
    · rw [if_neg hlt]
      simp only [if_neg hn]
      intro h; cases h

/-- `SdrCommonFromData` never panics. -/
theorem SdrCommonFromData_ne_panic (recordData : List Byte) (nextId : Nat) :
    SdrCommonFromData recordData nextId ≠ Except.error Error.runtimePanic := by
  unfold SdrCommonFromData
  split
  · intro h; cases h
  dsimp only
  split
  · unfold NewSdrCompactSensorRecord
    rw [CommonHeader_closed]
    by_cases h5 : recordData.length < 5
    · rw [if_pos h5]; intro h; cases h
    · rw [if_neg h5]
      show Except.map SdrCommon.compact (SdrCompactSensorRecord.UnmarshalBinary _ recordData)
        ≠ _
      rw [UnmarshalBinary_compact_closed, if_neg h5]
      by_cases h32 : recordData.length < 32
      · rw [if_pos h32]; intro h; cases h
      · rw [if_neg h32]
        have hd := deviceIdString_ne_panic { b := recordData.drop 31 }
        cases hds : deviceIdString { b := recordData.drop 31 } with
        | error e =>
          rw [hds] at hd
          intro h
          apply hd
          cases h
          rfl
        | ok v => intro h; cases h
  split
  · unfold NewSdrFullSensorRecord
    rw [CommonHeader_closed]
    by_cases h5 : recordData.length < 5
    · rw [if_pos h5]; intro h; cases h
    · rw [if_neg h5]
      show Except.map SdrCommon.full (SdrFullSensorRecord.UnmarshalBinary _ recordData) ≠ _
      rw [UnmarshalBinary_full_closed, if_neg h5]
      by_cases h48 : recordData.length < 48
      · rw [if_pos h48]; intro h; cases h
      · rw [if_neg h48]
        have hd := deviceIdString_ne_panic { b := recordData.drop 47 }
        cases hds : deviceIdString { b := recordData.drop 47 } with
        | error e =>
          rw [hds] at hd
          intro h
          apply hd
          cases h
          rfl
        | ok v => intro h; cases h
  · intro h; cases h

/-- `GetRepositorySdr` does not panic over a driver whose frames are never empty. -/
theorem GetRepositorySdr_ne_panic {σ : Type} (ipmi_send : IpmiSend σ)
    (hwf : FramesNonEmpty ipmi_send) (l : LocalIPMI σ) (recordId reservationId : Nat) :
    (l.GetRepositorySdr ipmi_send recordId reservationId).1.1
      ≠ Except.error Error.runtimePanic := by
  unfold LocalIPMI.GetRepositorySdr
  have hA := getSdrDataHelper_ne_panic ipmi_send hwf l recordId reservationId
  rcases hS : l.getSdrDataHelper ipmi_send recordId reservationId with ⟨r, l1⟩
  rw [hS] at hA
  cases r with
  | error e => simp only; exact error_ne_panic_cast hA
  | ok nd =>
    rcases nd with ⟨n, data⟩
    simp only
    have hB := SdrCommonFromData_ne_panic data n
    cases hC : SdrCommonFromData data n with
    | error e => rw [hC] at hB; simp only; exact error_ne_panic_cast hB
    | ok c => intro h; cases h

/-- The last iteration of the walk: with record id 0xFFFF the loop breaks after one
more `GetRepositorySdr`, whatever that call returns short of a panic. -/
theorem sdrLoop_last {σ F : Type} (ops : Float64Ops F) (ipmi_send : IpmiSend σ)
    (hwf : FramesNonEmpty ipmi_send) (reservationId fuel : Nat) (l : LocalIPMI σ)
    (calls : List (ItemCall F)) :
    (LocalIPMI.sdrLoop ops ipmi_send reservationId (fuel + 1) l 0xffff calls).result
        = some (Except.ok ()) ∧
    (LocalIPMI.sdrLoop ops ipmi_send reservationId (fuel + 1) l 0xffff calls).calls
        = calls := by
  have hnp := GetRepositorySdr_ne_panic ipmi_send hwf l 0xffff reservationId
  rw [LocalIPMI.sdrLoop]
  rcases hG : l.GetRepositorySdr ipmi_send 0xffff reservationId with ⟨⟨c, nextId⟩, l'⟩
  rw [hG] at hnp
  cases c with
  | ok v => exact ⟨rfl, rfl⟩
  | error e =>
    cases e with
    | runtimePanic => exact absurd rfl hnp
    | _ => exact ⟨rfl, rfl⟩

/-- One iteration of the walk on a served full sensor record: exactly one invocation
of the callback, with the record's id string, and the walk goes on at the reported
next record id. -/
theorem sdrLoop_served {σ F : Type} (ops : Float64Ops F) (ipmi_send : IpmiSend σ)
    (reservationId : Nat) (l : LocalIPMI σ) (recordId : Nat) (t : SdrFullSensorRecord)
    (c' : σ) (next : Nat) (hopen : l.close ≠ 1) (hne : recordId ≠ 0xffff)
    (hserve : ServesFullRecord ipmi_send reservationId l.ctx recordId t c' next) :
    ∃ call : ItemCall F, call.name = t.Id ∧ ∀ (fuel : Nat) (calls : List (ItemCall F)),
      LocalIPMI.sdrLoop ops ipmi_send reservationId (fuel + 1) l recordId calls
        = LocalIPMI.sdrLoop ops ipmi_send reservationId fuel { l with ctx := c' } next
            (calls ++ [call]) := by
  obtain ⟨hdr, payload, reading, b0, b1, n0, n1, c1, c2, h1, h5, h2, hnext, hd, h3, hlen⟩ :=
    hserve
  subst hnext
  have hrepo := GetRepositorySdr_served ipmi_send l reservationId recordId hdr payload
    b0 b1 n0 n1 c1 c2 t hopen h1 h5 h2 hd
  have hread : ∃ R S, ({ l with ctx := c2 } : LocalIPMI σ).getSensorReading ipmi_send
      t.number t.ownerLun = (Except.ok (R, S), { l with ctx := c' }) :=
    ⟨_, _, getSensorReading_frame ipmi_send { l with ctx := c2 } t.number t.ownerLun
      reading c' hopen h3 hlen⟩
  obtain ⟨R, S, hread⟩ := hread
  cases R with
  | none =>
    refine ⟨{ name := t.Id, val := none, unitCode := 0, unit := "", sensorTypeCode := 0,
              entityInstance := 0, sensorType := "", err := none }, rfl, ?_⟩
    intro fuel calls
    rw [LocalIPMI.sdrLoop]
    simp only [hrepo, if_neg hne, hread]
  | some value =>
    cases hconv : t.ConvertSensorRawToValue ops (value.val : Int) with
    | error e =>
      refine ⟨{ name := t.Id, val := none, unitCode := 0, unit := "", sensorTypeCode := 0,
                entityInstance := 0, sensorType := "", err := some e }, rfl, ?_⟩
      intro fuel calls
      rw [LocalIPMI.sdrLoop]
      simp only [hrepo, if_neg hne, hread, hconv]
    | ok val =>
      refine ⟨{ name := t.Id, val := some val, unitCode := t.UnitCode, unit := t.Unit,
                sensorTypeCode := t.SensorTypeCode, entityInstance := t.entityInstance,
                sensorType := t.SensorType, err := none }, rfl, ?_⟩
      intro fuel calls
      rw [LocalIPMI.sdrLoop]
      simp only [hrepo, if_neg hne, hread, hconv]

/-- The walk over a served chain: with enough iterations the loop ends without error,
having invoked the callback once per record, in order, with the records' id strings. -/
theorem sdrLoop_chain {σ F : Type} (ops : Float64Ops F) (ipmi_send : IpmiSend σ)
    (hwf : FramesNonEmpty ipmi_send) (reservationId : Nat) (cEnd : σ) :
    ∀ (ts : List SdrFullSensorRecord) (l : LocalIPMI σ) (recordId : Nat)
      (calls : List (ItemCall F)) (fuel : Nat),
      l.close ≠ 1 → ServesChain ipmi_send reservationId l.ctx recordId ts cEnd →
      ts.length + 1 ≤ fuel →
      (LocalIPMI.sdrLoop ops ipmi_send reservationId fuel l recordId calls).result
          = some (Except.ok ()) ∧
      ∃ cs : List (ItemCall F),
        (LocalIPMI.sdrLoop ops ipmi_send reservationId fuel l recordId calls).calls
          = calls ++ cs ∧
        cs.map (fun c => c.name) = ts.map (fun t => t.Id) := by
  intro ts
  induction ts with
  | nil =>
    intro l recordId calls fuel hopen hchain hfuel
    obtain ⟨hrid, -⟩ := hchain
    subst hrid
    obtain ⟨f, rfl⟩ : ∃ f, fuel = f + 1 := ⟨fuel - 1, by simp at hfuel; omega⟩
    obtain ⟨hr, hc⟩ := sdrLoop_last ops ipmi_send hwf reservationId f l calls
    exact ⟨hr, [], by rw [hc, List.append_nil], rfl⟩
  | cons t ts ih =>
    intro l recordId calls fuel hopen hchain hfuel
    obtain ⟨hne, cm, next, hserve, hrest⟩ := hchain
    obtain ⟨f, rfl⟩ : ∃ f, fuel = f + 1 := ⟨fuel - 1, by simp at hfuel; omega⟩
    obtain ⟨call, hname, hstep⟩ := sdrLoop_served ops ipmi_send reservationId l recordId t
      cm next hopen hne hserve
    rw [hstep f calls]
    obtain ⟨hr, cs, hcs, hmap⟩ := ih { l with ctx := cm } next (calls ++ [call]) f hopen
      hrest (by simp at hfuel; omega)
    refine ⟨hr, call :: cs, ?_, ?_⟩
    · rw [hcs, List.append_assoc]; rfl
    · simp only [List.map_cons, hname, hmap]

/-- C10: for a transport that serves a chain of n successfully decodable Full sensor
records (each as a header chunk and a payload chunk), the last one reporting
nextRecordId = 0xFFFF, and that answers every Get-Sensor-Reading successfully,
`SdrRepositoryEntries` (given at least n + 1 loop iterations) invokes the callback
exactly n times, once per record in repository order with that record's id string, and
returns no error. The handle is open, the reservation succeeds, and every successful
response of the transport carries a completion code. -/
theorem SdrRepositoryEntries_chain {σ F : Type} (ops : Float64Ops F)
    (ipmi_send : IpmiSend σ) (l : LocalIPMI σ) (ts : List SdrFullSensorRecord)
    (r0 r1 : Byte) (rest : List Byte) (c1 cEnd : σ) (fuel : Nat)
    (hwf : FramesNonEmpty ipmi_send) (hopen : l.close ≠ 1)
    (hres : ipmi_send l.ctx (requestOf Message.ReserveSdrRepositoryReq)
      = (0, 0 :: r0 :: r1 :: rest, c1))
    (hchain : ServesChain ipmi_send (r0.val ||| (r1.val <<< 8)) c1 0 ts cEnd)
    (hfuel : ts.length + 1 ≤ fuel) :
    (l.SdrRepositoryEntries ops ipmi_send fuel).result = some (Except.ok ()) ∧
    (l.SdrRepositoryEntries ops ipmi_send fuel).calls.length = ts.length ∧
    (l.SdrRepositoryEntries ops ipmi_send fuel).calls.map (fun c => c.name)
      = ts.map (fun t => t.Id) := by
  unfold LocalIPMI.SdrRepositoryEntries LocalIPMI.GetReserveSDRRepoForReserveId
  rw [SendMessage_frame ipmi_send l _ _ (r0 :: r1 :: rest) c1 hopen hres]
  simp only [ReserveSdrRepositoryRsp.UnmarshalBinary]
  obtain ⟨hr, cs, hcs, hmap⟩ := sdrLoop_chain ops ipmi_send hwf (r0.val ||| (r1.val <<< 8))
    cEnd ts { l with ctx := c1 } 0 ([] : List (ItemCall F)) fuel hopen hchain hfuel
  rw [List.nil_append] at hcs
  refine ⟨hr, ?_, ?_⟩
  · rw [hcs]
    have := congrArg List.length hmap
    simpa using this
  · rw [hcs]; exact hmap

/-- Every frame of `stubSend` carries a completion code. -/
theorem stubSend_frames : FramesNonEmpty stubSend := by
  intro c rq _
  unfold stubSend
  split
  · simp
  split
  · simp
  split
  · split
    · dsimp only
      split
      · simp
      split
      · simp
      · simp
    · simp
  · simp

/-- The driver `stubSend` serves the chain of the two records `stubFullA`, `stubFullB`. -/
theorem stubSend_chain : ServesChain stubSend 0x1234 () 0 [stubFullA, stubFullB] () := by
  refine ⟨by decide, (), 2, ?_, by decide, (), 0xffff, ?_, rfl, rfl⟩
  · exact ⟨stubRecordA.take 5, stubRecordA.drop 5, [0x2A, 0x40], 0x02, 0x00, 0x02, 0x00,
      (), (), rfl, by decide, rfl, rfl, rfl, rfl, by decide⟩
  · exact ⟨stubRecordB.take 5, stubRecordB.drop 5, [0x2A, 0x40], 0xFF, 0xFF, 0xFF, 0xFF,
      (), (), rfl, by decide, rfl, rfl, rfl, rfl, by decide⟩

/-- C10 at n = 2: over `stubSend` the walk ends without error after two invocations of
the callback, with the id strings "Temp" and "Fan1" in that order. -/
theorem SdrRepositoryEntries_chain_witness :
    (LocalIPMI.SdrRepositoryEntries ratOps stubSend { ctx := () } 3).result
      = some (Except.ok ()) ∧
    (LocalIPMI.SdrRepositoryEntries ratOps stubSend { ctx := () } 3).calls.length
      = [stubFullA, stubFullB].length ∧
    (LocalIPMI.SdrRepositoryEntries ratOps stubSend { ctx := () } 3).calls.map
        (fun c => c.name)
      = [stubFullA, stubFullB].map (fun t => t.Id) :=
  SdrRepositoryEntries_chain ratOps stubSend { ctx := () } [stubFullA, stubFullB]
    0x34 0x12 [] () () 3 stubSend_frames (by decide) rfl stubSend_chain (by decide)

/-! ## C11, C12, C13: skipped records and errors during the walk -/

/-- `GetRepositorySdr` on an open handle when the driver answers the header request
with a chunk of at least 5 bytes and the payload request with a chunk: the result of
`SdrCommonFromData` on the two chunks, and the next record id of the second answer. -/
theorem GetRepositorySdr_chunks {σ : Type} (ipmi_send : IpmiSend σ) (l : LocalIPMI σ)
    (reservationId recordId : Nat) (hdr payload : List Byte) (b0 b1 n0 n1 : Byte)
    (c1 c2 : σ) (hopen : l.close ≠ 1)
    (h1 : ipmi_send l.ctx (requestOf (Message.GetSdrReq reservationId recordId 0 5))
      = (0, 0 :: b0 :: b1 :: hdr, c1))
    (h5 : 5 ≤ hdr.length)
    (h2 : ipmi_send c1 (requestOf (Message.GetSdrReq reservationId
        ((hdr.getD 0 0).val ||| ((hdr.getD 1 0).val <<< 8))
        (Fin.ofNat hdr.length) (hdr.getD 4 0)))
      = (0, 0 :: n0 :: n1 :: payload, c2)) :
    l.GetRepositorySdr ipmi_send recordId reservationId
      = ((SdrCommonFromData (hdr ++ payload) (n0.val ||| (n1.val <<< 8)),
          n0.val ||| (n1.val <<< 8)),
         { l with ctx := c2 }) := by
  rcases hdr with _ | ⟨a0, _ | ⟨a1, _ | ⟨a2, _ | ⟨a3, _ | ⟨a4, rest⟩⟩⟩⟩⟩
  · simp at h5
  · simp at h5
  · simp at h5
  · simp at h5
  · simp at h5
  have h2' : ipmi_send ({ l with ctx := c1 } : LocalIPMI σ).ctx
      (requestOf (Message.GetSdrReq reservationId (a0.val ||| (a1.val <<< 8))
        (Fin.ofNat (a0 :: a1 :: a2 :: a3 :: a4 :: rest).length) a4))
      = (0, 0 :: n0 :: n1 :: payload, c2) := h2
  unfold LocalIPMI.GetRepositorySdr LocalIPMI.getSdrDataHelper
  rw [getSdrChunk_frame ipmi_send l reservationId recordId 0 5 b0 b1 _ c1 hopen h1]
  simp only [NewByteBuffer, PopUint16_cons, PopUint8_cons]
  rw [getSdrChunk_frame ipmi_send { l with ctx := c1 } reservationId _ _ _ n0 n1 payload c2
    hopen h2']
  simp only
  cases SdrCommonFromData (a0 :: a1 :: a2 :: a3 :: a4 :: rest ++ payload)
      (n0.val ||| (n1.val <<< 8)) with
  | error e => rfl
  | ok c => rfl

/-- One iteration of the walk on a record of an unsupported type: no invocation of the
callback, and the walk goes on at the reported next record id. -/
theorem sdrLoop_unsupported {σ F : Type} (ops : Float64Ops F) (ipmi_send : IpmiSend σ)
    (reservationId : Nat) (l : LocalIPMI σ) (recordId : Nat) (c' : σ) (next : Nat)
    (hopen : l.close ≠ 1) (hne : recordId ≠ 0xffff)
    (hskip : ServesUnsupportedRecord ipmi_send reservationId l.ctx recordId c' next)
    (fuel : Nat) (calls : List (ItemCall F)) :
    LocalIPMI.sdrLoop ops ipmi_send reservationId (fuel + 1) l recordId calls
      = LocalIPMI.sdrLoop ops ipmi_send reservationId fuel { l with ctx := c' } next
          calls := by
  obtain ⟨hdr, payload, b0, b1, n0, n1, c1, h1, h5, h2, hnext, ht1, ht2⟩ := hskip
  subst hnext
  have hrepo := GetRepositorySdr_chunks ipmi_send l reservationId recordId hdr payload
    b0 b1 n0 n1 c1 c' hopen h1 h5 h2
  have hd : SdrCommonFromData (hdr ++ payload) (n0.val ||| (n1.val <<< 8))
      = Except.error (Error.UnsupportedSDRTypeErr (hdr.getD 3 0)
          (n0.val ||| (n1.val <<< 8))) := by
    rcases hdr with _ | ⟨a0, _ | ⟨a1, _ | ⟨a2, _ | ⟨a3, _ | ⟨a4, rest⟩⟩⟩⟩⟩
    · simp at h5
    · simp at h5
    · simp at h5
    · simp at h5
    · simp at h5
    have g3 : (a0 :: a1 :: a2 :: a3 :: a4 :: rest ++ payload).getD 3 0 = a3 := rfl
    have g3' : (a0 :: a1 :: a2 :: a3 :: a4 :: rest).getD 3 0 = a3 := rfl
    rw [g3'] at ht1 ht2
    unfold SdrCommonFromData
    have hl : ¬ ((a0 :: a1 :: a2 :: a3 :: a4 :: rest ++ payload).length < 4) := by
      simp only [List.cons_append, List.length_cons]; omega
    rw [if_neg hl]
    simp only [g3, g3', if_neg ht1, if_neg ht2]
    rfl
  rw [hd] at hrepo
  rw [LocalIPMI.sdrLoop]
  simp only [hrepo, if_neg hne, IsUnsupportedSDRTypeErr, if_true]

/-- C11: for a transport whose first SDR record has a recordType byte other than
0x01/0x02 and reports a nextRecordId pointing to a valid Full record,
`SdrRepositoryEntries` does not abort: it invokes no callback for the first record,
continues the walk at exactly the reported nextRecordId, and decodes and reports the
second record (and the chain of full records that follows it), returning no error. -/
theorem SdrRepositoryEntries_skips_unsupported {σ F : Type} (ops : Float64Ops F)
    (ipmi_send : IpmiSend σ) (l : LocalIPMI σ) (t : SdrFullSensorRecord)
    (ts : List SdrFullSensorRecord) (r0 r1 : Byte) (rest : List Byte) (c1 c2 cEnd : σ)
    (next fuel : Nat)
    (hwf : FramesNonEmpty ipmi_send) (hopen : l.close ≠ 1)
    (hres : ipmi_send l.ctx (requestOf Message.ReserveSdrRepositoryReq)
      = (0, 0 :: r0 :: r1 :: rest, c1))
    (hskip : ServesUnsupportedRecord ipmi_send (r0.val ||| (r1.val <<< 8)) c1 0 c2 next)
    (hchain : ServesChain ipmi_send (r0.val ||| (r1.val <<< 8)) c2 next (t :: ts) cEnd)
    (hfuel : ts.length + 3 ≤ fuel) :
    (l.SdrRepositoryEntries ops ipmi_send fuel).result = some (Except.ok ()) ∧
    (l.SdrRepositoryEntries ops ipmi_send fuel).calls.map (fun c => c.name)
      = (t :: ts).map (fun t => t.Id) ∧
    (l.SdrRepositoryEntries ops ipmi_send fuel).calls.length = ts.length + 1 ∧
    (∀ (f : Nat) (calls : List (ItemCall F)),
      LocalIPMI.sdrLoop ops ipmi_send (r0.val ||| (r1.val <<< 8)) (f + 1)
          { l with ctx := c1 } 0 calls
        = LocalIPMI.sdrLoop ops ipmi_send (r0.val ||| (r1.val <<< 8)) f
          { l with ctx := c2 } next calls) := by
  have hstep : ∀ (f : Nat) (calls : List (ItemCall F)),
      LocalIPMI.sdrLoop ops ipmi_send (r0.val ||| (r1.val <<< 8)) (f + 1)
          { l with ctx := c1 } 0 calls
        = LocalIPMI.sdrLoop ops ipmi_send (r0.val ||| (r1.val <<< 8)) f
          { l with ctx := c2 } next calls :=
    fun f calls => sdrLoop_unsupported ops ipmi_send (r0.val ||| (r1.val <<< 8))
      { l with ctx := c1 } 0 c2 next hopen (by decide) hskip f calls
  unfold LocalIPMI.SdrRepositoryEntries LocalIPMI.GetReserveSDRRepoForReserveId
  rw [SendMessage_frame ipmi_send l _ _ (r0 :: r1 :: rest) c1 hopen hres]
  simp only [ReserveSdrRepositoryRsp.UnmarshalBinary]
  obtain ⟨f, rfl⟩ : ∃ f, fuel = f + 1 := ⟨fuel - 1, by omega⟩
  rw [hstep f []]
  obtain ⟨hr, cs, hcs, hmap⟩ := sdrLoop_chain ops ipmi_send hwf (r0.val ||| (r1.val <<< 8))
    cEnd (t :: ts) { l with ctx := c2 } next ([] : List (ItemCall F)) f hopen hchain
    (by simp only [List.length_cons]; omega)
  rw [List.nil_append] at hcs
  refine ⟨hr, ?_, ?_, hstep⟩
  · rw [hcs]; exact hmap
  · rw [hcs]
    have := congrArg List.length hmap
    simpa using this

/-- Every frame of `repoSend` carries a completion code when the reading frame does. -/
theorem repoSend_frames (readingFrame : List Byte) (repo : List (Nat × List Byte × Nat))
    (h : readingFrame ≠ []) : FramesNonEmpty (repoSend readingFrame repo) := by
  intro c rq _
  unfold repoSend
  split
  · simp
  split
  · exact h
  split
  · split
    · split
      · simp
      · simp
    · simp
  · simp

/-- C11 over the repository `skipRepo`: the first record (type 0xC0) is skipped without
a callback, the walk goes on at record id 2 and reports the record "Fan1". -/
theorem SdrRepositoryEntries_skips_unsupported_witness :
    (LocalIPMI.SdrRepositoryEntries ratOps (repoSend [0x00, 0x2A, 0x40] skipRepo)
        { ctx := () } 3).result = some (Except.ok ()) ∧
    (LocalIPMI.SdrRepositoryEntries ratOps (repoSend [0x00, 0x2A, 0x40] skipRepo)
        { ctx := () } 3).calls.map (fun c => c.name)
      = [stubFullB].map (fun t => t.Id) :=
  have h := SdrRepositoryEntries_skips_unsupported ratOps
    (repoSend [0x00, 0x2A, 0x40] skipRepo) { ctx := () } stubFullB [] 0x34 0x12 [] () () ()
    2 3 (repoSend_frames _ _ (by decide)) (by decide) rfl
    ⟨stubRecordOem.take 5, stubRecordOem.drop 5, 0x02, 0x00, 0x02, 0x00, (), rfl,
      by decide, rfl, rfl, by decide, by decide⟩
    ⟨by decide, (), 0xffff,
      ⟨stubRecordB.take 5, stubRecordB.drop 5, [0x2A, 0x40], 0xFF, 0xFF, 0xFF, 0xFF,
        (), (), rfl, by decide, rfl, rfl, rfl, rfl, by decide⟩,
      rfl, rfl⟩
    (by decide)
  ⟨h.1, h.2.1⟩

/-- C12 as stated fails: over the repository `fullRepo` with every Get-Sensor-Reading
refused (completion code 0xCB), the walk does not abort and does not return that error:
it passes the error to the callback for the record "Temp", goes on to request and
report the record "Fan1", and returns nil. -/
theorem SdrRepositoryEntries_reading_error_continues :
    (LocalIPMI.getSensorReading (repoSend [0xCB] fullRepo) { ctx := () } 7 0).1
      = Except.error (Error.CompletionCode 0xCB) ∧
    (LocalIPMI.SdrRepositoryEntries ratOps (repoSend [0xCB] fullRepo)
        { ctx := () } 3).result = some (Except.ok ()) ∧
    (LocalIPMI.SdrRepositoryEntries ratOps (repoSend [0xCB] fullRepo)
        { ctx := () } 3).calls.map (fun c => (c.name, c.err))
      = [([84, 101, 109, 112], some (Error.CompletionCode 0xCB)),
         ([70, 97, 110, 49], some (Error.CompletionCode 0xCB))] :=
  ⟨rfl, rfl, rfl⟩

/-- One iteration of the walk on a record whose read fails with an error other than
`UnsupportedSDRTypeErr`: the loop stops with that error. -/
theorem sdrLoop_abort {σ F : Type} (ops : Float64Ops F) (ipmi_send : IpmiSend σ)
    (reservationId : Nat) (l l' : LocalIPMI σ) (recordId nextId fuel : Nat)
    (calls : List (ItemCall F)) (e : Error) (hne : recordId ≠ 0xffff)
    (h : l.GetRepositorySdr ipmi_send recordId reservationId
      = ((Except.error e, nextId), l'))
    (hu : IsUnsupportedSDRTypeErr e = false) :
    LocalIPMI.sdrLoop ops ipmi_send reservationId (fuel + 1) l recordId calls
      = { result := some (Except.error e), calls := calls, handle := l' } := by
  rw [LocalIPMI.sdrLoop, h]
  cases e with
  | UnsupportedSDRTypeErr a b => simp [IsUnsupportedSDRTypeErr] at hu
  | runtimePanic => rfl
  | _ => simp only [if_neg hne, IsUnsupportedSDRTypeErr]; rfl

/-- C12, amended: during `SdrRepositoryEntries`, for a record id other than 0xFFFF,
every error of `GetRepositorySdr` other than `UnsupportedSDRTypeErr` (a failed chunk
read or a record decode error) aborts the enumeration: no further record is requested
or reported and `SdrRepositoryEntries` returns that error to its caller; a failed
Get-Sensor-Reading or a raw-to-value conversion error does not abort: it is passed to
the callback for that record and the walk continues with the next record id. -/
theorem sdrLoop_error_handling {σ F : Type} (ops : Float64Ops F) (ipmi_send : IpmiSend σ)
    (reservationId : Nat) (l : LocalIPMI σ) (recordId fuel : Nat)
    (calls : List (ItemCall F)) (hne : recordId ≠ 0xffff) :
    (∀ (e : Error) (nextId : Nat) (l' : LocalIPMI σ),
      l.GetRepositorySdr ipmi_send recordId reservationId = ((Except.error e, nextId), l') →
      IsUnsupportedSDRTypeErr e = false →
      LocalIPMI.sdrLoop ops ipmi_send reservationId (fuel + 1) l recordId calls
        = { result := some (Except.error e), calls := calls, handle := l' }) ∧
    (∀ (l0 l' : LocalIPMI σ) (e : Error) (nextId : Nat),
      l0.GetReserveSDRRepoForReserveId ipmi_send = (Except.ok reservationId, l) →
      l.GetRepositorySdr ipmi_send 0 reservationId = ((Except.error e, nextId), l') →
      IsUnsupportedSDRTypeErr e = false →
      l0.SdrRepositoryEntries ops ipmi_send (fuel + 1)
        = { result := some (Except.error e), calls := [], handle := l' }) ∧
    (∀ (t : SdrFullSensorRecord) (nextId : Nat) (l' l'' : LocalIPMI σ) (e : Error),
      l.GetRepositorySdr ipmi_send recordId reservationId
        = ((Except.ok (SdrCommon.full t), nextId), l') →
      l'.getSensorReading ipmi_send t.number t.ownerLun = (Except.error e, l'') →
      e ≠ Error.runtimePanic →
      LocalIPMI.sdrLoop ops ipmi_send reservationId (fuel + 1) l recordId calls
        = LocalIPMI.sdrLoop ops ipmi_send reservationId fuel l'' nextId
            (calls ++ [{ name := t.Id, val := none, unitCode := 0, unit := "",
                         sensorTypeCode := 0, entityInstance := 0, sensorType := "",
                         err := some e }])) ∧
    (∀ (t : SdrFullSensorRecord) (nextId : Nat) (l' l'' : LocalIPMI σ) (value : Byte)
        (states : Option Int) (e : Error),
      l.GetRepositorySdr ipmi_send recordId reservationId
        = ((Except.ok (SdrCommon.full t), nextId), l') →
      l'.getSensorReading ipmi_send t.number t.ownerLun
        = (Except.ok (some value, states), l'') →
      t.ConvertSensorRawToValue ops (value.val : Int) = Except.error e →
      LocalIPMI.sdrLoop ops ipmi_send reservationId (fuel + 1) l recordId calls
        = LocalIPMI.sdrLoop ops ipmi_send reservationId fuel l'' nextId
            (calls ++ [{ name := t.Id, val := none, unitCode := 0, unit := "",
                         sensorTypeCode := 0, entityInstance := 0, sensorType := "",
                         err := some e }])) := by
  refine ⟨?_, ?_, ?_, ?_⟩
  · intro e nextId l' h hu
    exact sdrLoop_abort ops ipmi_send reservationId l l' recordId nextId fuel calls e
      hne h hu
  · intro l0 l' e nextId hres h hu
    unfold LocalIPMI.SdrRepositoryEntries
    rw [hres]
    exact sdrLoop_abort ops ipmi_send reservationId l l' 0 nextId fuel [] e
      (by decide) h hu
  · intro t nextId l' l'' e h hr hp
    rw [LocalIPMI.sdrLoop, h]
    simp only [if_neg hne, hr]
  · intro t nextId l' l'' value states e h hr hc
    rw [LocalIPMI.sdrLoop, h]
    simp only [if_neg hne, hr, hc]

/-- C12, amended, over the empty repository: the chunk read for record id 0 is refused
with completion code 0xCB; the loop and `SdrRepositoryEntries` return that error
without a callback. -/
theorem sdrLoop_error_handling_witness :
    LocalIPMI.sdrLoop ratOps (repoSend [0x00, 0x2A, 0x40] []) 0x1234 (0 + 1)
        { ctx := () } 0 []
      = { result := some (Except.error (Error.CompletionCode 0xCB)), calls := [],
          handle := { ctx := () } } ∧
    LocalIPMI.SdrRepositoryEntries ratOps (repoSend [0x00, 0x2A, 0x40] [])
        { ctx := () } (0 + 1)
      = { result := some (Except.error (Error.CompletionCode 0xCB)), calls := [],
          handle := { ctx := () } } :=
  have hw := sdrLoop_error_handling ratOps (repoSend [0x00, 0x2A, 0x40] []) 0x1234
    { ctx := () } 0 0 [] (by decide)
  ⟨hw.1 (Error.CompletionCode 0xCB) 0 { ctx := () } rfl rfl,
    hw.2.1 { ctx := () } { ctx := () } (Error.CompletionCode 0xCB) 0 rfl rfl rfl⟩

/-- C13: in every iteration of the walk of `SdrRepositoryEntries` whose record decodes
as a Compact sensor record, the callback is not invoked: the record is dropped and the
walk continues with the next record id (or ends, at record id 0xFFFF), the list of
invocations unchanged. -/
theorem sdrLoop_compact_dropped {σ F : Type} (ops : Float64Ops F) (ipmi_send : IpmiSend σ)
    (reservationId : Nat) (l l' : LocalIPMI σ) (recordId nextId fuel : Nat)
    (calls : List (ItemCall F)) (r : SdrCompactSensorRecord)
    (h : l.GetRepositorySdr ipmi_send recordId reservationId
      = ((Except.ok (SdrCommon.compact r), nextId), l')) :
    LocalIPMI.sdrLoop ops ipmi_send reservationId (fuel + 1) l recordId calls
      = (if recordId = 0xffff then
          { result := some (Except.ok ()), calls := calls, handle := l' }
         else LocalIPMI.sdrLoop ops ipmi_send reservationId fuel l' nextId calls) := by
  rw [LocalIPMI.sdrLoop, h]

/-- C13 over the repository `compactRepo`: the first record decodes as the compact
record `stubCompact`; the walk goes on at record id 2 with no invocation, and the whole
walk reports the record "Fan1" only. -/
theorem sdrLoop_compact_dropped_witness :
    LocalIPMI.sdrLoop ratOps (repoSend [0x00, 0x2A, 0x40] compactRepo) 0x1234 (2 + 1)
        { ctx := () } 0 []
      = (if (0 : Nat) = 0xffff then
          { result := some (Except.ok ()), calls := [], handle := { ctx := () } }
         else LocalIPMI.sdrLoop ratOps (repoSend [0x00, 0x2A, 0x40] compactRepo) 0x1234 2
          { ctx := () } 2 []) ∧
    (LocalIPMI.SdrRepositoryEntries ratOps (repoSend [0x00, 0x2A, 0x40] compactRepo)
        { ctx := () } 3).calls.map (fun c => c.name) = [[70, 97, 110, 49]] :=
  ⟨sdrLoop_compact_dropped ratOps (repoSend [0x00, 0x2A, 0x40] compactRepo) 0x1234
    { ctx := () } { ctx := () } 0 2 2 [] stubCompact rfl, rfl⟩

/-- A byte or-ed with a value shifted past it is their sum. -/
theorem or_shiftLeft_eq_add (a b k : Nat) (h : a < 2 ^ k) :
    a ||| (b <<< k) = a + b * 2 ^ k := by
  rw [Nat.shiftLeft_eq, Nat.mul_comm b, Nat.lor_comm, ← Nat.mul_add_lt_is_or h b]
  omega

/-- The operand of `time.Unix` is the little-endian value of the four bytes. -/
theorem selTimestamp_eq (entry : List Byte) (n : Nat) :
    selTimestamp entry n
      = (((entry.getD n 0).val + 256 * (entry.getD (n + 1) 0).val
          + 65536 * (entry.getD (n + 2) 0).val
          + 16777216 * (entry.getD (n + 3) 0).val : Nat) : Int) := by
  unfold selTimestamp
  have h0 := (entry.getD n 0).isLt
  have h1 := (entry.getD (n + 1) 0).isLt
  have h2 := (entry.getD (n + 2) 0).isLt
  have h3 := (entry.getD (n + 3) 0).isLt
  rw [or_shiftLeft_eq_add _ _ 8 (by omega)]
  rw [or_shiftLeft_eq_add _ _ 16 (by omega)]
  rw [or_shiftLeft_eq_add _ _ 24 (by omega)]
  congr 1
  omega

/-- C14: `UnmarshalSelBinary` fails, with `io.ErrShortBuffer`, if and only if the input
is not exactly 16 bytes long; every 16-byte input decodes successfully. -/
theorem UnmarshalSelBinary_error_iff (entry : List Byte) :
    (UnmarshalSelBinary entry = Except.error Error.ErrShortBuffer ↔ entry.length ≠ 16) ∧
    ((∃ err, UnmarshalSelBinary entry = Except.error err) ↔ entry.length ≠ 16) ∧
    (entry.length = 16 ↔ ∃ e, UnmarshalSelBinary entry = Except.ok e) := by
  by_cases h : entry.length = 16
  · have hok : ∃ e, UnmarshalSelBinary entry = Except.ok e := by
      unfold UnmarshalSelBinary
      rw [if_neg (not_not.mpr h)]
      dsimp only
      split
      · exact ⟨_, rfl⟩
      · split
        · exact ⟨_, rfl⟩
        · exact ⟨_, rfl⟩
    obtain ⟨e, he⟩ := hok
    refine ⟨?_, ?_, ?_⟩
    · rw [he]; simp [h]
    · rw [he]; simp [h]
    · rw [he]; simp [h]
  · have herr : UnmarshalSelBinary entry = Except.error Error.ErrShortBuffer := by
      unfold UnmarshalSelBinary
      rw [if_pos h]
    refine ⟨?_, ?_, ?_⟩
    · rw [herr]; simp [h]
    · rw [herr]; simp [h]
    · rw [herr]; simp [h]

/-- A list of 16 bytes is the list of its 16 elements. -/
theorem length16_eq (entry : List Byte) (h : entry.length = 16) :
    entry = [entry.getD 0 0, entry.getD 1 0, entry.getD 2 0, entry.getD 3 0,
             entry.getD 4 0, entry.getD 5 0, entry.getD 6 0, entry.getD 7 0,
             entry.getD 8 0, entry.getD 9 0, entry.getD 10 0, entry.getD 11 0,
             entry.getD 12 0, entry.getD 13 0, entry.getD 14 0, entry.getD 15 0] := by
  rcases entry with _ | ⟨a0, entry⟩
  · simp at h
  rcases entry with _ | ⟨a1, entry⟩
  · simp at h
  rcases entry with _ | ⟨a2, entry⟩
  · simp at h
  rcases entry with _ | ⟨a3, entry⟩
  · simp at h
  rcases entry with _ | ⟨a4, entry⟩
  · simp at h
  rcases entry with _ | ⟨a5, entry⟩
  · simp at h
  rcases entry with _ | ⟨a6, entry⟩
  · simp at h
  rcases entry with _ | ⟨a7, entry⟩
  · simp at h
  rcases entry with _ | ⟨a8, entry⟩
  · simp at h
  rcases entry with _ | ⟨a9, entry⟩
  · simp at h
  rcases entry with _ | ⟨a10, entry⟩
  · simp at h
  rcases entry with _ | ⟨a11, entry⟩
  · simp at h
  rcases entry with _ | ⟨a12, entry⟩
  · simp at h
  rcases entry with _ | ⟨a13, entry⟩
  · simp at h
  rcases entry with _ | ⟨a14, entry⟩
  · simp at h
  rcases entry with _ | ⟨a15, entry⟩
  · simp at h
  rcases entry with _ | ⟨a16, entry⟩
  · rfl
  · simp at h

/-- The standard branch of `UnmarshalSelBinary` in closed form. -/
theorem UnmarshalSelBinary_standard (entry : List Byte) (h : entry.length = 16)
    (ht : entry.getD 2 0 < 0xc0) :
    UnmarshalSelBinary entry = Except.ok
      { RecordId := (entry.getD 0 0).val ||| ((entry.getD 1 0).val <<< 8)
        RecordType := entry.getD 2 0
        StandardType := some
          { Timestamp := selTimestamp entry 3
            GenId := (entry.getD 7 0).val ||| ((entry.getD 8 0).val <<< 8)
            EvmRev := entry.getD 9 0
            SensorType := entry.getD 10 0
            SensorNum := entry.getD 11 0
            EventType := Fin.ofNat ((entry.getD 12 0).val &&& 0x7f)
            EventDir := Fin.ofNat (((entry.getD 12 0).val &&& 0x80) >>> 7)
            EventData := [entry.getD 13 0, entry.getD 14 0, entry.getD 14 0] }
        OemTsType := none
        OemNotsType := none } := by
  unfold UnmarshalSelBinary
  rw [if_neg (not_not.mpr h)]
  simp only [if_pos ht]

/-- The OEM timestamped branch of `UnmarshalSelBinary` in closed form. -/
theorem UnmarshalSelBinary_oemTs (entry : List Byte) (h : entry.length = 16)
    (ht : ¬ entry.getD 2 0 < 0xc0) (ht2 : entry.getD 2 0 < 0xe0) :
    UnmarshalSelBinary entry = Except.ok
      { RecordId := (entry.getD 0 0).val ||| ((entry.getD 1 0).val <<< 8)
        RecordType := entry.getD 2 0
        StandardType := none
        OemTsType := some
          { Timestamp := selTimestamp entry 3
            ManfId := [entry.getD 9 0, entry.getD 8 0, entry.getD 7 0]
            OemDefined := [entry.getD 10 0, entry.getD 11 0, entry.getD 12 0,
                           entry.getD 13 0, entry.getD 14 0, entry.getD 15 0] }
        OemNotsType := none } := by
  unfold UnmarshalSelBinary
  rw [if_neg (not_not.mpr h)]
  simp only [if_neg ht, if_pos ht2]
  rfl

/-- The OEM non-timestamped branch of `UnmarshalSelBinary` in closed form. -/
theorem UnmarshalSelBinary_oemNots (entry : List Byte) (h : entry.length = 16)
    (ht2 : ¬ entry.getD 2 0 < 0xe0) :
    UnmarshalSelBinary entry = Except.ok
      { RecordId := (entry.getD 0 0).val ||| ((entry.getD 1 0).val <<< 8)
        RecordType := entry.getD 2 0
        StandardType := none
        OemTsType := none
        OemNotsType := some
          { OemDefined := [entry.getD 3 0, entry.getD 4 0, entry.getD 5 0, entry.getD 6 0,
                           entry.getD 7 0, entry.getD 8 0, entry.getD 9 0, entry.getD 10 0,
                           entry.getD 11 0, entry.getD 12 0, entry.getD 13 0,
                           entry.getD 14 0, entry.getD 15 0] } } := by
  have ht : ¬ entry.getD 2 0 < 0xc0 := fun hlt => ht2 (lt_trans hlt (by decide))
  unfold UnmarshalSelBinary
  rw [if_neg (not_not.mpr h)]
  simp only [if_neg ht, if_neg ht2]
  rfl

/-- C15: for every 16-byte entry, the result of `UnmarshalSelBinary` has exactly one of
the three variants `StandardType`, `OemTsType`, `OemNotsType` present, selected by
`recordType = entry[2]`: the standard one iff `recordType < 0xC0`, the OEM timestamped
one iff `0xC0 <= recordType <= 0xDF`, the OEM non-timestamped one iff
`recordType >= 0xE0`; and `RecordId = entry[0] | entry[1] << 8`. -/
theorem UnmarshalSelBinary_variant (entry : List Byte) (h : entry.length = 16) :
    ∃ e, UnmarshalSelBinary entry = Except.ok e ∧
      e.RecordId = (entry.getD 0 0).val ||| ((entry.getD 1 0).val <<< 8) ∧
      e.RecordType = entry.getD 2 0 ∧
      (e.StandardType.isSome = true ↔ (entry.getD 2 0).val < 0xC0) ∧
      (e.OemTsType.isSome = true ↔
        0xC0 ≤ (entry.getD 2 0).val ∧ (entry.getD 2 0).val ≤ 0xDF) ∧
      (e.OemNotsType.isSome = true ↔ 0xE0 ≤ (entry.getD 2 0).val) ∧
      e.StandardType.isSome.toNat + e.OemTsType.isSome.toNat
        + e.OemNotsType.isSome.toNat = 1 := by
  by_cases ht : entry.getD 2 0 < 0xc0
  · refine ⟨_, UnmarshalSelBinary_standard entry h ht, rfl, rfl, ?_, ?_, ?_, rfl⟩
    · have : (entry.getD 2 0).val < 0xC0 := ht
      simp only [Option.isSome_some, true_iff]
      exact this
    · have : (entry.getD 2 0).val < 0xC0 := ht
      simp only [Option.isSome_none, Bool.false_eq_true, false_iff]
      omega
    · have : (entry.getD 2 0).val < 0xC0 := ht
      simp only [Option.isSome_none, Bool.false_eq_true, false_iff]
      omega
  · by_cases ht2 : entry.getD 2 0 < 0xe0
    · refine ⟨_, UnmarshalSelBinary_oemTs entry h ht ht2, rfl, rfl, ?_, ?_, ?_, rfl⟩
      · have h1 : ¬ (entry.getD 2 0).val < 0xC0 := ht
        simp only [Option.isSome_none, Bool.false_eq_true, false_iff]
        exact h1
      · have h1 : ¬ (entry.getD 2 0).val < 0xC0 := ht
        have h2 : (entry.getD 2 0).val < 0xE0 := ht2
        simp only [Option.isSome_some, true_iff]
        omega
      · have h2 : (entry.getD 2 0).val < 0xE0 := ht2
        simp only [Option.isSome_none, Bool.false_eq_true, false_iff]
        omega
    · refine ⟨_, UnmarshalSelBinary_oemNots entry h ht2, rfl, rfl, ?_, ?_, ?_, rfl⟩
      · have h1 : ¬ (entry.getD 2 0).val < 0xC0 := ht
        simp only [Option.isSome_none, Bool.false_eq_true, false_iff]
        exact h1
      · have h2 : ¬ (entry.getD 2 0).val < 0xE0 := ht2
        simp only [Option.isSome_none, Bool.false_eq_true, false_iff]
        omega
      · have h2 : ¬ (entry.getD 2 0).val < 0xE0 := ht2
        simp only [Option.isSome_some, true_iff]
        omega

/-- C15 at an entry of record type 0x02: the standard variant alone is present and the
record id is 0x0201; record types 0xC5 and 0xE5 select the other two variants. -/
theorem UnmarshalSelBinary_variant_witness :
    ∃ e, UnmarshalSelBinary [1, 2, 0x02, 0, 0, 0, 0, 0, 0, 0, 0, 0, 0, 0, 0, 0]
        = Except.ok e ∧
      e.RecordId = 0x0201 ∧ e.RecordType = 0x02 ∧
      e.StandardType.isSome = true ∧ e.OemTsType.isSome = false ∧
      e.OemNotsType.isSome = false ∧
      (∃ e1, UnmarshalSelBinary [1, 2, 0xC5, 0, 0, 0, 0, 0, 0, 0, 0, 0, 0, 0, 0, 0]
          = Except.ok e1 ∧ e1.StandardType.isSome = false ∧
          e1.OemTsType.isSome = true ∧ e1.OemNotsType.isSome = false) ∧
      (∃ e2, UnmarshalSelBinary [1, 2, 0xE5, 0, 0, 0, 0, 0, 0, 0, 0, 0, 0, 0, 0, 0]
          = Except.ok e2 ∧ e2.StandardType.isSome = false ∧
          e2.OemTsType.isSome = false ∧ e2.OemNotsType.isSome = true) :=
  match UnmarshalSelBinary_variant
      [1, 2, 0x02, 0, 0, 0, 0, 0, 0, 0, 0, 0, 0, 0, 0, 0] rfl with
  | ⟨e, he, hid, hty, hs, hts, hnots, _⟩ =>
    ⟨e, he, hid.trans (by decide), hty.trans (by decide), hs.mpr (by decide),
      by
        cases hv : e.OemTsType.isSome
        · rfl
        · exact absurd (hts.mp hv) (by decide),
      by
        cases hv : e.OemNotsType.isSome
        · rfl
        · exact absurd (hnots.mp hv) (by decide),
      ⟨_, rfl, rfl, rfl, rfl⟩, ⟨_, rfl, rfl, rfl, rfl⟩⟩

set_option maxRecDepth 100000 in
/-- The event type and direction split the byte `eventTd` into its low seven bits and
its top bit. -/
theorem eventTd_split (x : Byte) :
    ((Fin.ofNat (x.val &&& 0x7f) : Byte).val = x.val &&& 0x7f) ∧
    (Fin.ofNat (x.val &&& 0x7f) : Byte).val < 0x80 ∧
    ((Fin.ofNat ((x.val &&& 0x80) >>> 7) : Byte).val = x.val >>> 7) ∧
    (Fin.ofNat ((x.val &&& 0x80) >>> 7) : Byte).val ≤ 1 ∧
    ((Fin.ofNat (x.val &&& 0x7f) : Byte).val
      ||| ((Fin.ofNat ((x.val &&& 0x80) >>> 7) : Byte).val <<< 7)) = x.val := by
  revert x; decide

/-- C16: for every 16-byte entry with `entry[2] < 0xC0`, the decoded standard record has
timestamp seconds = little-endian u32 of `entry[3..6]`, `GenId = entry[7] | entry[8] << 8`,
`EvmRev = entry[9]`, `SensorType = entry[10]`, `SensorNum = entry[11]`,
`EventType = entry[12] & 0x7F` (so below 0x80), `EventDir = entry[12] >> 7` (so 0 or 1,
with `EventType | EventDir << 7 = entry[12]`), `EventData[0] = entry[13]` and
`EventData[1] = entry[14]`. -/
theorem UnmarshalSelBinary_standard_fields (entry : List Byte) (h : entry.length = 16)
    (ht : (entry.getD 2 0).val < 0xC0) :
    ∃ e s, UnmarshalSelBinary entry = Except.ok e ∧ e.StandardType = some s ∧
      s.Timestamp = (((entry.getD 3 0).val + 256 * (entry.getD 4 0).val
          + 65536 * (entry.getD 5 0).val + 16777216 * (entry.getD 6 0).val : Nat) : Int) ∧
      s.GenId = (entry.getD 7 0).val ||| ((entry.getD 8 0).val <<< 8) ∧
      s.GenId = (entry.getD 7 0).val + 256 * (entry.getD 8 0).val ∧
      s.EvmRev = entry.getD 9 0 ∧
      s.SensorType = entry.getD 10 0 ∧
      s.SensorNum = entry.getD 11 0 ∧
      s.EventType.val = (entry.getD 12 0).val &&& 0x7F ∧
      s.EventType.val < 0x80 ∧
      s.EventDir.val = (entry.getD 12 0).val >>> 7 ∧
      (s.EventDir = 0 ∨ s.EventDir = 1) ∧
      s.EventType.val ||| (s.EventDir.val <<< 7) = (entry.getD 12 0).val ∧
      s.EventData.getD 0 0 = entry.getD 13 0 ∧
      s.EventData.getD 1 0 = entry.getD 14 0 := by
  have hs := eventTd_split (entry.getD 12 0)
  refine ⟨_, _, UnmarshalSelBinary_standard entry h ht, rfl, selTimestamp_eq entry 3, rfl,
    ?_, rfl, rfl, rfl, hs.1, hs.2.1, hs.2.2.1, ?_, hs.2.2.2.2, rfl, rfl⟩
  · have h7 := (entry.getD 7 0).isLt
    show (entry.getD 7 0).val ||| ((entry.getD 8 0).val <<< 8) = _
    rw [or_shiftLeft_eq_add _ _ 8 (by omega)]
    omega
  · have h1 := hs.2.2.2.1
    generalize (Fin.ofNat (((entry.getD 12 0).val &&& 0x80) >>> 7) : Byte) = d at h1
    show d = 0 ∨ d = 1
    rcases Nat.le_one_iff_eq_zero_or_eq_one.mp h1 with h0 | h0
    · exact Or.inl (Fin.ext h0)
    · exact Or.inr (Fin.ext h0)

/-- C16 at an entry with timestamp bytes 0x78 0x56 0x34 0x12 and `eventTd = 0x81`: the
seconds are 0x12345678, the event type is 1 and the direction is 1. -/
theorem UnmarshalSelBinary_standard_fields_witness :
    ∃ e s, UnmarshalSelBinary
        [1, 2, 0x02, 0x78, 0x56, 0x34, 0x12, 0x20, 0x00, 0x04, 0x01, 0x30, 0x81,
         0x57, 0x01, 0x99] = Except.ok e ∧ e.StandardType = some s ∧
      s.Timestamp = 0x12345678 ∧ s.GenId = 0x0020 ∧ s.EvmRev = 0x04 ∧
      s.SensorType = 0x01 ∧ s.SensorNum = 0x30 ∧ s.EventType.val = 1 ∧
      s.EventDir.val = 1 ∧ s.EventData.getD 0 0 = 0x57 ∧ s.EventData.getD 1 0 = 0x01 :=
  match UnmarshalSelBinary_standard_fields
      [1, 2, 0x02, 0x78, 0x56, 0x34, 0x12, 0x20, 0x00, 0x04, 0x01, 0x30, 0x81,
       0x57, 0x01, 0x99] rfl (by decide) with
  | ⟨e, s, he, hs, h1, _, h3, h4, h5, h6, h7, _, h9, _, _, h12, h13⟩ =>
    ⟨e, s, he, hs, h1.trans (by decide), h3.trans (by decide), h4.trans (by decide),
      h5.trans (by decide), h6.trans (by decide), h7.trans (by decide),
      h9.trans (by decide), h12.trans (by decide), h13.trans (by decide)⟩

/-- C17: for every 16-byte entry with `recordType < 0xC0`, the third event-data byte of
the decoded standard record is taken from the same source index as the second:
`EventData[2] = EventData[1] = entry[14]`; consequently two entries that differ only in
`entry[15]` decode to equal records. -/
theorem UnmarshalSelBinary_third_data_byte (entry other : List Byte)
    (h : entry.length = 16) (ho : other.length = 16) (ht : (entry.getD 2 0).val < 0xC0)
    (hsame : ∀ i, i < 15 → other.getD i 0 = entry.getD i 0) :
    (∃ e s, UnmarshalSelBinary entry = Except.ok e ∧ e.StandardType = some s ∧
      s.EventData.getD 2 0 = s.EventData.getD 1 0 ∧
      s.EventData.getD 1 0 = entry.getD 14 0 ∧
      s.EventData = [entry.getD 13 0, entry.getD 14 0, entry.getD 14 0]) ∧
    UnmarshalSelBinary other = UnmarshalSelBinary entry := by
  refine ⟨⟨_, _, UnmarshalSelBinary_standard entry h ht, rfl, rfl, rfl, rfl⟩, ?_⟩
  have hto : (other.getD 2 0).val < 0xC0 := by
    rw [hsame 2 (by decide)]
    exact ht
  rw [UnmarshalSelBinary_standard entry h ht, UnmarshalSelBinary_standard other ho hto]
  unfold selTimestamp
  rw [hsame 0 (by decide), hsame 1 (by decide), hsame 2 (by decide),
    hsame 3 (by decide), hsame (3 + 1) (by decide), hsame (3 + 2) (by decide),
    hsame (3 + 3) (by decide), hsame 7 (by decide), hsame 8 (by decide),
    hsame 9 (by decide), hsame 10 (by decide), hsame 11 (by decide),
    hsame 12 (by decide), hsame 13 (by decide), hsame 14 (by decide)]

/-- C17 at two entries that differ in `entry[15]` only (0x99 and 0x00): both decode to
the same record, whose event data are 0x57, 0x01, 0x01. -/
theorem UnmarshalSelBinary_third_data_byte_witness :
    (∃ e s, UnmarshalSelBinary
        [1, 2, 0x02, 0x78, 0x56, 0x34, 0x12, 0x20, 0x00, 0x04, 0x01, 0x30, 0x81,
         0x57, 0x01, 0x99] = Except.ok e ∧ e.StandardType = some s ∧
      s.EventData = [0x57, 0x01, 0x01]) ∧
    UnmarshalSelBinary
        [1, 2, 0x02, 0x78, 0x56, 0x34, 0x12, 0x20, 0x00, 0x04, 0x01, 0x30, 0x81,
         0x57, 0x01, 0x00]
      = UnmarshalSelBinary
        [1, 2, 0x02, 0x78, 0x56, 0x34, 0x12, 0x20, 0x00, 0x04, 0x01, 0x30, 0x81,
         0x57, 0x01, 0x99] :=
  have hw := UnmarshalSelBinary_third_data_byte
    [1, 2, 0x02, 0x78, 0x56, 0x34, 0x12, 0x20, 0x00, 0x04, 0x01, 0x30, 0x81,
      0x57, 0x01, 0x99]
    [1, 2, 0x02, 0x78, 0x56, 0x34, 0x12, 0x20, 0x00, 0x04, 0x01, 0x30, 0x81,
      0x57, 0x01, 0x00] rfl rfl (by decide) (by decide)
  match hw with
  | ⟨⟨e, s, he, hs, _, _, hd⟩, heq⟩ => ⟨⟨e, s, he, hs, hd⟩, heq⟩

/-- The two bytes of a little-endian record id are recovered from the id. -/
theorem recordId_bytes (a b : Byte) :
    (Fin.ofNat (a.val ||| (b.val <<< 8)) : Byte) = a ∧
    (Fin.ofNat ((a.val ||| (b.val <<< 8)) >>> 8) : Byte) = b := by
  have ha := a.isLt
  have hb := b.isLt
  rw [or_shiftLeft_eq_add _ _ 8 (by omega)]
  constructor
  · apply Fin.ext
    show (a.val + b.val * 2 ^ 8) % 256 = a.val
    omega
  · apply Fin.ext
    show ((a.val + b.val * 2 ^ 8) >>> 8) % 256 = b.val
    rw [Nat.shiftRight_eq_div_pow]
    omega

/-- C18: for every 16-byte entry with `entry[2] >= 0xE0`, the decoded OEM
non-timestamped record carries the 13 raw bytes `entry[3..15]` unchanged, so the
little-endian `RecordId`, then `RecordType`, then `OemDefined` re-concatenated reproduce
the input entry exactly, and the decoder is injective on such entries. -/
theorem UnmarshalSelBinary_oemNots_roundtrip (entry : List Byte) (h : entry.length = 16)
    (ht : 0xE0 ≤ (entry.getD 2 0).val) :
    (∃ e o, UnmarshalSelBinary entry = Except.ok e ∧ e.OemNotsType = some o ∧
      o.OemDefined = entry.drop 3 ∧ o.OemDefined.length = 13 ∧
      [Fin.ofNat e.RecordId, Fin.ofNat (e.RecordId >>> 8), e.RecordType] ++ o.OemDefined
        = entry) ∧
    (∀ other : List Byte, other.length = 16 → 0xE0 ≤ (other.getD 2 0).val →
      UnmarshalSelBinary other = UnmarshalSelBinary entry → other = entry) := by
  have hnlt : ∀ x : List Byte, 0xE0 ≤ (x.getD 2 0).val → ¬ x.getD 2 0 < 0xe0 := by
    intro x hx hlt
    have : (x.getD 2 0).val < 0xE0 := hlt
    omega
  have hback : ∀ x : List Byte, x.length = 16 → 0xE0 ≤ (x.getD 2 0).val →
      ∃ e o, UnmarshalSelBinary x = Except.ok e ∧ e.OemNotsType = some o ∧
        o.OemDefined = x.drop 3 ∧ o.OemDefined.length = 13 ∧
        [Fin.ofNat e.RecordId, Fin.ofNat (e.RecordId >>> 8), e.RecordType] ++ o.OemDefined
          = x := by
    intro x hx hxt
    refine ⟨_, _, UnmarshalSelBinary_oemNots x hx (hnlt x hxt), rfl, ?_, rfl, ?_⟩
    · conv_rhs => rw [length16_eq x hx]
      rfl
    · have hb := recordId_bytes (x.getD 0 0) (x.getD 1 0)
      conv_rhs => rw [length16_eq x hx]
      show [(Fin.ofNat ((x.getD 0 0).val ||| ((x.getD 1 0).val <<< 8)) : Byte),
        Fin.ofNat (((x.getD 0 0).val ||| ((x.getD 1 0).val <<< 8)) >>> 8),
        x.getD 2 0] ++ _ = _
      rw [hb.1, hb.2]
      rfl
  refine ⟨hback entry h ht, ?_⟩
  intro other ho hto heq
  obtain ⟨e, o, he, hso, _, _, hcat⟩ := hback entry h ht
  obtain ⟨e2, o2, he2, hso2, _, _, hcat2⟩ := hback other ho hto
  rw [he, he2] at heq
  have hee : e2 = e := Except.ok.inj heq
  subst hee
  rw [hso] at hso2
  have hoo : o = o2 := Option.some.inj hso2
  subst hoo
  rw [← hcat, ← hcat2]

/-- C18 at an entry of record type 0xE5: the decoded record holds the 13 bytes
1 .. 13 and its fields re-concatenated are the input. -/
theorem UnmarshalSelBinary_oemNots_roundtrip_witness :
    ∃ e o, UnmarshalSelBinary [0x34, 0x12, 0xE5, 1, 2, 3, 4, 5, 6, 7, 8, 9, 10, 11, 12, 13]
        = Except.ok e ∧ e.OemNotsType = some o ∧
      o.OemDefined = [1, 2, 3, 4, 5, 6, 7, 8, 9, 10, 11, 12, 13] ∧
      [Fin.ofNat e.RecordId, Fin.ofNat (e.RecordId >>> 8), e.RecordType] ++ o.OemDefined
        = [0x34, 0x12, 0xE5, 1, 2, 3, 4, 5, 6, 7, 8, 9, 10, 11, 12, 13] :=
  match (UnmarshalSelBinary_oemNots_roundtrip
      [0x34, 0x12, 0xE5, 1, 2, 3, 4, 5, 6, 7, 8, 9, 10, 11, 12, 13] rfl (by decide)).1 with
  | ⟨e, o, he, ho, hd, _, hcat⟩ => ⟨e, o, he, ho, hd.trans rfl, hcat⟩

/-- The lookup of `StandardSpecSelRec.GetEventSensorType` depends on the record only
through its sensor type, its event type and its first two event-data bytes. -/
theorem GetEventSensorType_of_fields (s : StandardSpecSelRec) (oem : Nat)
    (st et e0 e1 : Byte) (hst : s.SensorType = st) (het : s.EventType = et)
    (h0 : s.EventData.getD 0 0 = e0) (h1 : s.EventData.getD 1 0 = e1) :
    s.GetEventSensorType oem
      = StandardSpecSelRec.GetEventSensorType
          { Timestamp := 0, GenId := 0, EvmRev := 0, SensorType := st, SensorNum := 0,
            EventType := et, EventDir := 0, EventData := [e0, e1, 0] } oem := by
  unfold StandardSpecSelRec.GetEventSensorType
  simp only [hst, het, h0, h1]
  rfl

/-- C19 as stated fails: with event data `[0x06, 0x01, 0x00]` the top two bits of the
first byte are clear, so no entry with a specific data byte matches; the lookup returns
the wildcard entry `{0x08, 0x06, 0xff, "Config Error"}`, not the descriptor
"Config Error: Revision Mismatch". -/
theorem GetEventSensorType_config_error_plain :
    StandardSpecSelRec.GetEventSensorType
        { Timestamp := 0, GenId := 0, EvmRev := 0, SensorType := 0x08, SensorNum := 0,
          EventType := 0x6f, EventDir := 0, EventData := [0x06, 0x01, 0x00] } 0
      = some (EventSensorType.mk 0x08 0x06 0xff "Config Error") ∧
    (StandardSpecSelRec.GetEventSensorType
        { Timestamp := 0, GenId := 0, EvmRev := 0, SensorType := 0x08, SensorNum := 0,
          EventType := 0x6f, EventDir := 0, EventData := [0x06, 0x01, 0x00] } 0).map
      (fun e => e.Desc) ≠ some "Config Error: Revision Mismatch" :=
  ⟨rfl, by decide⟩

set_option maxRecDepth 100000 in
/-- The power-supply lookup at offset 6 and data byte 1, for every first event-data
byte of that offset. -/
theorem GetEventSensorType_power_supply_offset6 (e0 : Byte) (hoff : e0.val &&& 0xf = 6) :
    StandardSpecSelRec.GetEventSensorType
        { Timestamp := 0, GenId := 0, EvmRev := 0, SensorType := 0x08, SensorNum := 0,
          EventType := 0x6f, EventDir := 0, EventData := [e0, 0x01, 0] } 0
      = some (if e0.val &&& 0xc0 = 0 then EventSensorType.mk 0x08 0x06 0xff "Config Error"
              else EventSensorType.mk 0x08 0x06 0x01 "Config Error: Revision Mismatch") := by
  revert e0; decide

/-- C19, amended: for a standard SEL record with `sensorType = 0x08`,
`eventType = 0x6F`, second event-data byte 0x01 and `oemId = 0`, `GetEventSensorType`
resolves event data `[0x06, 0x01, *]` to the descriptor whose text is "Config Error";
it resolves to the descriptor "Config Error: Revision Mismatch" when the first
event-data byte has offset 6 and one of its top two bits set (0x46, 0x86, 0xC6). -/
theorem GetEventSensorType_power_supply_config (s : StandardSpecSelRec)
    (hst : s.SensorType = 0x08) (het : s.EventType = 0x6f)
    (h1 : s.EventData.getD 1 0 = 0x01)
    (hoff : (s.EventData.getD 0 0).val &&& 0xf = 6) :
    (s.EventData.getD 0 0 = 0x06 →
      s.GetEventSensorType 0 = some (EventSensorType.mk 0x08 0x06 0xff "Config Error")) ∧
    ((s.EventData.getD 0 0).val &&& 0xc0 ≠ 0 →
      s.GetEventSensorType 0
        = some (EventSensorType.mk 0x08 0x06 0x01 "Config Error: Revision Mismatch")) ∧
    ((s.EventData.getD 0 0).val &&& 0xc0 = 0 →
      s.GetEventSensorType 0 = some (EventSensorType.mk 0x08 0x06 0xff "Config Error")) := by
  have hg := GetEventSensorType_of_fields s 0 0x08 0x6f (s.EventData.getD 0 0) 0x01
    hst het rfl h1
  have hp := GetEventSensorType_power_supply_offset6 (s.EventData.getD 0 0) hoff
  rw [hp] at hg
  refine ⟨?_, ?_, ?_⟩
  · intro h6
    have hz : (s.EventData.getD 0 0).val &&& 0xc0 = 0 := by rw [h6]; decide
    rw [hg, if_pos hz]
  · intro hnz
    rw [hg, if_neg hnz]
  · intro hz
    rw [hg, if_pos hz]

/-- C19, amended, at the event data `[0x46, 0x01, 0x00]`: the lookup returns the
descriptor "Config Error: Revision Mismatch". -/
theorem GetEventSensorType_power_supply_config_witness :
    StandardSpecSelRec.GetEventSensorType
        { Timestamp := 0, GenId := 0, EvmRev := 0, SensorType := 0x08, SensorNum := 0,
          EventType := 0x6f, EventDir := 0, EventData := [0x46, 0x01, 0x00] } 0
      = some (EventSensorType.mk 0x08 0x06 0x01 "Config Error: Revision Mismatch") :=
  (GetEventSensorType_power_supply_config
    { Timestamp := 0, GenId := 0, EvmRev := 0, SensorType := 0x08, SensorNum := 0,
      EventType := 0x6f, EventDir := 0, EventData := [0x46, 0x01, 0x00] }
    rfl rfl rfl (by decide)).2.1 (by decide)

set_option maxRecDepth 100000 in
/-- The threshold lookup at offset 2 gives the same entry for every sensor type. -/
theorem GetEventSensorType_threshold_offset2 (st : Byte) :
    StandardSpecSelRec.GetEventSensorType
        { Timestamp := 0, GenId := 0, EvmRev := 0, SensorType := st, SensorNum := 0,
          EventType := 0x01, EventDir := 0, EventData := [0x02, 0xFF, 0] } 0
      = some (EventSensorType.mk 0x01 0x02 0xff "Lower Critical going low ") := by
  revert st; decide

/-- C20 as stated fails: for sensor type 0x01 the record with `eventType = 0x01` and
event data `[0x02, 0xFF, 0x00]` resolves to the entry whose text is
"Lower Critical going low " with a trailing space, which is not exactly the string
"Lower Critical going low". -/
theorem GetEventSensorType_lower_critical_text :
    StandardSpecSelRec.GetEventSensorType
        { Timestamp := 0, GenId := 0, EvmRev := 0, SensorType := 0x01, SensorNum := 0,
          EventType := 0x01, EventDir := 0, EventData := [0x02, 0xFF, 0x00] } 0
      = some (EventSensorType.mk 0x01 0x02 0xff "Lower Critical going low ") ∧
    (StandardSpecSelRec.GetEventSensorType
        { Timestamp := 0, GenId := 0, EvmRev := 0, SensorType := 0x01, SensorNum := 0,
          EventType := 0x01, EventDir := 0, EventData := [0x02, 0xFF, 0x00] } 0).map
      (fun e => e.Desc) ≠ some "Lower Critical going low" :=
  ⟨rfl, by decide⟩

/-- C20, amended: for every sensorType, a standard SEL record with `eventType = 0x01`,
event data bytes `[0x02, 0xFF, *]` and `oemId = 0` resolves to a descriptor whose text
is exactly the string "Lower Critical going low " (the words followed by one space). -/
theorem GetEventSensorType_lower_critical (s : StandardSpecSelRec)
    (het : s.EventType = 0x01) (h0 : s.EventData.getD 0 0 = 0x02)
    (h1 : s.EventData.getD 1 0 = 0xFF) :
    s.GetEventSensorType 0
      = some (EventSensorType.mk 0x01 0x02 0xff "Lower Critical going low ") ∧
    (s.GetEventSensorType 0).map (fun e => e.Desc)
      = some ("Lower Critical going low" ++ " ") := by
  have hg : s.GetEventSensorType 0
      = some (EventSensorType.mk 0x01 0x02 0xff "Lower Critical going low ") := by
    rw [GetEventSensorType_of_fields s 0 s.SensorType 0x01 0x02 0xFF rfl het h0 h1]
    exact GetEventSensorType_threshold_offset2 s.SensorType
  rw [hg]
  exact ⟨rfl, by decide⟩

/-- C20, amended, at sensor type 0xC5 with third event-data byte 0x7A. -/
theorem GetEventSensorType_lower_critical_witness :
    (StandardSpecSelRec.GetEventSensorType
        { Timestamp := 0, GenId := 0, EvmRev := 0, SensorType := 0xC5, SensorNum := 0,
          EventType := 0x01, EventDir := 0, EventData := [0x02, 0xFF, 0x7A] } 0).map
      (fun e => e.Desc) = some ("Lower Critical going low" ++ " ") :=
  (GetEventSensorType_lower_critical
    { Timestamp := 0, GenId := 0, EvmRev := 0, SensorType := 0xC5, SensorNum := 0,
      EventType := 0x01, EventDir := 0, EventData := [0x02, 0xFF, 0x7A] }
    rfl rfl rfl).2

/-- The lookup of `GetEventSensorType` is a search of `eventTable` under `eventKey`. -/
theorem GetEventSensorType_eq_find (st et : Byte) (oem : Nat)
    (filter : EventSensorType → Bool) :
    GetEventSensorType st et oem filter
      = (eventTable st et oem).find? (fun e => e.Code == eventKey st et && filter e) := by
  unfold GetEventSensorType eventTable eventKey
  by_cases h : et = 0x6f
  · by_cases h2 : 0xC0 ≤ st.val ∧ st.val ≤ 0xF0 ∧ oem = 15000
    · have h3 : st ≥ 0xC0 ∧ st ≤ 0xF0 ∧ oem = 15000 := h2
      simp only [if_pos h, if_pos h2, if_pos h3]
    · have h3 : ¬ (st ≥ 0xC0 ∧ st ≤ 0xF0 ∧ oem = 15000) := h2
      simp only [if_pos h, if_neg h2, if_neg h3]
  · simp only [if_neg h]

/-- The filter of `StandardSpecSelRec.GetEventSensorType`, together with the test of
the code, accepts exactly the entries that match the event. -/
theorem eventFilter_iff (s : StandardSpecSelRec) (key : Byte) (e : EventSensorType) :
    ((e.Code == key &&
        (if e.Offset = (Fin.ofNat ((s.EventData.getD 0 0).val &&& 0xf) : Byte) ∧
            (e.Data = 0xff ∨
              ((Fin.ofNat ((s.EventData.getD 0 0).val &&& 0xc0) : Byte) ≠ 0 ∧
                e.Data = s.EventData.getD 1 0)) then true else false)) = true)
      ↔ EventMatches s key e := by
  have h1 : (s.EventData.getD 0 0).val &&& 0xf ≤ 0xf := Nat.and_le_right
  have h2 : (s.EventData.getD 0 0).val &&& 0xc0 ≤ 0xc0 := Nat.and_le_right
  have ho : (e.Offset = (Fin.ofNat ((s.EventData.getD 0 0).val &&& 0xf) : Byte))
      ↔ e.Offset.val = (s.EventData.getD 0 0).val &&& 0xf := by
    have hv : ((Fin.ofNat ((s.EventData.getD 0 0).val &&& 0xf) : Byte) : Nat)
        = ((s.EventData.getD 0 0).val &&& 0xf) % 256 := rfl
    constructor
    · intro h
      rw [h, hv]
      omega
    · intro h
      apply Fin.ext
      rw [hv, h]
      omega
  have hd : ((Fin.ofNat ((s.EventData.getD 0 0).val &&& 0xc0) : Byte) ≠ 0)
      ↔ (s.EventData.getD 0 0).val &&& 0xc0 ≠ 0 := by
    have hv : ((Fin.ofNat ((s.EventData.getD 0 0).val &&& 0xc0) : Byte) : Nat)
        = ((s.EventData.getD 0 0).val &&& 0xc0) % 256 := rfl
    constructor
    · intro h hz
      apply h
      apply Fin.ext
      rw [hv, hz]
      rfl
    · intro h hz
      apply h
      have h3 : ((Fin.ofNat ((s.EventData.getD 0 0).val &&& 0xc0) : Byte) : Nat) = 0 :=
        congrArg Fin.val hz
      rw [hv] at h3
      omega
  unfold EventMatches
  rw [Bool.and_eq_true, beq_iff_eq, ← ho, ← hd]
  constructor
  · rintro ⟨hc, hf⟩
    by_cases hcond : e.Offset = (Fin.ofNat ((s.EventData.getD 0 0).val &&& 0xf) : Byte) ∧
        (e.Data = 0xff ∨
          ((Fin.ofNat ((s.EventData.getD 0 0).val &&& 0xc0) : Byte) ≠ 0 ∧
            e.Data = s.EventData.getD 1 0))
    · exact ⟨hc, hcond.1, hcond.2⟩
    · rw [if_neg hcond] at hf
      exact absurd hf (by decide)
  · rintro ⟨hc, hoff, hdata⟩
    exact ⟨hc, by rw [if_pos ⟨hoff, hdata⟩]⟩

/-- C21: for every event, `StandardSpecSelRec.GetEventSensorType` returns the first
entry, in table order, of the chosen table whose `Code` equals the lookup key, whose
`Offset` equals `EventData[0] & 0x0F`, and whose `Data` is either 0xFF or (when
`(EventData[0] & 0xC0) != 0`) equal to `EventData[1]`; it returns nil if and only if the
chosen table has no such entry. -/
theorem GetEventSensorType_first_match (s : StandardSpecSelRec) (oem : Nat) :
    (∀ e, s.GetEventSensorType oem = some e ↔
      ∃ before after,
        eventTable s.SensorType s.EventType oem = before ++ e :: after ∧
        EventMatches s (eventKey s.SensorType s.EventType) e ∧
        ∀ x ∈ before, ¬ EventMatches s (eventKey s.SensorType s.EventType) x) ∧
    (s.GetEventSensorType oem = none ↔
      ∀ x ∈ eventTable s.SensorType s.EventType oem,
        ¬ EventMatches s (eventKey s.SensorType s.EventType) x) := by
  have hfind : s.GetEventSensorType oem
      = (eventTable s.SensorType s.EventType oem).find? (fun e =>
          e.Code == eventKey s.SensorType s.EventType &&
          (if e.Offset = (Fin.ofNat ((s.EventData.getD 0 0).val &&& 0xf) : Byte) ∧
              (e.Data = 0xff ∨
                ((Fin.ofNat ((s.EventData.getD 0 0).val &&& 0xc0) : Byte) ≠ 0 ∧
                  e.Data = s.EventData.getD 1 0)) then true else false)) := by
    unfold StandardSpecSelRec.GetEventSensorType
    exact GetEventSensorType_eq_find _ _ _ _
  obtain ⟨p, hp, hfp⟩ : ∃ p : EventSensorType → Bool,
      (∀ x, p x = true ↔ EventMatches s (eventKey s.SensorType s.EventType) x) ∧
      s.GetEventSensorType oem = (eventTable s.SensorType s.EventType oem).find? p :=
    ⟨_, fun x => eventFilter_iff s _ x, hfind⟩
  rw [hfp]
  constructor
  · intro e
    rw [List.find?_eq_some]
    constructor
    · rintro ⟨hpe, before, after, htab, hbefore⟩
      refine ⟨before, after, htab, (hp e).mp hpe, ?_⟩
      intro x hx hm
      have hx2 := hbefore x hx
      rw [(hp x).mpr hm] at hx2
      exact absurd hx2 (by decide)
    · rintro ⟨before, after, htab, hm, hbefore⟩
      refine ⟨(hp e).mpr hm, before, after, htab, ?_⟩
      intro x hx
      cases hpx : p x
      · rfl
      · exact absurd ((hp x).mp hpx) (hbefore x hx)
  · rw [List.find?_eq_none]
    constructor
    · intro h x hx hm
      exact h x hx ((hp x).mpr hm)
    · intro h x hx hpx
      exact h x hx ((hp x).mp hpx)

/-- C22: table selection in `GetEventSensorType`. When `eventType != 0x6F` the lookup
searches the generic threshold/discrete table under the key `eventType`, so the result
is the same for every sensorType and every oemId; when `eventType = 0x6F` the key is
`sensorType`, and the OEM-Kontron table is searched exactly when
`0xC0 <= sensorType <= 0xF0` and `oemId = 15000`, otherwise the generic sensor-specific
table, so for a sensorType outside [0xC0, 0xF0] the result does not depend on oemId. -/
theorem GetEventSensorType_table_selection (st et : Byte) (oem : Nat)
    (filter : EventSensorType → Bool) :
    (et ≠ 0x6f →
      GetEventSensorType st et oem filter
        = genericEventTypes.find? (fun e => e.Code == et && filter e) ∧
      ∀ (st2 : Byte) (oem2 : Nat),
        GetEventSensorType st2 et oem2 filter = GetEventSensorType st et oem filter) ∧
    (et = 0x6f → (0xC0 ≤ st.val ∧ st.val ≤ 0xF0 ∧ oem = 15000) →
      GetEventSensorType st et oem filter
        = oemKontronEventTypes.find? (fun e => e.Code == st && filter e)) ∧
    (et = 0x6f → ¬ (0xC0 ≤ st.val ∧ st.val ≤ 0xF0 ∧ oem = 15000) →
      GetEventSensorType st et oem filter
        = sensorSpecificEventTypes.find? (fun e => e.Code == st && filter e)) ∧
    (et = 0x6f → ¬ (0xC0 ≤ st.val ∧ st.val ≤ 0xF0) →
      ∀ oem2 : Nat,
        GetEventSensorType st et oem2 filter = GetEventSensorType st et oem filter) ∧
    oemKontronEventTypes ≠ sensorSpecificEventTypes := by
  refine ⟨?_, ?_, ?_, ?_, ?_⟩
  · intro h
    have hg : ∀ (a : Byte) (o : Nat), GetEventSensorType a et o filter
        = genericEventTypes.find? (fun e => e.Code == et && filter e) := by
      intro a o
      rw [GetEventSensorType_eq_find]
      unfold eventTable eventKey
      simp only [if_neg h]
    exact ⟨hg st oem, fun st2 oem2 => (hg st2 oem2).trans (hg st oem).symm⟩
  · intro h hk
    rw [GetEventSensorType_eq_find]
    unfold eventTable eventKey
    simp only [if_pos h, if_pos hk]
  · intro h hk
    rw [GetEventSensorType_eq_find]
    unfold eventTable eventKey
    simp only [if_pos h, if_neg hk]
  · intro h hr oem2
    have hs : ∀ o : Nat, GetEventSensorType st et o filter
        = sensorSpecificEventTypes.find? (fun e => e.Code == st && filter e) := by
      intro o
      have hk : ¬ (0xC0 ≤ st.val ∧ st.val ≤ 0xF0 ∧ o = 15000) :=
        fun hc => hr ⟨hc.1, hc.2.1⟩
      rw [GetEventSensorType_eq_find]
      unfold eventTable eventKey
      simp only [if_pos h, if_neg hk]
    exact (hs oem2).trans (hs oem).symm
  · intro h
    have hl := congrArg List.head? h
    exact absurd hl (by decide)

set_option maxRecDepth 100000 in
/-- C22 at sensor type 0xC1 and event type 0x6F with a filter that accepts everything:
with `oemId = 15000` the first OEM-Kontron entry of code 0xC1 is found, with
`oemId = 0` the sensor-specific table is searched, which has no entry of that code. -/
theorem GetEventSensorType_table_selection_witness :
    GetEventSensorType 0xC1 0x6f 15000 (fun _ => true)
      = oemKontronEventTypes.find? (fun e => e.Code == 0xC1 && true) ∧
    GetEventSensorType 0xC1 0x6f 0 (fun _ => true)
      = sensorSpecificEventTypes.find? (fun e => e.Code == 0xC1 && true) ∧
    GetEventSensorType 0xC1 0x6f 15000 (fun _ => true)
      = some (EventSensorType.mk 0xC1 0x00 0xff "Push Button") ∧
    GetEventSensorType 0xC1 0x6f 0 (fun _ => true) = none :=
  ⟨(GetEventSensorType_table_selection 0xC1 0x6f 15000 (fun _ => true)).2.1 rfl
      (by decide),
    (GetEventSensorType_table_selection 0xC1 0x6f 0 (fun _ => true)).2.2.1 rfl
      (by decide),
    rfl, rfl⟩

/-- C27: for every response frame with at least one byte (on an open handle, the driver
call having succeeded), `SendMessage` treats byte 0 as the completion code: if it is
non-zero the call returns an error carrying exactly that code, whatever the
message-specific decoder is; if it is zero the result is exactly that of the decoder
applied to the remaining bytes. -/
theorem SendMessage_completion_code {σ ρ : Type} (ipmi_send : IpmiSend σ)
    (l : LocalIPMI σ) (req : Message) (decode : List Byte → Except Error ρ)
    (code : Byte) (rest : List Byte) (c2 : σ)
    (hopen : l.close ≠ 1)
    (hs : ipmi_send l.ctx (requestOf req) = (0, code :: rest, c2)) :
    (code ≠ 0 →
      ∀ decode2 : List Byte → Except Error ρ,
        l.SendMessage ipmi_send req decode2
          = (Except.error (Error.CompletionCode code), { l with ctx := c2 })) ∧
    (code = 0 →
      l.SendMessage ipmi_send req decode = (decode rest, { l with ctx := c2 })) := by
  have hc : (l.close == 1) = false := by simpa using hopen
  constructor
  · intro hne decode2
    unfold LocalIPMI.SendMessage LocalIPMI.IsClose
    simp [hc, hs, hne]
  · intro hz
    unfold LocalIPMI.SendMessage LocalIPMI.IsClose
    simp [hc, hs, hz]

/-- C27 on the frames `[0xC1, 9, 9]` and `[0x00, 0x34, 0x12]` with the decoder of the
reservation response: the first gives the error with code 0xC1, the second the
reservation id 0x1234. -/
theorem SendMessage_completion_code_witness :
    (LocalIPMI.SendMessage (constSend [0xC1, 9, 9]) { ctx := () }
        Message.ReserveSdrRepositoryReq ReserveSdrRepositoryRsp.UnmarshalBinary).1
      = Except.error (Error.CompletionCode 0xC1) ∧
    (LocalIPMI.SendMessage (constSend [0x00, 0x34, 0x12]) { ctx := () }
        Message.ReserveSdrRepositoryReq ReserveSdrRepositoryRsp.UnmarshalBinary).1
      = Except.ok { ReservationId := 0x1234 } :=
  ⟨congrArg Prod.fst ((SendMessage_completion_code (constSend [0xC1, 9, 9]) { ctx := () }
      Message.ReserveSdrRepositoryReq ReserveSdrRepositoryRsp.UnmarshalBinary 0xC1 [9, 9] ()
      (by decide) rfl).1 (by decide) ReserveSdrRepositoryRsp.UnmarshalBinary),
    congrArg Prod.fst ((SendMessage_completion_code (constSend [0x00, 0x34, 0x12])
      { ctx := () } Message.ReserveSdrRepositoryReq ReserveSdrRepositoryRsp.UnmarshalBinary
      0x00 [0x34, 0x12] () (by decide) rfl).2 rfl)⟩

/-- The low and the high byte of a 16-bit value, as written by `byte(x)` and
`byte(x >> 8)`. -/
theorem uint16_bytes (x : Nat) (hx : x < 2 ^ 16) :
    ((Fin.ofNat x : Byte).val = x % 256) ∧ ((Fin.ofNat (x >>> 8) : Byte).val = x / 256) := by
  constructor
  · rfl
  · show (x >>> 8) % 256 = x / 256
    rw [Nat.shiftRight_eq_div_pow]
    omega

/-- C28: for every `GetSdrReq`, `MarshalBinary` returns exactly the 6 bytes
`[reservationId low, reservationId high, recordId low, recordId high, offset,
bytesToRead]` (its error result is the constant nil); hence two requests with equal
encodings have equal fields. -/
theorem GetSdrReq_MarshalBinary (r i : Nat) (o b : Byte) (hr : r < 2 ^ 16)
    (hi : i < 2 ^ 16) :
    (Message.GetSdrReq r i o b).MarshalBinary.map (fun x => x.val)
      = [r % 256, r / 256, i % 256, i / 256, o.val, b.val] ∧
    (Message.GetSdrReq r i o b).MarshalBinary.length = 6 ∧
    ∀ (r2 i2 : Nat) (o2 b2 : Byte), r2 < 2 ^ 16 → i2 < 2 ^ 16 →
      (Message.GetSdrReq r2 i2 o2 b2).MarshalBinary
        = (Message.GetSdrReq r i o b).MarshalBinary →
      r2 = r ∧ i2 = i ∧ o2 = o ∧ b2 = b := by
  have hval : ∀ (r i : Nat) (o b : Byte), r < 2 ^ 16 → i < 2 ^ 16 →
      (Message.GetSdrReq r i o b).MarshalBinary.map (fun x => x.val)
        = [r % 256, r / 256, i % 256, i / 256, o.val, b.val] := by
    intro r i o b hr hi
    show [(Fin.ofNat r : Byte).val, (Fin.ofNat (r >>> 8) : Byte).val,
      (Fin.ofNat i : Byte).val, (Fin.ofNat (i >>> 8) : Byte).val, o.val, b.val] = _
    rw [(uint16_bytes r hr).1, (uint16_bytes r hr).2, (uint16_bytes i hi).1,
      (uint16_bytes i hi).2]
  refine ⟨hval r i o b hr hi, rfl, ?_⟩
  intro r2 i2 o2 b2 hr2 hi2 heq
  have h := congrArg (List.map (fun x : Byte => x.val)) heq
  rw [hval r i o b hr hi, hval r2 i2 o2 b2 hr2 hi2] at h
  simp only [List.cons.injEq, and_true] at h
  obtain ⟨h0, h1, h2, h3, h4, h5⟩ := h
  exact ⟨by omega, by omega, Fin.ext h4, Fin.ext h5⟩

/-- C28 at reservation id 0x1234, record id 0x0102, offset 5 and 16 bytes to read. -/
theorem GetSdrReq_MarshalBinary_witness :
    (Message.GetSdrReq 0x1234 0x0102 5 16).MarshalBinary = [0x34, 0x12, 0x02, 0x01, 5, 16] ∧
    (Message.GetSdrReq 0x1234 0x0102 5 16).MarshalBinary.map (fun x => x.val)
      = [0x1234 % 256, 0x1234 / 256, 0x0102 % 256, 0x0102 / 256, 5, 16] :=
  ⟨rfl, (GetSdrReq_MarshalBinary 0x1234 0x0102 5 16 (by decide) (by decide)).1⟩

/-- C29: for every `GetSelEntryReq`, `MarshalBinary` returns exactly 6 bytes whose
first two (the reservation id) are always 0x00 0x00, followed by the record id
little-endian, the offset and bytesToRead; and for every `GetSensorReadingReq`,
whatever its `OwnerLun`, the payload is the single byte `SensorNumber`. -/
theorem GetSelEntryReq_MarshalBinary (id : Nat) (o b n lun : Byte) (hid : id < 2 ^ 16) :
    (Message.GetSelEntryReq id o b).MarshalBinary.map (fun x => x.val)
      = [0x00, 0x00, id % 256, id / 256, o.val, b.val] ∧
    (Message.GetSelEntryReq id o b).MarshalBinary.length = 6 ∧
    (Message.GetSelEntryReq id o b).MarshalBinary.take 2 = [0x00, 0x00] ∧
    (Message.GetSelEntryReq id o b).MarshalBinary.drop 4 = [o, b] ∧
    (Message.GetSensorReadingReq n lun).MarshalBinary = [n] := by
  refine ⟨?_, rfl, rfl, rfl, rfl⟩
  show [(0 : Byte).val, (0 : Byte).val, (Fin.ofNat id : Byte).val,
    (Fin.ofNat (id >>> 8) : Byte).val, o.val, b.val] = _
  rw [(uint16_bytes id hid).1, (uint16_bytes id hid).2]
  rfl

/-- C29 at record id 0x0102 with offset 0 and 0xFF bytes to read, and at sensor
number 7 with owner LUN 3. -/
theorem GetSelEntryReq_MarshalBinary_witness :
    (Message.GetSelEntryReq 0x0102 0 0xff).MarshalBinary = [0, 0, 0x02, 0x01, 0, 0xff] ∧
    (Message.GetSelEntryReq 0x0102 0 0xff).MarshalBinary.take 2 = [0x00, 0x00] ∧
    (Message.GetSensorReadingReq 7 3).MarshalBinary = [7] :=
  have hw := GetSelEntryReq_MarshalBinary 0x0102 0 0xff 7 3 (by decide)
  ⟨rfl, hw.2.2.1, hw.2.2.2.2⟩

/-- `PopUint24` on a buffer of at least three bytes. -/
theorem PopUint24_cons (x y z : Byte) (xs : List Byte) :
    ByteBuffer.PopUint24 { b := x :: y :: z :: xs }
      = (Except.ok (x.val ||| (y.val <<< 8) ||| (z.val <<< 16)), { b := xs }) := by
  have h : ¬ (((x :: y :: z :: xs).length : Int) < 3) := by
    simp only [List.length_cons]; omega
  simp only [ByteBuffer.PopUint24, ByteBuffer.checkLen, if_neg h]

/-- `PopUint32` on a buffer of at least four bytes. -/
theorem PopUint32_cons (x y z w : Byte) (xs : List Byte) :
    ByteBuffer.PopUint32 { b := x :: y :: z :: w :: xs }
      = (Except.ok (x.val ||| (y.val <<< 8) ||| (z.val <<< 16) ||| (w.val <<< 24)),
          { b := xs }) := by
  have h : ¬ (((x :: y :: z :: w :: xs).length : Int) < 4) := by
    simp only [List.length_cons]; omega
  simp only [ByteBuffer.PopUint32, ByteBuffer.checkLen, if_neg h]

/-- C30: for every byte buffer holding at least n bytes (n = 1, 2, 3, 4 for `PopUint8`,
`PopUint16`, `PopUint24`, `PopUint32`), the pop succeeds, returns the little-endian
unsigned value of the first n bytes (`b0 + 2^8*b1 + 2^16*b2 + 2^24*b3`), and leaves the
buffer equal to the input with its first n bytes removed, so `Len` decreases by exactly
n. -/
theorem Pop_little_endian (b : ByteBuffer) :
    (1 ≤ b.Len →
      b.PopUint8 = (Except.ok (b.b.getD 0 0), { b := b.b.drop 1 }) ∧
      ByteBuffer.Len { b := b.b.drop 1 } + 1 = b.Len) ∧
    (2 ≤ b.Len →
      b.PopUint16 = (Except.ok ((b.b.getD 0 0).val + 2 ^ 8 * (b.b.getD 1 0).val),
        { b := b.b.drop 2 }) ∧
      ByteBuffer.Len { b := b.b.drop 2 } + 2 = b.Len) ∧
    (3 ≤ b.Len →
      b.PopUint24 = (Except.ok ((b.b.getD 0 0).val + 2 ^ 8 * (b.b.getD 1 0).val
          + 2 ^ 16 * (b.b.getD 2 0).val), { b := b.b.drop 3 }) ∧
      ByteBuffer.Len { b := b.b.drop 3 } + 3 = b.Len) ∧
    (4 ≤ b.Len →
      b.PopUint32 = (Except.ok ((b.b.getD 0 0).val + 2 ^ 8 * (b.b.getD 1 0).val
          + 2 ^ 16 * (b.b.getD 2 0).val + 2 ^ 24 * (b.b.getD 3 0).val),
          { b := b.b.drop 4 }) ∧
      ByteBuffer.Len { b := b.b.drop 4 } + 4 = b.Len) := by
  obtain ⟨bs⟩ := b
  refine ⟨?_, ?_, ?_, ?_⟩
  · intro h
    rcases bs with _ | ⟨x, bs⟩
    · simp [ByteBuffer.Len] at h
    exact ⟨PopUint8_cons x bs, rfl⟩
  · intro h
    rcases bs with _ | ⟨x, _ | ⟨y, bs⟩⟩
    · simp [ByteBuffer.Len] at h
    · simp [ByteBuffer.Len] at h
    refine ⟨?_, rfl⟩
    rw [PopUint16_cons]
    have hx := x.isLt
    show (Except.ok (x.val ||| (y.val <<< 8)), _) = (Except.ok (x.val + 2 ^ 8 * y.val), _)
    rw [or_shiftLeft_eq_add _ _ 8 (by omega), Nat.mul_comm]
    rfl
  · intro h
    rcases bs with _ | ⟨x, _ | ⟨y, _ | ⟨z, bs⟩⟩⟩
    · simp [ByteBuffer.Len] at h
    · simp [ByteBuffer.Len] at h
    · simp [ByteBuffer.Len] at h
    refine ⟨?_, rfl⟩
    rw [PopUint24_cons]
    have hx := x.isLt
    have hy := y.isLt
    show (Except.ok (x.val ||| (y.val <<< 8) ||| (z.val <<< 16)), _)
      = (Except.ok (x.val + 2 ^ 8 * y.val + 2 ^ 16 * z.val), _)
    rw [or_shiftLeft_eq_add _ _ 8 (by omega), or_shiftLeft_eq_add _ _ 16 (by omega),
      Nat.mul_comm y.val, Nat.mul_comm z.val]
    rfl
  · intro h
    rcases bs with _ | ⟨x, _ | ⟨y, _ | ⟨z, _ | ⟨w, bs⟩⟩⟩⟩
    · simp [ByteBuffer.Len] at h
    · simp [ByteBuffer.Len] at h
    · simp [ByteBuffer.Len] at h
    · simp [ByteBuffer.Len] at h
    refine ⟨?_, rfl⟩
    rw [PopUint32_cons]
    have hx := x.isLt
    have hy := y.isLt
    have hz := z.isLt
    show (Except.ok (x.val ||| (y.val <<< 8) ||| (z.val <<< 16) ||| (w.val <<< 24)), _)
      = (Except.ok (x.val + 2 ^ 8 * y.val + 2 ^ 16 * z.val + 2 ^ 24 * w.val), _)
    rw [or_shiftLeft_eq_add _ _ 8 (by omega), or_shiftLeft_eq_add _ _ 16 (by omega),
      or_shiftLeft_eq_add _ _ 24 (by omega),
      Nat.mul_comm y.val, Nat.mul_comm z.val, Nat.mul_comm w.val]
    rfl

/-- C30 on the bytes `[0x34, 0x12]`: `PopUint16` returns 0x1234 and leaves an empty
buffer. -/
theorem Pop_little_endian_witness :
    ByteBuffer.PopUint16 { b := [0x34, 0x12] } = (Except.ok 0x1234, { b := [] }) :=
  ((Pop_little_endian { b := [0x34, 0x12] }).2.1 (by decide)).1

/-- One iteration of the loop of `SelEntries` on an answer with completion code 0 and
at least two payload bytes. -/
theorem selLoop_step {σ : Type} (ipmi_send : IpmiSend σ)
    (fn : List (List Byte) → List Byte → Bool) (l : LocalIPMI σ) (currId fuel : Nat)
    (nilNextId : Int) (calls : List (List Byte)) (d : List Byte) (c1 : σ)
    (hopen : l.close ≠ 1) (hne : currId ≠ 0xffff)
    (hs : ipmi_send l.ctx (requestOf (Message.GetSelEntryReq currId 0 0xff))
      = (0, 0 :: d, c1))
    (hlen : 2 ≤ d.length) :
    LocalIPMI.selLoop ipmi_send fn (fuel + 1) l currId nilNextId calls
      = (if selNextId d = 0 then
          (if wrapInt64 (nilNextId - 1) ≤ 0 then
            { result := some (Except.ok ()), calls := calls, handle := { l with ctx := c1 } }
           else LocalIPMI.selLoop ipmi_send fn fuel { l with ctx := c1 } (selNextId d)
            (wrapInt64 (nilNextId - 1)) calls)
         else if fn calls (d.drop 2) = false then
          { result := some (Except.ok ()), calls := calls ++ [d.drop 2],
            handle := { l with ctx := c1 } }
         else LocalIPMI.selLoop ipmi_send fn fuel { l with ctx := c1 } (selNextId d)
          nilNextId (calls ++ [d.drop 2])) := by
  rw [LocalIPMI.selLoop, if_neg hne]
  simp only []
  rw [SendMessage_frame ipmi_send l _ GetReserveSelRsp.UnmarshalBinary d c1 hopen hs]
  simp only [GetReserveSelRsp.UnmarshalBinary]
  rw [if_neg (show ¬ d.length < 2 from by omega)]
  rfl

/-- After the SEL-Info and Reserve-SEL answers, `SelEntries` is its loop started at
record id 0 with `nilNextId = 2` and no invocation of the callback. -/
theorem SelEntries_loop {σ : Type} (ipmi_send : IpmiSend σ)
    (fn : List (List Byte) → List Byte → Bool) (l : LocalIPMI σ) (fuel : Nat) (c2 : σ)
    (hopen : l.close ≠ 1) (hstart : ServesSelStart ipmi_send l.ctx c2) :
    l.SelEntries ipmi_send fn fuel
      = LocalIPMI.selLoop ipmi_send fn fuel { l with ctx := c2 } 0 2 [] := by
  obtain ⟨info, rsv, c1, hinfo, hlen, hnz, hrsv⟩ := hstart
  unfold LocalIPMI.SelEntries
  rw [SendMessage_frame ipmi_send l _ GetReserveSelRsp.UnmarshalBinary info c1 hopen hinfo]
  simp only [GetReserveSelRsp.UnmarshalBinary]
  rcases info with _ | ⟨i0, _ | ⟨i1, info⟩⟩
  · simp at hlen
  · simp at hlen
  have hopen1 : ({ l with ctx := c1 } : LocalIPMI σ).close ≠ 1 := hopen
  have hrsv1 : ipmi_send ({ l with ctx := c1 } : LocalIPMI σ).ctx
      (requestOf Message.ReserveSelReq) = (0, 0 :: rsv, c2) := hrsv
  have hsend := SendMessage_frame ipmi_send { l with ctx := c1 } _
    GetReserveSelRsp.UnmarshalBinary rsv c2 hopen1 hrsv1
  by_cases h0 : i0 = 0
  · have h1 : i1 ≠ 0 := fun h1 => hnz ⟨h0, h1⟩
    have hb : (i1 == 0) = false := by simpa using h1
    simp only [if_pos h0, hb]
    rw [hsend]
    rfl
  · simp only [if_neg h0]
    rw [hsend]
    rfl

/-- C23 as stated fails: on the answers with next record id 0, 0 and then 0xFFFF
carrying the entry of tag 3, the walk stops at the second zero answer: the callback is
never invoked, the third answer is not even requested (it is still in the script, and
the driver has seen the SEL-Info, the Reserve-SEL and two Get-SEL-Entry requests), and
`SelEntries` returns nil. -/
theorem SelEntries_second_zero_stops :
    (LocalIPMI.SelEntries scriptSend
        { ctx := ([selInfoFrame, selReserveFrame, selEntryFrame 0 1, selEntryFrame 0 2,
                   selEntryFrame 0xffff 3], []) } acceptAll 10).result
      = some (Except.ok ()) ∧
    (LocalIPMI.SelEntries scriptSend
        { ctx := ([selInfoFrame, selReserveFrame, selEntryFrame 0 1, selEntryFrame 0 2,
                   selEntryFrame 0xffff 3], []) } acceptAll 10).calls = [] ∧
    (LocalIPMI.SelEntries scriptSend
        { ctx := ([selInfoFrame, selReserveFrame, selEntryFrame 0 1, selEntryFrame 0 2,
                   selEntryFrame 0xffff 3], []) } acceptAll 10).handle.ctx.1
      = [selEntryFrame 0xffff 3] ∧
    (LocalIPMI.SelEntries scriptSend
        { ctx := ([selInfoFrame, selReserveFrame, selEntryFrame 0 1, selEntryFrame 0 2,
                   selEntryFrame 0xffff 3], []) } acceptAll 10).handle.ctx.2.map
        (fun r => r.cmd) = [0x40, 0x42, 0x43, 0x43] :=
  ⟨rfl, rfl, rfl, rfl⟩

/-- C23, amended: `SelEntries` tolerates one Get-SEL-Entry response whose nextId is 0:
after the first such response (`nilNextId` still 2) it skips the response and issues
another request, for record id 0, and the second such response (`nilNextId` 1) stops
the walk with nil; so for responses with nextId = 0 and then a non-zero nextId carrying
an entry, that entry is delivered to the callback, and for responses with nextId = 0
twice the walk stops without an invocation. -/
theorem selLoop_zero_tolerance {σ : Type} (ipmi_send : IpmiSend σ)
    (fn : List (List Byte) → List Byte → Bool) (l : LocalIPMI σ) (currId fuel : Nat)
    (calls : List (List Byte)) (d : List Byte) (c1 : σ)
    (hopen : l.close ≠ 1) (hne : currId ≠ 0xffff)
    (hs : ipmi_send l.ctx (requestOf (Message.GetSelEntryReq currId 0 0xff))
      = (0, 0 :: d, c1))
    (hlen : 2 ≤ d.length) (hzero : selNextId d = 0) :
    LocalIPMI.selLoop ipmi_send fn (fuel + 1) l currId 2 calls
      = LocalIPMI.selLoop ipmi_send fn fuel { l with ctx := c1 } 0 1 calls ∧
    LocalIPMI.selLoop ipmi_send fn (fuel + 1) l currId 1 calls
      = { result := some (Except.ok ()), calls := calls, handle := { l with ctx := c1 } } ∧
    (∀ (d1 : List Byte) (c2 : σ),
      ipmi_send c1 (requestOf (Message.GetSelEntryReq 0 0 0xff)) = (0, 0 :: d1, c2) →
      2 ≤ d1.length → selNextId d1 ≠ 0 →
      LocalIPMI.selLoop ipmi_send fn (fuel + 2) l currId 2 calls
        = (if fn calls (d1.drop 2) = false then
            { result := some (Except.ok ()), calls := calls ++ [d1.drop 2],
              handle := { l with ctx := c2 } }
           else LocalIPMI.selLoop ipmi_send fn fuel { l with ctx := c2 } (selNextId d1) 1
            (calls ++ [d1.drop 2]))) ∧
    (∀ (d1 : List Byte) (c2 : σ),
      ipmi_send c1 (requestOf (Message.GetSelEntryReq 0 0 0xff)) = (0, 0 :: d1, c2) →
      2 ≤ d1.length → selNextId d1 = 0 →
      LocalIPMI.selLoop ipmi_send fn (fuel + 2) l currId 2 calls
        = { result := some (Except.ok ()), calls := calls,
            handle := { l with ctx := c2 } }) := by
  have hw2 : wrapInt64 (2 - 1) = 1 := by decide
  have hw1 : wrapInt64 (1 - 1) = 0 := by decide
  have hfirst : ∀ f : Nat, LocalIPMI.selLoop ipmi_send fn (f + 1) l currId 2 calls
      = LocalIPMI.selLoop ipmi_send fn f { l with ctx := c1 } 0 1 calls := by
    intro f
    rw [selLoop_step ipmi_send fn l currId f 2 calls d c1 hopen hne hs hlen, if_pos hzero,
      hw2, if_neg (by decide), hzero]
  have hopen1 : ({ l with ctx := c1 } : LocalIPMI σ).close ≠ 1 := hopen
  refine ⟨hfirst fuel, ?_, ?_, ?_⟩
  · rw [selLoop_step ipmi_send fn l currId fuel 1 calls d c1 hopen hne hs hlen,
      if_pos hzero, hw1, if_pos (le_refl 0)]
  · intro d1 c2 hs1 hlen1 hnz
    rw [hfirst (fuel + 1),
      selLoop_step ipmi_send fn { l with ctx := c1 } 0 fuel 1 calls d1 c2 hopen1
        (by decide) hs1 hlen1, if_neg hnz]
  · intro d1 c2 hs1 hlen1 hz
    rw [hfirst (fuel + 1),
      selLoop_step ipmi_send fn { l with ctx := c1 } 0 fuel 1 calls d1 c2 hopen1
        (by decide) hs1 hlen1, if_pos hz, hw1, if_pos (le_refl 0)]

/-- C23, amended, on the answers with next record id 0 and then 0xFFFF carrying the
entry of tag 3: the entry is delivered to the callback. -/
theorem selLoop_zero_tolerance_witness :
    LocalIPMI.selLoop scriptSend acceptAll (1 + 2)
        { ctx := ([selEntryFrame 0 1, selEntryFrame 0xffff 3], []) } 0 2 []
      = (if acceptAll [] ((selEntryFrame 0xffff 3).drop 3) = false then
          { result := some (Except.ok ()), calls := [] ++ [(selEntryFrame 0xffff 3).drop 3],
            handle := { ctx := ([], [requestOf (Message.GetSelEntryReq 0 0 0xff),
              requestOf (Message.GetSelEntryReq 0 0 0xff)]) } }
         else LocalIPMI.selLoop scriptSend acceptAll 1
          { ctx := ([], [requestOf (Message.GetSelEntryReq 0 0 0xff),
              requestOf (Message.GetSelEntryReq 0 0 0xff)]) } 0xffff 1
          ([] ++ [(selEntryFrame 0xffff 3).drop 3])) ∧
    (LocalIPMI.selLoop scriptSend acceptAll (1 + 2)
        { ctx := ([selEntryFrame 0 1, selEntryFrame 0xffff 3], []) } 0 2 []).calls
      = [(selEntryFrame 0xffff 3).drop 3] :=
  ⟨(selLoop_zero_tolerance scriptSend acceptAll
      { ctx := ([selEntryFrame 0 1, selEntryFrame 0xffff 3], []) } 0 1 []
      ((selEntryFrame 0 1).drop 1)
      ([selEntryFrame 0xffff 3], [requestOf (Message.GetSelEntryReq 0 0 0xff)])
      (by decide) (by decide) rfl (by decide) rfl).2.2.1
      ((selEntryFrame 0xffff 3).drop 1)
      ([], [requestOf (Message.GetSelEntryReq 0 0 0xff),
            requestOf (Message.GetSelEntryReq 0 0 0xff)])
      rfl (by decide) (by decide),
    rfl⟩

/-- A walk whose remaining answers hold at least as many zero next record ids as
`nilNextId` counts (1 or 2) ends with nil within these answers, and the callback has
been invoked on exactly the answers with a non-zero next record id among those read. -/
theorem selLoop_zero_bound {σ : Type} (ipmi_send : IpmiSend σ)
    (fn : List (List Byte) → List Byte → Bool) (l : LocalIPMI σ) (hopen : l.close ≠ 1)
    (cEnd : σ) :
    ∀ (ds : List (List Byte)) (c : σ) (currId n : Nat) (calls : List (List Byte))
      (fuel : Nat),
      (n = 1 ∨ n = 2) →
      ServesSelChain ipmi_send c currId ds cEnd →
      n ≤ (ds.filter (fun d => decide (selNextId d = 0))).length →
      ds.length + 1 ≤ fuel →
      ∃ k, k ≤ ds.length ∧
        (LocalIPMI.selLoop ipmi_send fn fuel { l with ctx := c } currId (n : Int)
            calls).result = some (Except.ok ()) ∧
        (LocalIPMI.selLoop ipmi_send fn fuel { l with ctx := c } currId (n : Int)
            calls).calls
          = calls ++ ((ds.take k).filter (fun d => decide (selNextId d ≠ 0))).map
              (List.drop 2) := by
  intro ds
  induction ds with
  | nil =>
    intro c currId n calls fuel hn _ hz _
    simp only [List.filter_nil, List.length_nil] at hz
    omega
  | cons d ds ih =>
    intro c currId n calls fuel hn hchain hz hfuel
    obtain ⟨f, rfl⟩ : ∃ f, fuel = f + 1 := ⟨fuel - 1, by omega⟩
    have hf : ds.length + 1 ≤ f := by
      simp only [List.length_cons] at hfuel
      omega
    by_cases hid : currId = 0xffff
    · refine ⟨0, Nat.zero_le _, ?_, ?_⟩
      · rw [LocalIPMI.selLoop, if_pos hid]
      · rw [LocalIPMI.selLoop, if_pos hid]
        simp
    · obtain ⟨c1, hs, hlen, hrest⟩ := hchain
      have hopen0 : ({ l with ctx := c } : LocalIPMI σ).close ≠ 1 := hopen
      have hstep := selLoop_step ipmi_send fn { l with ctx := c } currId f (n : Int) calls
        d c1 hopen0 hid hs hlen
      by_cases hzero : selNextId d = 0
      · have hdz : decide (selNextId d = 0) = true := by simpa using hzero
        have hdnz : decide (selNextId d ≠ 0) = false := by simpa using hzero
        have hz2 : n ≤ (ds.filter (fun d => decide (selNextId d = 0))).length + 1 := by
          simpa [List.filter_cons, hzero] using hz
        rcases hn with h1 | h2
        · subst h1
          have hw : wrapInt64 (((1 : Nat) : Int) - 1) = 0 := by decide
          refine ⟨1, by simp, ?_, ?_⟩
          · rw [hstep, if_pos hzero, hw, if_pos (le_refl 0)]
          · rw [hstep, if_pos hzero, hw, if_pos (le_refl 0)]
            simp [hzero]
        · subst h2
          have hw : wrapInt64 (((2 : Nat) : Int) - 1) = ((1 : Nat) : Int) := by decide
          obtain ⟨k, hk, hres, hcalls⟩ := ih c1 (selNextId d) 1 calls f (Or.inl rfl) hrest
            (by omega) hf
          refine ⟨k + 1, by simp only [List.length_cons]; omega, ?_, ?_⟩
          · rw [hstep, if_pos hzero, hw, if_neg (by decide)]
            exact hres
          · rw [hstep, if_pos hzero, hw, if_neg (by decide), hcalls]
            simp [List.take_succ_cons, List.filter_cons, hzero]
      · have hdz : ¬ (decide (selNextId d = 0) = true) := by simpa using hzero
        have hdnz : decide (selNextId d ≠ 0) = true := by simpa using hzero
        have hz2 : n ≤ (ds.filter (fun d => decide (selNextId d = 0))).length := by
          simpa [List.filter_cons, hzero] using hz
        by_cases hfn : fn calls (d.drop 2) = false
        · refine ⟨1, by simp, ?_, ?_⟩
          · rw [hstep, if_neg hzero, if_pos hfn]
          · rw [hstep, if_neg hzero, if_pos hfn]
            simp [hzero]
        · obtain ⟨k, hk, hres, hcalls⟩ := ih c1 (selNextId d) n (calls ++ [d.drop 2]) f hn
            hrest hz2 hf
          refine ⟨k + 1, by simp only [List.length_cons]; omega, ?_, ?_⟩
          · rw [hstep, if_neg hzero, if_neg hfn]
            exact hres
          · rw [hstep, if_neg hzero, if_neg hfn, hcalls]
            simp [List.take_succ_cons, List.filter_cons, hzero]

/-- C24: in every `SelEntries` walk, the callback is never invoked on a Get-SEL-Entry
response whose nextId field is 0 (the invocations are exactly the responses read that
carry a non-zero nextId, in order), and the walk terminates, returning nil, on any
response sequence that contains three zero-nextId responses. -/
theorem SelEntries_zero_nextId {σ : Type} (ipmi_send : IpmiSend σ)
    (fn : List (List Byte) → List Byte → Bool) (l : LocalIPMI σ) (fuel : Nat)
    (c2 cEnd : σ) (ds : List (List Byte))
    (hopen : l.close ≠ 1) (hstart : ServesSelStart ipmi_send l.ctx c2)
    (hchain : ServesSelChain ipmi_send c2 0 ds cEnd)
    (hzeros : 3 ≤ (ds.filter (fun d => decide (selNextId d = 0))).length)
    (hfuel : ds.length + 1 ≤ fuel) :
    ∃ k, k ≤ ds.length ∧
      (l.SelEntries ipmi_send fn fuel).result = some (Except.ok ()) ∧
      (l.SelEntries ipmi_send fn fuel).calls
        = ((ds.take k).filter (fun d => decide (selNextId d ≠ 0))).map (List.drop 2) := by
  rw [SelEntries_loop ipmi_send fn l fuel c2 hopen hstart]
  obtain ⟨k, hk, hres, hcalls⟩ := selLoop_zero_bound ipmi_send fn l hopen cEnd ds c2 0 2 []
    fuel (Or.inr rfl) hchain (by omega) hfuel
  exact ⟨k, hk, hres, by simpa using hcalls⟩

/-- C24 on the answers with next record id 0, 5, 0, 0: the walk ends with nil at the
second zero answer and the callback has been invoked on the answer with next record
id 5 only. -/
theorem SelEntries_zero_nextId_witness :
    (∃ k, k ≤ 4 ∧
      (LocalIPMI.SelEntries scriptSend
          { ctx := ([selInfoFrame, selReserveFrame, selEntryFrame 0 1, selEntryFrame 5 2,
                     selEntryFrame 0 3, selEntryFrame 0 4], []) } acceptAll 5).result
        = some (Except.ok ()) ∧
      (LocalIPMI.SelEntries scriptSend
          { ctx := ([selInfoFrame, selReserveFrame, selEntryFrame 0 1, selEntryFrame 5 2,
                     selEntryFrame 0 3, selEntryFrame 0 4], []) } acceptAll 5).calls
        = (([(selEntryFrame 0 1).drop 1, (selEntryFrame 5 2).drop 1,
              (selEntryFrame 0 3).drop 1, (selEntryFrame 0 4).drop 1].take k).filter
            (fun d => decide (selNextId d ≠ 0))).map (List.drop 2)) ∧
    (LocalIPMI.SelEntries scriptSend
        { ctx := ([selInfoFrame, selReserveFrame, selEntryFrame 0 1, selEntryFrame 5 2,
                   selEntryFrame 0 3, selEntryFrame 0 4], []) } acceptAll 5).calls
      = [(selEntryFrame 5 2).drop 3] :=
  ⟨SelEntries_zero_nextId scriptSend acceptAll
      { ctx := ([selInfoFrame, selReserveFrame, selEntryFrame 0 1, selEntryFrame 5 2,
                 selEntryFrame 0 3, selEntryFrame 0 4], []) } 5
      ([selEntryFrame 0 1, selEntryFrame 5 2, selEntryFrame 0 3, selEntryFrame 0 4],
        [requestOf Message.GetSelInfoReq, requestOf Message.ReserveSelReq])
      ([], [requestOf Message.GetSelInfoReq, requestOf Message.ReserveSelReq,
            requestOf (Message.GetSelEntryReq 0 0 0xff),
            requestOf (Message.GetSelEntryReq 0 0 0xff),
            requestOf (Message.GetSelEntryReq 5 0 0xff),
            requestOf (Message.GetSelEntryReq 0 0 0xff)])
      [(selEntryFrame 0 1).drop 1, (selEntryFrame 5 2).drop 1,
        (selEntryFrame 0 3).drop 1, (selEntryFrame 0 4).drop 1]
      (by decide)
      ⟨selInfoFrame.drop 1, selReserveFrame.drop 1, _, rfl, by decide, by decide, rfl⟩
      ⟨_, rfl, by decide, _, rfl, by decide, _, rfl, by decide, _, rfl, by decide, rfl⟩
      (by decide) (by decide),
    rfl⟩

/-- A walk whose remaining answers all carry a non-zero next record id, one of them
0xFFFF, delivers the first `selStopIndex` of them in order and ends with nil, the
handle being in the state after that many requests. -/
theorem selLoop_delivers {σ : Type} (ipmi_send : IpmiSend σ)
    (fn : List (List Byte) → List Byte → Bool) (l : LocalIPMI σ) (hopen : l.close ≠ 1)
    (cEnd : σ) (nilNextId : Int) :
    ∀ (ds : List (List Byte)) (c : σ) (currId : Nat) (calls : List (List Byte))
      (fuel : Nat),
      currId ≠ 0xffff →
      ServesSelChain ipmi_send c currId ds cEnd →
      (∀ d ∈ ds, selNextId d ≠ 0) →
      (∃ d ∈ ds, selNextId d = 0xffff) →
      ds.length + 1 ≤ fuel →
      ∃ cN : σ,
        ServesSelChain ipmi_send c currId (ds.take (selStopIndex fn calls ds)) cN ∧
        LocalIPMI.selLoop ipmi_send fn fuel { l with ctx := c } currId nilNextId calls
          = { result := some (Except.ok ()),
              calls := calls ++ (ds.take (selStopIndex fn calls ds)).map (List.drop 2),
              handle := { l with ctx := cN } } := by
  intro ds
  induction ds with
  | nil =>
    intro c currId calls fuel _ _ _ hex _
    obtain ⟨d, hd, _⟩ := hex
    exact absurd hd (List.not_mem_nil d)
  | cons d ds ih =>
    intro c currId calls fuel hid hchain hnz hex hfuel
    obtain ⟨f, rfl⟩ : ∃ f, fuel = f + 1 := ⟨fuel - 1, by omega⟩
    have hf : ds.length + 1 ≤ f := by
      simp only [List.length_cons] at hfuel
      omega
    obtain ⟨c1, hs, hlen, hrest⟩ := hchain
    have hopen0 : ({ l with ctx := c } : LocalIPMI σ).close ≠ 1 := hopen
    have hstep := selLoop_step ipmi_send fn { l with ctx := c } currId f nilNextId calls
      d c1 hopen0 hid hs hlen
    have hzero : selNextId d ≠ 0 := hnz d (List.mem_cons_self d ds)
    by_cases hfn : fn calls (d.drop 2) = false
    · have hidx : selStopIndex fn calls (d :: ds) = 1 := by
        rw [selStopIndex, if_pos (Or.inl hfn)]
      refine ⟨c1, ?_, ?_⟩
      · rw [hidx]
        exact ⟨c1, hs, hlen, rfl⟩
      · rw [hstep, if_neg hzero, if_pos hfn, hidx]
        rfl
    · by_cases hend : selNextId d = 0xffff
      · have hidx : selStopIndex fn calls (d :: ds) = 1 := by
          rw [selStopIndex, if_pos (Or.inr hend)]
        obtain ⟨f2, rfl⟩ : ∃ f2, f = f2 + 1 := ⟨f - 1, by omega⟩
        refine ⟨c1, ?_, ?_⟩
        · rw [hidx]
          exact ⟨c1, hs, hlen, rfl⟩
        · rw [hstep, if_neg hzero, if_neg hfn, hidx, LocalIPMI.selLoop, if_pos hend]
          rfl
      · have hidx : selStopIndex fn calls (d :: ds)
            = 1 + selStopIndex fn (calls ++ [d.drop 2]) ds := by
          rw [selStopIndex, if_neg (fun h => h.elim hfn hend)]
        have hex2 : ∃ x ∈ ds, selNextId x = 0xffff := by
          obtain ⟨x, hx, hxe⟩ := hex
          rcases List.mem_cons.mp hx with h | h
          · subst h
            exact absurd hxe hend
          · exact ⟨x, h, hxe⟩
        obtain ⟨cN, hchainN, hloop⟩ := ih c1 (selNextId d) (calls ++ [d.drop 2]) f hend
          hrest (fun x hx => hnz x (List.mem_cons_of_mem d hx)) hex2 hf
        refine ⟨cN, ?_, ?_⟩
        · rw [hidx, Nat.add_comm, List.take_succ_cons]
          exact ⟨c1, hs, hlen, hchainN⟩
        · rw [hstep, if_neg hzero, if_neg hfn]
          have hl : ({ ({ l with ctx := c } : LocalIPMI σ) with ctx := c1 } : LocalIPMI σ)
              = { l with ctx := c1 } := rfl
          rw [hl, hloop, hidx, Nat.add_comm, List.take_succ_cons]
          simp

/-- C25: for a transport that returns SEL entries e1..en with non-zero nextId fields,
the last one with nextId = 0xFFFF, `SelEntries` invokes the callback on the bytes
following the 2-byte nextId of each response, in order, starting from record id 0 and
following the reported nextId, up to and including the first entry for which the
callback returns false or the entry whose nextId is 0xFFFF, then stops issuing
requests (the handle is in the state after that many requests) and returns nil. -/
theorem SelEntries_delivers {σ : Type} (ipmi_send : IpmiSend σ)
    (fn : List (List Byte) → List Byte → Bool) (l : LocalIPMI σ) (fuel : Nat)
    (c2 cEnd : σ) (ds : List (List Byte))
    (hopen : l.close ≠ 1) (hstart : ServesSelStart ipmi_send l.ctx c2)
    (hchain : ServesSelChain ipmi_send c2 0 ds cEnd)
    (hnz : ∀ d ∈ ds, selNextId d ≠ 0)
    (hlast : ∃ dl, ds.getLast? = some dl ∧ selNextId dl = 0xffff)
    (hfuel : ds.length + 1 ≤ fuel) :
    ∃ cN : σ,
      ServesSelChain ipmi_send c2 0 (ds.take (selStopIndex fn [] ds)) cN ∧
      l.SelEntries ipmi_send fn fuel
        = { result := some (Except.ok ()),
            calls := (ds.take (selStopIndex fn [] ds)).map (List.drop 2),
            handle := { l with ctx := cN } } := by
  rw [SelEntries_loop ipmi_send fn l fuel c2 hopen hstart]
  obtain ⟨dl, hdl, hend⟩ := hlast
  obtain ⟨cN, hchainN, hloop⟩ := selLoop_delivers ipmi_send fn l hopen cEnd 2 ds c2 0 []
    fuel (by decide) hchain hnz ⟨dl, List.mem_of_getLast?_eq_some hdl, hend⟩ hfuel
  exact ⟨cN, hchainN, by rw [hloop]; rfl⟩

/-- C25 on the entries with next record ids 5, 6 and 0xFFFF and a callback that
returns false at its second invocation: the callback gets the first two entries, the
third is not requested, and `SelEntries` returns nil. -/
theorem SelEntries_delivers_witness :
    (LocalIPMI.SelEntries scriptSend
        { ctx := ([selInfoFrame, selReserveFrame, selEntryFrame 5 1, selEntryFrame 6 2,
                   selEntryFrame 0xffff 3], []) } stopAtSecond 4).result
      = some (Except.ok ()) ∧
    (LocalIPMI.SelEntries scriptSend
        { ctx := ([selInfoFrame, selReserveFrame, selEntryFrame 5 1, selEntryFrame 6 2,
                   selEntryFrame 0xffff 3], []) } stopAtSecond 4).calls
      = [(selEntryFrame 5 1).drop 3, (selEntryFrame 6 2).drop 3] ∧
    (LocalIPMI.SelEntries scriptSend
        { ctx := ([selInfoFrame, selReserveFrame, selEntryFrame 5 1, selEntryFrame 6 2,
                   selEntryFrame 0xffff 3], []) } stopAtSecond 4).handle.ctx.1
      = [selEntryFrame 0xffff 3] :=
  match SelEntries_delivers scriptSend stopAtSecond
      { ctx := ([selInfoFrame, selReserveFrame, selEntryFrame 5 1, selEntryFrame 6 2,
                 selEntryFrame 0xffff 3], []) } 4
      ([selEntryFrame 5 1, selEntryFrame 6 2, selEntryFrame 0xffff 3],
        [requestOf Message.GetSelInfoReq, requestOf Message.ReserveSelReq])
      ([], [requestOf Message.GetSelInfoReq, requestOf Message.ReserveSelReq,
            requestOf (Message.GetSelEntryReq 0 0 0xff),
            requestOf (Message.GetSelEntryReq 5 0 0xff),
            requestOf (Message.GetSelEntryReq 6 0 0xff)])
      [(selEntryFrame 5 1).drop 1, (selEntryFrame 6 2).drop 1,
        (selEntryFrame 0xffff 3).drop 1]
      (by decide)
      ⟨selInfoFrame.drop 1, selReserveFrame.drop 1, _, rfl, by decide, by decide, rfl⟩
      ⟨_, rfl, by decide, _, rfl, by decide, _, rfl, by decide, rfl⟩
      (by decide) ⟨(selEntryFrame 0xffff 3).drop 1, rfl, by decide⟩ (by decide) with
  | ⟨_, _, hw⟩ => ⟨(congrArg SelWalk.result hw).trans rfl, (congrArg SelWalk.calls hw).trans rfl, rfl⟩

/-- `SendMessage` with the decoder of `GetReserveSelRsp` never returns the empty-log
error. -/
theorem SendMessage_ne_selHasNoEntries {σ : Type} (ipmi_send : IpmiSend σ)
    (l : LocalIPMI σ) (req : Message) :
    (l.SendMessage ipmi_send req GetReserveSelRsp.UnmarshalBinary).1
      ≠ Except.error Error.selHasNoEntries := by
  unfold LocalIPMI.SendMessage
  split
  · intro h
    cases h
  · dsimp only
    split
    · intro h
      cases h
    · split
      · intro h
        cases h
      · split
        · intro h
          cases h
        · intro h
          cases h

/-- The loop of `SelEntries` never returns the empty-log error. -/
theorem selLoop_ne_selHasNoEntries {σ : Type} (ipmi_send : IpmiSend σ)
    (fn : List (List Byte) → List Byte → Bool) :
    ∀ (fuel : Nat) (l : LocalIPMI σ) (nextId : Nat) (nilNextId : Int)
      (calls : List (List Byte)),
      (LocalIPMI.selLoop ipmi_send fn fuel l nextId nilNextId calls).result
        ≠ some (Except.error Error.selHasNoEntries) := by
  intro fuel
  induction fuel with
  | zero =>
    intro l nextId nilNextId calls h
    rw [LocalIPMI.selLoop] at h
    cases h
  | succ fuel ih =>
    intro l nextId nilNextId calls
    rw [LocalIPMI.selLoop]
    split
    · intro h
      cases h
    · dsimp only
      have hsm := SendMessage_ne_selHasNoEntries ipmi_send l
        (Message.GetSelEntryReq nextId 0 0xff)
      split
      · rename_i err l2 heq
        intro h
        apply hsm
        rw [heq]
        have h2 : (some (Except.error err) : Option (Except Error Unit))
            = some (Except.error Error.selHasNoEntries) := h
        have h3 : err = Error.selHasNoEntries := by
          injection h2 with h2
          injection h2
        rw [h3]
      · split
        · intro h
          cases h
        · split
          · split
            · intro h
              cases h
            · exact ih _ _ _ _
          · split
            · intro h
              cases h
            · exact ih _ _ _ _

/-- The empty-log test of `SelEntries` as coded: for a SEL-Info response with completion
code 0 and at least two payload bytes, `SelEntries` fails with "SEL has no entries",
before reserving the SEL or requesting any entry, exactly when the first two bytes of
the payload are both zero. -/
theorem SelEntries_guard_iff {σ : Type} (ipmi_send : IpmiSend σ)
    (fn : List (List Byte) → List Byte → Bool) (l : LocalIPMI σ) (fuel : Nat)
    (info : List Byte) (c1 : σ)
    (hopen : l.close ≠ 1)
    (hinfo : ipmi_send l.ctx (requestOf Message.GetSelInfoReq) = (0, 0 :: info, c1))
    (hlen : 2 ≤ info.length) :
    ((l.SelEntries ipmi_send fn fuel).result = some (Except.error Error.selHasNoEntries)
      ↔ (info.getD 0 0 = 0 ∧ info.getD 1 0 = 0)) ∧
    ((info.getD 0 0 = 0 ∧ info.getD 1 0 = 0) →
      l.SelEntries ipmi_send fn fuel
        = { result := some (Except.error Error.selHasNoEntries), calls := [],
            handle := { l with ctx := c1 } }) := by
  rcases info with _ | ⟨i0, _ | ⟨i1, info⟩⟩
  · simp at hlen
  · simp at hlen
  have hempty : (i0 = 0 ∧ i1 = 0) →
      l.SelEntries ipmi_send fn fuel
        = { result := some (Except.error Error.selHasNoEntries), calls := [],
            handle := { l with ctx := c1 } } := by
    rintro ⟨h0, h1⟩
    unfold LocalIPMI.SelEntries
    rw [SendMessage_frame ipmi_send l _ GetReserveSelRsp.UnmarshalBinary _ c1 hopen hinfo]
    simp only [GetReserveSelRsp.UnmarshalBinary]
    have hb : (i1 == 0) = true := by simpa using h1
    simp only [if_pos h0, hb]
  refine ⟨⟨?_, fun h => by rw [hempty h]⟩, hempty⟩
  intro hres
  by_contra hne
  have hne2 : ¬ (i0 = 0 ∧ i1 = 0) := hne
  apply absurd hres
  unfold LocalIPMI.SelEntries
  rw [SendMessage_frame ipmi_send l _ GetReserveSelRsp.UnmarshalBinary _ c1 hopen hinfo]
  simp only [GetReserveSelRsp.UnmarshalBinary]
  have hrsv := SendMessage_ne_selHasNoEntries ipmi_send { l with ctx := c1 }
    Message.ReserveSelReq
  have hfinish : (match LocalIPMI.SendMessage ipmi_send { l with ctx := c1 }
        Message.ReserveSelReq GetReserveSelRsp.UnmarshalBinary with
      | (Except.error err, l) =>
        ({ result := some (Except.error err), calls := [], handle := l } : SelWalk σ)
      | (Except.ok _, l) => LocalIPMI.selLoop ipmi_send fn fuel l 0 2 []).result
      ≠ some (Except.error Error.selHasNoEntries) := by
    split
    · rename_i err l2 heq
      intro h
      apply hrsv
      rw [heq]
      have h2 : (some (Except.error err) : Option (Except Error Unit))
          = some (Except.error Error.selHasNoEntries) := h
      have h3 : err = Error.selHasNoEntries := by
        injection h2 with h2
        injection h2
      rw [h3]
    · exact selLoop_ne_selHasNoEntries ipmi_send fn _ _ _ _ _
  by_cases h0 : i0 = 0
  · have h1 : i1 ≠ 0 := fun h1 => hne2 ⟨h0, h1⟩
    have hb : (i1 == 0) = false := by simpa using h1
    simp only [if_pos h0, hb]
    exact hfinish
  · simp only [if_neg h0]
    exact hfinish


/-- C26 on three SEL-Info responses. In the IPMI layout the payload is the SEL version,
the entry count (2 bytes), the free space (2 bytes) and the most recent addition
timestamp (4 bytes, payload bytes 5 to 8); the test
`resp.Date[0] == 0 && resp.Date[1] == 0` reads the version and the low byte of the entry
count. On version 0x00, 256 entries and the addition
timestamp 0x12345678 `SelEntries` fails with "SEL has no entries" after the SEL-Info
request alone. On an empty log (version 0x51, no entries, all-zero addition timestamp)
it does not: it reserves the SEL and requests entry 0, and returns the completion code
of that request. On version 0x51, one entry and an all-zero addition timestamp it
reserves the SEL, requests the entry and delivers it. -/
theorem SelEntries_empty_log_first_two_bytes :
    LocalIPMI.SelEntries scriptSend
        { ctx := ([[0x00, 0x00, 0x00, 0x01, 0xF0, 0xFF, 0x78, 0x56, 0x34, 0x12,
                     0x01, 0x01, 0x01, 0x01, 0x02],
                   selReserveFrame, selEntryFrame 0xffff 3], []) } acceptAll 4
      = { result := some (Except.error Error.selHasNoEntries), calls := [],
          handle := { ctx := ([selReserveFrame, selEntryFrame 0xffff 3],
            [requestOf Message.GetSelInfoReq]) } } ∧
    ((([0x00, 0x00, 0x01, 0xF0, 0xFF, 0x78, 0x56, 0x34, 0x12,
        0x01, 0x01, 0x01, 0x01, 0x02] : List Byte).drop 5).take 4
      = [0x78, 0x56, 0x34, 0x12]) ∧
    (LocalIPMI.SelEntries scriptSend
        { ctx := ([[0x00, 0x51, 0x00, 0x00, 0xF0, 0xFF, 0x00, 0x00, 0x00, 0x00,
                     0x01, 0x01, 0x01, 0x01, 0x02],
                   selReserveFrame], []) } acceptAll 4).result
      = some (Except.error (Error.CompletionCode 0xCB)) ∧
    (LocalIPMI.SelEntries scriptSend
        { ctx := ([[0x00, 0x51, 0x00, 0x00, 0xF0, 0xFF, 0x00, 0x00, 0x00, 0x00,
                     0x01, 0x01, 0x01, 0x01, 0x02],
                   selReserveFrame], []) } acceptAll 4).handle.ctx.2
      = [requestOf Message.GetSelInfoReq, requestOf Message.ReserveSelReq,
          requestOf (Message.GetSelEntryReq 0 0 0xff)] ∧
    ((([0x51, 0x00, 0x00, 0xF0, 0xFF, 0x00, 0x00, 0x00, 0x00,
        0x01, 0x01, 0x01, 0x01, 0x02] : List Byte).drop 1).take 2 = [0x00, 0x00]) ∧
    ((([0x51, 0x00, 0x00, 0xF0, 0xFF, 0x00, 0x00, 0x00, 0x00,
        0x01, 0x01, 0x01, 0x01, 0x02] : List Byte).drop 5).take 4
      = [0x00, 0x00, 0x00, 0x00]) ∧
    (LocalIPMI.SelEntries scriptSend
        { ctx := ([[0x00, 0x51, 0x01, 0x00, 0xF0, 0xFF, 0x00, 0x00, 0x00, 0x00,
                     0x01, 0x01, 0x01, 0x01, 0x02],
                   selReserveFrame, selEntryFrame 0xffff 3], []) } acceptAll 4).result
      = some (Except.ok ()) ∧
    (LocalIPMI.SelEntries scriptSend
        { ctx := ([[0x00, 0x51, 0x01, 0x00, 0xF0, 0xFF, 0x00, 0x00, 0x00, 0x00,
                     0x01, 0x01, 0x01, 0x01, 0x02],
                   selReserveFrame, selEntryFrame 0xffff 3], []) } acceptAll 4).calls
      = [(selEntryFrame 0xffff 3).drop 3] :=
  ⟨rfl, rfl, rfl, rfl, rfl, rfl, rfl, rfl⟩
/-- Closed form of `PopString` and `PopSlice` for a length that is not negative. -/
theorem PopString_PopSlice_closed (b : ByteBuffer) (n : Nat) :
    b.PopString (n : Int)
      = (if b.Len < n then (Except.error Error.DataTooShort, b)
         else (Except.ok (b.b.take n), { b := b.b.drop n })) ∧
    b.PopSlice (n : Int)
      = (if b.Len < n then (Except.error Error.DataTooShort, b)
         else (Except.ok { b := b.b.take n }, { b := b.b.drop n })) := by
  unfold ByteBuffer.PopString ByteBuffer.PopSlice ByteBuffer.checkLen ByteBuffer.Len
    NewByteBuffer
  by_cases h : b.b.length < n
  · have hi : ((b.b.length : Nat) : Int) < (n : Int) := by exact_mod_cast h
    simp only [if_pos hi, if_pos h, and_self]
  · have hi : ¬ ((b.b.length : Nat) : Int) < (n : Int) := by
      intro hlt
      exact h (by exact_mod_cast hlt)
    have hn : ¬ ((n : Int) < 0) := by omega
    simp only [if_neg hi, if_neg h, if_neg hn, Int.toNat_ofNat, and_self]

/-- Closed forms of the four integer pops. -/
theorem PopUint_closed (b : ByteBuffer) :
    b.PopUint8 = (if b.Len < 1 then (Except.error Error.DataTooShort, b)
      else (Except.ok (b.b.getD 0 0), { b := b.b.drop 1 })) ∧
    b.PopUint16 = (if b.Len < 2 then (Except.error Error.DataTooShort, b)
      else (Except.ok ((b.b.getD 0 0).val ||| ((b.b.getD 1 0).val <<< 8)),
        { b := b.b.drop 2 })) ∧
    b.PopUint24 = (if b.Len < 3 then (Except.error Error.DataTooShort, b)
      else (Except.ok ((b.b.getD 0 0).val ||| ((b.b.getD 1 0).val <<< 8)
        ||| ((b.b.getD 2 0).val <<< 16)), { b := b.b.drop 3 })) ∧
    b.PopUint32 = (if b.Len < 4 then (Except.error Error.DataTooShort, b)
      else (Except.ok ((b.b.getD 0 0).val ||| ((b.b.getD 1 0).val <<< 8)
        ||| ((b.b.getD 2 0).val <<< 16) ||| ((b.b.getD 3 0).val <<< 24)),
        { b := b.b.drop 4 })) := by
  obtain ⟨bs⟩ := b
  rcases bs with _ | ⟨x, _ | ⟨y, _ | ⟨z, _ | ⟨w, bs⟩⟩⟩⟩
  · exact ⟨rfl, rfl, rfl, rfl⟩
  · exact ⟨PopUint8_cons x [], rfl, rfl, rfl⟩
  · exact ⟨PopUint8_cons x _, PopUint16_cons x y [], rfl, rfl⟩
  · exact ⟨PopUint8_cons x _, PopUint16_cons x y _, PopUint24_cons x y z [], rfl⟩
  · exact ⟨PopUint8_cons x _, PopUint16_cons x y _, PopUint24_cons x y z _,
      PopUint32_cons x y z w bs⟩

/-- Every pop that fits succeeds on a buffer with the bytes of that buffer. -/
theorem PopsServe_self (b : ByteBuffer) : PopsServe b b.b := by
  have hu := PopUint_closed b
  refine ⟨?_, ?_, ?_, ?_, ?_⟩
  · intro h
    rw [hu.1, if_neg (show ¬ b.Len < 1 from by unfold ByteBuffer.Len; omega)]
  · intro h
    rw [hu.2.1, if_neg (show ¬ b.Len < 2 from by unfold ByteBuffer.Len; omega)]
  · intro h
    rw [hu.2.2.1, if_neg (show ¬ b.Len < 3 from by unfold ByteBuffer.Len; omega)]
  · intro h
    rw [hu.2.2.2, if_neg (show ¬ b.Len < 4 from by unfold ByteBuffer.Len; omega)]
  · intro m hm
    have hs := PopString_PopSlice_closed b m
    have hlt : ¬ b.Len < m := by unfold ByteBuffer.Len; omega
    rw [hs.1, hs.2, if_neg hlt, if_neg hlt]
    exact ⟨rfl, rfl⟩

/-- A pop in closed form: it fails with `DataTooShort` exactly under the length test,
succeeds exactly otherwise, and a failed pop leaves the buffer it was called on, which
still serves every pop that fits. -/
theorem pop_closed_spec {α : Type} (b : ByteBuffer) (c : Prop) [Decidable c] (v : α)
    (rest : ByteBuffer) (r : Except Error α × ByteBuffer)
    (hr : r = if c then (Except.error Error.DataTooShort, b) else (Except.ok v, rest)) :
    (r.1 = Except.error Error.DataTooShort ↔ c) ∧
    ((∃ x, r.1 = Except.ok x) ↔ ¬ c) ∧
    (∀ e, r.1 = Except.error e →
      e = Error.DataTooShort ∧ r.2 = b ∧ r.2.Len = b.Len ∧ PopsServe r.2 b.b) := by
  subst hr
  by_cases h : c
  · rw [if_pos h]
    refine ⟨⟨fun _ => h, fun _ => rfl⟩, ⟨fun hx => ?_, fun hn => absurd h hn⟩, ?_⟩
    · obtain ⟨x, hx⟩ := hx
      cases hx
    · intro e he
      have he2 : (Except.error Error.DataTooShort : Except Error α) = Except.error e := he
      have he3 : e = Error.DataTooShort := by
        injection he2 with he2
        exact he2.symm
      exact ⟨he3, rfl, rfl, PopsServe_self b⟩
  · rw [if_neg h]
    refine ⟨⟨fun hx => ?_, fun hc => absurd hc h⟩, ⟨fun _ => h, fun _ => ⟨v, rfl⟩⟩, ?_⟩
    · cases hx
    · intro e he
      cases he

/-- C31: for every buffer and every pop operation of width n >= 0 (`PopUint8/16/24/32`
with n = 1/2/3/4, `PopString(n)`, `PopSlice(n)`), the operation fails with
`DataTooShort` if and only if fewer than n bytes remain, and succeeds otherwise; on
every failure the error is `DataTooShort` and the buffer after the call is the buffer
before it (same contents and `Len`), so that every later pop that fits succeeds on the
same bytes. -/
theorem Pop_error_iff (b : ByteBuffer) (n : Nat) :
    (((b.PopUint8).1 = Except.error Error.DataTooShort ↔ b.Len < 1) ∧
      ((∃ x, (b.PopUint8).1 = Except.ok x) ↔ ¬ b.Len < 1) ∧
      (∀ e, (b.PopUint8).1 = Except.error e →
        e = Error.DataTooShort ∧ (b.PopUint8).2 = b ∧ (b.PopUint8).2.Len = b.Len ∧
        PopsServe (b.PopUint8).2 b.b)) ∧
    (((b.PopUint16).1 = Except.error Error.DataTooShort ↔ b.Len < 2) ∧
      ((∃ x, (b.PopUint16).1 = Except.ok x) ↔ ¬ b.Len < 2) ∧
      (∀ e, (b.PopUint16).1 = Except.error e →
        e = Error.DataTooShort ∧ (b.PopUint16).2 = b ∧ (b.PopUint16).2.Len = b.Len ∧
        PopsServe (b.PopUint16).2 b.b)) ∧
    (((b.PopUint24).1 = Except.error Error.DataTooShort ↔ b.Len < 3) ∧
      ((∃ x, (b.PopUint24).1 = Except.ok x) ↔ ¬ b.Len < 3) ∧
      (∀ e, (b.PopUint24).1 = Except.error e →
        e = Error.DataTooShort ∧ (b.PopUint24).2 = b ∧ (b.PopUint24).2.Len = b.Len ∧
        PopsServe (b.PopUint24).2 b.b)) ∧
    (((b.PopUint32).1 = Except.error Error.DataTooShort ↔ b.Len < 4) ∧
      ((∃ x, (b.PopUint32).1 = Except.ok x) ↔ ¬ b.Len < 4) ∧
      (∀ e, (b.PopUint32).1 = Except.error e →
        e = Error.DataTooShort ∧ (b.PopUint32).2 = b ∧ (b.PopUint32).2.Len = b.Len ∧
        PopsServe (b.PopUint32).2 b.b)) ∧
    (((b.PopString (n : Int)).1 = Except.error Error.DataTooShort ↔ b.Len < n) ∧
      ((∃ x, (b.PopString (n : Int)).1 = Except.ok x) ↔ ¬ b.Len < n) ∧
      (∀ e, (b.PopString (n : Int)).1 = Except.error e →
        e = Error.DataTooShort ∧ (b.PopString (n : Int)).2 = b ∧
        (b.PopString (n : Int)).2.Len = b.Len ∧
        PopsServe (b.PopString (n : Int)).2 b.b)) ∧
    (((b.PopSlice (n : Int)).1 = Except.error Error.DataTooShort ↔ b.Len < n) ∧
      ((∃ x, (b.PopSlice (n : Int)).1 = Except.ok x) ↔ ¬ b.Len < n) ∧
      (∀ e, (b.PopSlice (n : Int)).1 = Except.error e →
        e = Error.DataTooShort ∧ (b.PopSlice (n : Int)).2 = b ∧
        (b.PopSlice (n : Int)).2.Len = b.Len ∧
        PopsServe (b.PopSlice (n : Int)).2 b.b)) := by
  have hu := PopUint_closed b
  have hs := PopString_PopSlice_closed b n
  exact ⟨pop_closed_spec b _ _ _ _ hu.1, pop_closed_spec b _ _ _ _ hu.2.1,
    pop_closed_spec b _ _ _ _ hu.2.2.1, pop_closed_spec b _ _ _ _ hu.2.2.2,
    pop_closed_spec b _ _ _ _ hs.1, pop_closed_spec b _ _ _ _ hs.2⟩

/-- C32: for every buffer b and every n with 0 <= n <= Len(b), `PopSlice(n)` (and
likewise `PopString(n)`) succeeds, returns exactly the first n bytes of b, and leaves b
holding the remaining Len(b) - n bytes, so that the returned bytes followed by the
remaining bytes equal the original contents. -/
theorem PopSlice_split (b : ByteBuffer) (n : Nat) (h : n ≤ b.Len) :
    b.PopSlice (n : Int) = (Except.ok { b := b.b.take n }, { b := b.b.drop n }) ∧
    b.PopString (n : Int) = (Except.ok (b.b.take n), { b := b.b.drop n }) ∧
    (b.b.take n).length = n ∧
    ByteBuffer.Len { b := b.b.drop n } = b.Len - n ∧
    b.b.take n ++ b.b.drop n = b.b := by
  have hs := PopString_PopSlice_closed b n
  have hlt : ¬ b.Len < n := by omega
  refine ⟨?_, ?_, ?_, ?_, List.take_append_drop n b.b⟩
  · rw [hs.2, if_neg hlt]
  · rw [hs.1, if_neg hlt]
  · exact List.length_take_of_le h
  · exact List.length_drop n b.b

/-- C32 on the bytes 1 .. 5 with n = 2. -/
theorem PopSlice_split_witness :
    ByteBuffer.PopSlice { b := [1, 2, 3, 4, 5] } 2
      = (Except.ok { b := [1, 2] }, { b := [3, 4, 5] }) ∧
    ByteBuffer.PopString { b := [1, 2, 3, 4, 5] } 2
      = (Except.ok [1, 2], { b := [3, 4, 5] }) :=
  ⟨(PopSlice_split { b := [1, 2, 3, 4, 5] } 2 (by decide)).1,
    (PopSlice_split { b := [1, 2, 3, 4, 5] } 2 (by decide)).2.1⟩

/-- C31 on the bytes `[0x34, 0x12]`: `PopUint32` fails with `DataTooShort` and returns
the buffer as it was, and `PopUint16` on the buffer it returns still gives 0x1234 and
leaves an empty buffer. -/
theorem Pop_error_iff_witness :
    (ByteBuffer.PopUint32 { b := [0x34, 0x12] }).1 = Except.error Error.DataTooShort ∧
    (ByteBuffer.PopUint32 { b := [0x34, 0x12] }).2 = { b := [0x34, 0x12] } ∧
    (ByteBuffer.PopUint32 { b := [0x34, 0x12] }).2.PopUint16
      = (Except.ok 0x1234, { b := [] }) :=
  ⟨((Pop_error_iff { b := [0x34, 0x12] } 0).2.2.2.1.1).mpr (by decide),
    ((Pop_error_iff { b := [0x34, 0x12] } 0).2.2.2.1.2.2 Error.DataTooShort rfl).2.1,
    ((Pop_error_iff { b := [0x34, 0x12] } 0).2.2.2.1.2.2 Error.DataTooShort rfl).2.2.2.2.1
      (by decide)⟩

/-- C33: for every Get-Sensor-Reading response payload of at least 2 bytes,
`getSensorReading` reports a present raw reading exactly when config bit 6 is set and
config bit 5 is clear, and in that case the reading equals payload byte 0; in every
other case the reading is absent. -/
theorem getSensorReading_present_iff {σ : Type} (ipmi_send : IpmiSend σ)
    (l : LocalIPMI σ) (number ownerLun : Byte) (payload : List Byte) (c' : σ)
    (hopen : l.close ≠ 1)
    (hs : ipmi_send l.ctx (requestOf (Message.GetSensorReadingReq number ownerLun))
      = (0, 0 :: payload, c'))
    (hlen : 2 ≤ payload.length) :
    ∃ (reading : Option Byte) (states : Option Int),
      l.getSensorReading ipmi_send number ownerLun
        = (Except.ok (reading, states), { l with ctx := c' }) ∧
      (reading.isSome = true ↔
        (((payload.getD 1 0).val >>> 6) &&& 1 = 1 ∧
          ((payload.getD 1 0).val >>> 5) &&& 1 = 0)) ∧
      ((((payload.getD 1 0).val >>> 6) &&& 1 = 1 ∧
          ((payload.getD 1 0).val >>> 5) &&& 1 = 0) →
        reading = some (payload.getD 0 0)) ∧
      (¬ (((payload.getD 1 0).val >>> 6) &&& 1 = 1 ∧
          ((payload.getD 1 0).val >>> 5) &&& 1 = 0) →
        reading = none) := by
  refine ⟨_, _, getSensorReading_frame ipmi_send l number ownerLun payload c' hopen hs hlen,
    ?_, ?_, ?_⟩
  · by_cases h6 : ((payload.getD 1 0).val >>> 6) &&& 1 = 0
    · rw [if_pos h6]
      simp only [Option.isSome_none, Bool.false_eq_true, false_iff]
      omega
    · by_cases h5 : ((payload.getD 1 0).val >>> 5) &&& 1 = 1
      · rw [if_neg h6, if_pos h5]
        simp only [Option.isSome_none, Bool.false_eq_true, false_iff]
        omega
      · rw [if_neg h6, if_neg h5]
        simp only [Option.isSome_some, true_iff]
        have h61 : ((payload.getD 1 0).val >>> 6) &&& 1 ≤ 1 := Nat.and_le_right
        have h51 : ((payload.getD 1 0).val >>> 5) &&& 1 ≤ 1 := Nat.and_le_right
        omega
  · rintro ⟨h6, h5⟩
    rw [if_neg (by omega), if_neg (by omega)]
  · intro hn
    by_cases h6 : ((payload.getD 1 0).val >>> 6) &&& 1 = 0
    · rw [if_pos h6]
    · by_cases h5 : ((payload.getD 1 0).val >>> 5) &&& 1 = 1
      · rw [if_neg h6, if_pos h5]
      · exfalso
        apply hn
        have h61 : ((payload.getD 1 0).val >>> 6) &&& 1 ≤ 1 := Nat.and_le_right
        have h51 : ((payload.getD 1 0).val >>> 5) &&& 1 ≤ 1 := Nat.and_le_right
        omega

/-- C33 on the payload `[0x2A, 0x40]` (bit 6 set, bit 5 clear): the reading is 0x2A. -/
theorem getSensorReading_present_iff_witness :
    ∃ (reading : Option Byte) (states : Option Int),
      LocalIPMI.getSensorReading (constSend [0x00, 0x2A, 0x40]) { ctx := () } 7 0
        = (Except.ok (reading, states), { ctx := () }) ∧
      reading = some 0x2A :=
  match getSensorReading_present_iff (constSend [0x00, 0x2A, 0x40]) { ctx := () } 7 0
      [0x2A, 0x40] () (by decide) rfl (by decide) with
  | ⟨reading, states, hr, _, hp, _⟩ => ⟨reading, states, hr, hp (by decide)⟩

/-- C34: for every recordId and reservationId, `getSdrDataHelper` issues exactly two
Get-SDR requests when both succeed: first (reservationId, recordId, offset 0,
length 5); then (reservationId, id parsed little-endian from bytes 0-1 of the first
chunk, offset = number of bytes returned by the first chunk (as a `uint8`), length =
byte 4 of the first chunk); it returns the first chunk followed by the second chunk as
the record body together with the nextRecordId of the second response, and fails with
`DataTooShort`, after the first request alone, if the first chunk has fewer than 5
bytes. -/
theorem getSdrDataHelper_two_requests {σ : Type} (ipmi_send : IpmiSend σ)
    (l : LocalIPMI σ) (reservationId recordId : Nat) (hdr : List Byte) (b0 b1 : Byte)
    (c1 : σ) (hopen : l.close ≠ 1)
    (h1 : ipmi_send l.ctx (requestOf (Message.GetSdrReq reservationId recordId 0 5))
      = (0, 0 :: b0 :: b1 :: hdr, c1)) :
    (hdr.length < 5 →
      l.getSdrDataHelper ipmi_send recordId reservationId
        = (Except.error Error.DataTooShort, { l with ctx := c1 })) ∧
    (5 ≤ hdr.length →
      ∀ (payload : List Byte) (n0 n1 : Byte) (c2 : σ),
        ipmi_send c1 (requestOf (Message.GetSdrReq reservationId
            ((hdr.getD 0 0).val + 256 * (hdr.getD 1 0).val)
            (Fin.ofNat hdr.length) (hdr.getD 4 0)))
          = (0, 0 :: n0 :: n1 :: payload, c2) →
        l.getSdrDataHelper ipmi_send recordId reservationId
          = (Except.ok (n0.val + 256 * n1.val, hdr ++ payload), { l with ctx := c2 })) ∧
    (hdr.length < 256 → (Fin.ofNat hdr.length : Byte).val = hdr.length) := by
  have hchunk := getSdrChunk_frame ipmi_send l reservationId recordId 0 5 b0 b1 hdr c1
    hopen h1
  refine ⟨?_, ?_, ?_⟩
  · intro hlt
    unfold LocalIPMI.getSdrDataHelper
    rw [hchunk]
    rcases hdr with _ | ⟨a0, _ | ⟨a1, _ | ⟨a2, _ | ⟨a3, _ | ⟨a4, rest⟩⟩⟩⟩⟩
    · rfl
    · rfl
    · simp only [NewByteBuffer, PopUint16_cons]
      rfl
    · simp only [NewByteBuffer, PopUint16_cons, PopUint8_cons]
      rfl
    · simp only [NewByteBuffer, PopUint16_cons, PopUint8_cons]
      rfl
    · simp only [List.length_cons] at hlt
      omega
  · intro hge payload n0 n1 c2 h2
    rcases hdr with _ | ⟨a0, _ | ⟨a1, _ | ⟨a2, _ | ⟨a3, _ | ⟨a4, rest⟩⟩⟩⟩⟩
    · simp at hge
    · simp at hge
    · simp at hge
    · simp at hge
    · simp at hge
    have ha0 := a0.isLt
    have hn0 := n0.isLt
    have hid : a0.val ||| (a1.val <<< 8) = a0.val + 256 * a1.val := by
      rw [or_shiftLeft_eq_add _ _ 8 (by omega)]
      omega
    have hnx : n0.val ||| (n1.val <<< 8) = n0.val + 256 * n1.val := by
      rw [or_shiftLeft_eq_add _ _ 8 (by omega)]
      omega
    have h2' : ipmi_send ({ l with ctx := c1 } : LocalIPMI σ).ctx
        (requestOf (Message.GetSdrReq reservationId (a0.val ||| (a1.val <<< 8))
          (Fin.ofNat (a0 :: a1 :: a2 :: a3 :: a4 :: rest).length) a4))
        = (0, 0 :: n0 :: n1 :: payload, c2) := by
      rw [hid]
      exact h2
    unfold LocalIPMI.getSdrDataHelper
    rw [hchunk]
    simp only [NewByteBuffer, PopUint16_cons, PopUint8_cons]
    rw [getSdrChunk_frame ipmi_send { l with ctx := c1 } reservationId _ _ _ n0 n1 payload
      c2 hopen h2', hnx]
  · intro hlt
    show hdr.length % 256 = hdr.length
    omega

/-- C34 on the repository `fullRepo` with a log of the requests: the read of record
id 0 issues the two Get-SDR requests for ids 0 and 1 and returns the 53 bytes of the
record together with the next record id 2. -/
theorem getSdrDataHelper_two_requests_witness :
    LocalIPMI.getSdrDataHelper (logSend (repoSend [0x00, 0x2A, 0x40] fullRepo))
        { ctx := [] } 0 0x1234
      = (Except.ok (2 + 256 * 0, stubRecordA.take 5 ++ stubRecordA.drop 5),
          { ctx := [requestOf (Message.GetSdrReq 0x1234 0 0 5),
                    requestOf (Message.GetSdrReq 0x1234 1 5 47)] }) :=
  (getSdrDataHelper_two_requests (logSend (repoSend [0x00, 0x2A, 0x40] fullRepo))
    { ctx := [] } 0x1234 0 (stubRecordA.take 5) 0x02 0x00
    [requestOf (Message.GetSdrReq 0x1234 0 0 5)] (by decide) rfl).2.1 (by decide)
    (stubRecordA.drop 5) 0x02 0x00
    [requestOf (Message.GetSdrReq 0x1234 0 0 5), requestOf (Message.GetSdrReq 0x1234 1 5 47)]
    rfl

/-- C35 on a repository of two full sensor records, the second reporting the next
record id 0xFFFF: after that answer `SdrRepositoryEntries` still reads record id
0xFFFF before it stops. Where the driver serves that id (with its last record) the walk
has issued six Get-SDR requests for the two records, the last two after the answer
that reported 0xFFFF; where the driver refuses it, five. Both walks return nil and
report the two records. -/
theorem SdrRepositoryEntries_reads_record_ffff :
    (LocalIPMI.SdrRepositoryEntries ratOps
        (logSend (repoSend [0x00, 0x2A, 0x40] lastRepo)) { ctx := [] } 3).result
      = some (Except.ok ()) ∧
    (LocalIPMI.SdrRepositoryEntries ratOps
        (logSend (repoSend [0x00, 0x2A, 0x40] lastRepo)) { ctx := [] } 3).calls.map
        (fun c => c.name) = [[84, 101, 109, 112], [70, 97, 110, 49]] ∧
    sdrRequestIds (LocalIPMI.SdrRepositoryEntries ratOps
        (logSend (repoSend [0x00, 0x2A, 0x40] lastRepo)) { ctx := [] } 3).handle.ctx
      = [0, 1, 2, 2, 0xffff, 2] ∧
    (LocalIPMI.SdrRepositoryEntries ratOps
        (logSend (repoSend [0x00, 0x2A, 0x40] fullRepo)) { ctx := [] } 3).result
      = some (Except.ok ()) ∧
    sdrRequestIds (LocalIPMI.SdrRepositoryEntries ratOps
        (logSend (repoSend [0x00, 0x2A, 0x40] fullRepo)) { ctx := [] } 3).handle.ctx
      = [0, 1, 2, 2, 0xffff] :=
  ⟨rfl, rfl, rfl, rfl, rfl⟩

/-- C40 on SEL-Info payloads of length 0 and 1: with an empty payload the test
`resp.Date[0] == 0` indexes out of range, with the one-byte payload `[0x00]` the test
`resp.Date[1] == 0` does, and `SelEntries` ends in a run-time panic; with the one-byte
payload `[0x51]` the second index is not evaluated and the walk goes on. -/
theorem SelEntries_short_info_panics :
    (LocalIPMI.SelEntries scriptSend
        { ctx := ([[0x00], selReserveFrame, selEntryFrame 0xffff 3], []) }
        acceptAll 4).result = some (Except.error Error.runtimePanic) ∧
    (LocalIPMI.SelEntries scriptSend
        { ctx := ([[0x00, 0x00], selReserveFrame, selEntryFrame 0xffff 3], []) }
        acceptAll 4).result = some (Except.error Error.runtimePanic) ∧
    (LocalIPMI.SelEntries scriptSend
        { ctx := ([[0x00, 0x51], selReserveFrame, selEntryFrame 0xffff 3], []) }
        acceptAll 4).result = some (Except.ok ()) :=
  ⟨rfl, rfl, rfl⟩

/-- Closed form of `deviceIdString` on a buffer that holds the length byte. -/
theorem deviceIdString_closed (x : Byte) (rest : List Byte) :
    deviceIdString { b := x :: rest }
      = (if rest.length < (x.val &&& 0x1f) then Except.error Error.DataTooShort
         else Except.ok (rest.take (x.val &&& 0x1f), { b := rest.drop (x.val &&& 0x1f) })) := by
  have e : deviceIdString { b := x :: rest }
      = orReturn (ByteBuffer.PopString { b := rest } ((parseIdLen x).val : Int)) := by
    unfold deviceIdString
    rw [PopUint8_cons]
    rfl
  have hle : x.val &&& 0x1f ≤ 0x1f := Nat.and_le_right
  have hv : (parseIdLen x).val = x.val &&& 0x1f := by
    show (x.val &&& 0x1f) % 256 = x.val &&& 0x1f
    omega
  rw [e, hv, (PopString_PopSlice_closed { b := rest } (x.val &&& 0x1f)).1]
  show orReturn (if rest.length < x.val &&& 0x1f then _ else _) = _
  by_cases h : rest.length < x.val &&& 0x1f
  · rw [if_pos h, if_pos h]
    rfl
  · rw [if_neg h, if_neg h]
    rfl

/-- A list with more than `k` elements, dropped at `k`, starts with its element `k`. -/
theorem drop_eq_getD_cons (data : List Byte) (k : Nat) (h : k < data.length) :
    data.drop k = data.getD k 0 :: data.drop (k + 1) := by
  rw [List.drop_eq_getElem_cons h]
  congr 1
  rw [List.getD_eq_getElem?_getD, List.getElem?_eq_getElem h]
  rfl

/-- Closed form of `NewSdrFullSensorRecord`: `DataTooShort` below 48 bytes and when the
device-id string does not fit, else the record built from the bytes at their fixed
offsets. -/
theorem NewSdrFullSensorRecord_closed (data : List Byte) (nextId : Nat) :
    NewSdrFullSensorRecord data nextId
      = (if data.length < 48 then Except.error Error.DataTooShort
         else if data.length < 48 + ((data.getD 47 0).val &&& 0x1f) then
          Except.error Error.DataTooShort
         else Except.ok (fullRecordOfBytes
          { SdrCommonHeader :=
              { id := (data.getD 0 0).val ||| ((data.getD 1 0).val <<< 8),
                version := data.getD 2 0, typ := data.getD 3 0, length := data.getD 4 0 },
            Data := data, nextId := nextId }
          (fun i => data.getD i 0)
          ((data.drop 48).take ((data.getD 47 0).val &&& 0x1f)))) := by
  unfold NewSdrFullSensorRecord
  rw [CommonHeader_closed]
  by_cases h5 : data.length < 5
  · rw [if_pos h5, if_pos (show data.length < 48 from by omega)]
    rfl
  rw [if_neg h5]
  show SdrFullSensorRecord.UnmarshalBinary _ data = _
  rw [UnmarshalBinary_full_closed, if_neg h5]
  by_cases h48 : data.length < 48
  · rw [if_pos h48, if_pos h48]
  rw [if_neg h48, if_neg h48, drop_eq_getD_cons data 47 (by omega), deviceIdString_closed]
  have hlen : (data.drop (47 + 1)).length = data.length - 48 := List.length_drop 48 data
  by_cases hfit : data.length < 48 + ((data.getD 47 0).val &&& 0x1f)
  · rw [if_pos (show (data.drop (47 + 1)).length < ((data.getD 47 0).val &&& 0x1f) from by
      omega), if_pos hfit]
    rfl
  · rw [if_neg (show ¬ (data.drop (47 + 1)).length < ((data.getD 47 0).val &&& 0x1f) from by
      omega), if_neg hfit]
    rfl

/-- C36: for every record body data with `data[3] = 0x01`, the full-sensor decode
(`NewSdrFullSensorRecord` / `UnmarshalBinary`, reached through `SdrCommonFromData`)
succeeds if and only if `len(data) >= 48` and `len(data) >= 48 + (data[47] & 0x1F)`; on
success the device-id string `Id` is exactly the `(data[47] & 0x1F)` bytes
`data[48 .. 48 + (data[47] & 0x1F))`, any trailing bytes are ignored, and on failure
the error is `DataTooShort`. -/
theorem NewSdrFullSensorRecord_succeeds_iff (data : List Byte) (nextId : Nat)
    (h4 : 4 ≤ data.length) (h3 : data.getD 3 0 = 0x01) :
    SdrCommonFromData data nextId = (NewSdrFullSensorRecord data nextId).map SdrCommon.full ∧
    ((∃ r, NewSdrFullSensorRecord data nextId = Except.ok r) ↔
      (48 ≤ data.length ∧ 48 + ((data.getD 47 0).val &&& 0x1F) ≤ data.length)) ∧
    (∀ r, NewSdrFullSensorRecord data nextId = Except.ok r →
      r.Id = (data.drop 48).take ((data.getD 47 0).val &&& 0x1F) ∧
      r.Id.length = (data.getD 47 0).val &&& 0x1F ∧
      ∀ extra : List Byte, ∃ r2,
        NewSdrFullSensorRecord (data ++ extra) nextId = Except.ok r2 ∧ r2.Id = r.Id) ∧
    (∀ e, NewSdrFullSensorRecord data nextId = Except.error e → e = Error.DataTooShort) := by
  have hclosed := NewSdrFullSensorRecord_closed data nextId
  refine ⟨?_, ?_, ?_, ?_⟩
  · unfold SdrCommonFromData
    rw [if_neg (show ¬ data.length < 4 from by omega)]
    simp only [h3]
    rfl
  · rw [hclosed]
    by_cases h48 : data.length < 48
    · rw [if_pos h48]
      constructor
      · rintro ⟨r, hr⟩
        cases hr
      · rintro ⟨h, _⟩
        omega
    · rw [if_neg h48]
      by_cases hfit : data.length < 48 + ((data.getD 47 0).val &&& 0x1f)
      · rw [if_pos hfit]
        constructor
        · rintro ⟨r, hr⟩
          cases hr
        · rintro ⟨_, h⟩
          omega
      · rw [if_neg hfit]
        exact ⟨fun _ => ⟨by omega, by omega⟩, fun _ => ⟨_, rfl⟩⟩
  · intro r hr
    rw [hclosed] at hr
    by_cases h48 : data.length < 48
    · rw [if_pos h48] at hr
      cases hr
    rw [if_neg h48] at hr
    by_cases hfit : data.length < 48 + ((data.getD 47 0).val &&& 0x1f)
    · rw [if_pos hfit] at hr
      cases hr
    rw [if_neg hfit] at hr
    have hrid : r.Id = (data.drop 48).take ((data.getD 47 0).val &&& 0x1f) := by
      rw [← Except.ok.inj hr]
      rfl
    have hdl : (data.drop 48).length = data.length - 48 := List.length_drop 48 data
    refine ⟨hrid, ?_, ?_⟩
    · rw [hrid, List.length_take]
      omega
    · intro extra
      have h47 : (data ++ extra).getD 47 0 = data.getD 47 0 := by
        rw [List.getD_eq_getElem?_getD, List.getD_eq_getElem?_getD,
          List.getElem?_append_left (by omega)]
      have hl : (data ++ extra).length = data.length + extra.length := List.length_append _ _
      have hcl2 := NewSdrFullSensorRecord_closed (data ++ extra) nextId
      rw [if_neg (show ¬ (data ++ extra).length < 48 from by omega), h47,
        if_neg (show ¬ (data ++ extra).length < 48 + ((data.getD 47 0).val &&& 0x1f) from by
          omega)] at hcl2
      refine ⟨_, hcl2, ?_⟩
      rw [hrid]
      show ((data ++ extra).drop 48).take _ = _
      rw [List.drop_append_of_le_length (by omega), List.take_append_of_le_length (by omega)]
  · intro e he
    rw [hclosed] at he
    by_cases h48 : data.length < 48
    · rw [if_pos h48] at he
      exact (Except.error.inj he).symm
    rw [if_neg h48] at he
    by_cases hfit : data.length < 48 + ((data.getD 47 0).val &&& 0x1f)
    · rw [if_pos hfit] at he
      exact (Except.error.inj he).symm
    rw [if_neg hfit] at he
    cases he

/-- C36 on the record body `stubRecordA` (53 bytes, length byte 0xC4, device-id string
"Temp"): the decode succeeds and `Id` is the four bytes after offset 48. -/
theorem NewSdrFullSensorRecord_succeeds_iff_witness :
    (∃ r, NewSdrFullSensorRecord stubRecordA 2 = Except.ok r) ∧
    (48 ≤ stubRecordA.length ∧ 48 + ((stubRecordA.getD 47 0).val &&& 0x1F)
      ≤ stubRecordA.length) ∧
    (stubRecordA.drop 48).take ((stubRecordA.getD 47 0).val &&& 0x1F) = [84, 101, 109, 112] :=
  ⟨(NewSdrFullSensorRecord_succeeds_iff stubRecordA 2 (by decide) rfl).2.1.mpr
      ⟨by decide, by decide⟩,
    ⟨by decide, by decide⟩, rfl⟩

set_option maxRecDepth 100000 in
/-- The masks and shifts of the key, unit and linearization bytes, as byte values. -/
theorem sensorKey_bytes (x : Byte) :
    ((Fin.ofNat (x.val &&& 0x3) : Byte).val = x.val &&& 0x03) ∧
    ((Fin.ofNat (x.val &&& 0x3) : Byte).val ≤ 3) ∧
    ((Fin.ofNat ((x.val >>> 6) &&& 0x3) : Byte).val = x.val >>> 6) ∧
    ((Fin.ofNat ((x.val >>> 6) &&& 0x3) : Byte).val ≤ 3) ∧
    ((Fin.ofNat (x.val &&& 0x7f) : Byte).val = x.val &&& 0x7F) ∧
    ((Fin.ofNat (x.val &&& 0x7f) : Byte).val < 128) := by
  revert x; decide

/-- C37: for every successfully decoded full sensor record, the fields that drive
readings and reporting come from fixed offsets of the record body:
`ownerLun = data[6] & 0x03` (so 0..3), `number = data[7]`, `entityInstance = data[9]`,
`SensorTypeCode() = data[12]`, `UnitCode() = data[21]`,
`analogDataFormat = data[20] >> 6` (so 0..3), and `linearization = data[23] & 0x7F`
(so below 128). -/
theorem NewSdrFullSensorRecord_fixed_offsets (data : List Byte) (nextId : Nat)
    (r : SdrFullSensorRecord) (h : NewSdrFullSensorRecord data nextId = Except.ok r) :
    r.ownerLun.val = (data.getD 6 0).val &&& 0x03 ∧ r.ownerLun.val ≤ 3 ∧
    r.number = data.getD 7 0 ∧
    r.entityInstance = data.getD 9 0 ∧
    r.SensorTypeCode = data.getD 12 0 ∧
    r.UnitCode = data.getD 21 0 ∧
    r.analogDataFormat.val = (data.getD 20 0).val >>> 6 ∧ r.analogDataFormat.val ≤ 3 ∧
    r.linearization.val = (data.getD 23 0).val &&& 0x7F ∧ r.linearization.val < 128 := by
  rw [NewSdrFullSensorRecord_closed] at h
  by_cases h48 : data.length < 48
  · rw [if_pos h48] at h
    cases h
  rw [if_neg h48] at h
  by_cases hfit : data.length < 48 + ((data.getD 47 0).val &&& 0x1f)
  · rw [if_pos hfit] at h
    cases h
  rw [if_neg hfit] at h
  have hr := Except.ok.inj h
  have h6 := sensorKey_bytes (data.getD 6 0)
  have h20 := sensorKey_bytes (data.getD 20 0)
  have h23 := sensorKey_bytes (data.getD 23 0)
  rw [← hr]
  exact ⟨h6.1, h6.2.1, rfl, rfl, rfl, rfl, h20.2.2.1, h20.2.2.2.1, h23.2.2.2.2.1,
    h23.2.2.2.2.2⟩

/-- C37 on the record body `stubRecordA`: owner LUN 0, sensor number 7, entity
instance 1, sensor type code 0x01, unit code 1, analog data format 0, linear. -/
theorem NewSdrFullSensorRecord_fixed_offsets_witness :
    stubFullA.ownerLun.val = (stubRecordA.getD 6 0).val &&& 0x03 ∧
    stubFullA.number = 7 ∧ stubFullA.entityInstance = stubRecordA.getD 9 0 ∧
    stubFullA.SensorTypeCode = stubRecordA.getD 12 0 ∧
    stubFullA.UnitCode = stubRecordA.getD 21 0 ∧
    stubFullA.analogDataFormat.val = (stubRecordA.getD 20 0).val >>> 6 ∧
    stubFullA.linearization.val = (stubRecordA.getD 23 0).val &&& 0x7F :=
  have hw := NewSdrFullSensorRecord_fixed_offsets stubRecordA 2 stubFullA rfl
  ⟨hw.1, hw.2.2.1, hw.2.2.2.1, hw.2.2.2.2.1, hw.2.2.2.2.2.1, hw.2.2.2.2.2.2.1,
    hw.2.2.2.2.2.2.2.2.1⟩

/-- An entry directly behind another one that the predicate treats alike is never
found: the search is that of the list without it. -/
theorem find?_shadowed {α : Type} (p : α → Bool) (pre post : List α) (a b : α)
    (h : p b = p a) :
    (pre ++ a :: b :: post).find? p = (pre ++ a :: post).find? p := by
  rw [List.find?_append, List.find?_append]
  congr 1
  cases hpa : p a
  · rw [List.find?_cons_of_neg _ (by simp [hpa]),
      List.find?_cons_of_neg _ (by simp [h, hpa]),
      List.find?_cons_of_neg _ (by simp [hpa])]
  · rw [List.find?_cons_of_pos _ hpa, List.find?_cons_of_pos _ hpa]

/-- Two predicates that agree on the elements of a list find the same element. -/
theorem find?_congr_mem {α : Type} (p q : α → Bool) :
    ∀ l : List α, (∀ x ∈ l, p x = q x) → l.find? p = l.find? q := by
  intro l
  induction l with
  | nil => intro _; rfl
  | cons a l ih =>
    intro h
    rw [List.find?_cons, List.find?_cons, h a (List.mem_cons_self a l),
      ih (fun x hx => h x (List.mem_cons_of_mem a hx))]

/-- A search in a list none of whose entries has the text `d` does not return an entry
with the text `d`. -/
theorem find?_desc_ne (l : List EventSensorType) (p : EventSensorType → Bool) (d : String)
    (h : ∀ x ∈ l, x.Desc ≠ d) :
    (l.find? p).map (fun e => e.Desc) ≠ some d := by
  cases hf : l.find? p with
  | none => intro hc; cases hc
  | some e =>
    intro hc
    have hd : e.Desc = d := Option.some.inj hc
    exact h e (List.mem_of_find?_eq_some hf) hd

set_option maxRecDepth 100000 in
/-- Where the text "Power Supply Inactive" occurs in the three event tables: once, in
the sensor-specific table, directly behind the entry "Config Error" of the same code,
offset and data. -/
theorem powerSupplyInactive_position :
    sensorSpecificEventTypes
      = sensorSpecificEventTypes.take 37
        ++ EventSensorType.mk 0x08 0x06 0xff "Config Error"
        :: EventSensorType.mk 0x08 0x06 0xff "Power Supply Inactive"
        :: sensorSpecificEventTypes.drop 39 ∧
    (∀ x ∈ sensorSpecificEventTypes.take 37
        ++ EventSensorType.mk 0x08 0x06 0xff "Config Error"
        :: sensorSpecificEventTypes.drop 39, x.Desc ≠ "Power Supply Inactive") ∧
    (∀ x ∈ genericEventTypes, x.Desc ≠ "Power Supply Inactive") ∧
    (∀ x ∈ oemKontronEventTypes, x.Desc ≠ "Power Supply Inactive") := by
  refine ⟨by decide, by decide, by decide, by decide⟩

/-- C38: for every sensorType, eventType, oemId and event data, `GetEventSensorType`
(via `StandardSpecSelRec.GetEventSensorType`) never returns the descriptor with text
"Power Supply Inactive": the table entry {0x08, 0x06, 0xFF, "Power Supply Inactive"}
is shadowed by the preceding entry {0x08, 0x06, 0xFF, "Config Error"} with the same
code, offset and wildcard data. -/
theorem GetEventSensorType_never_power_supply_inactive (s : StandardSpecSelRec)
    (oem : Nat) :
    (s.GetEventSensorType oem).map (fun e => e.Desc) ≠ some "Power Supply Inactive" ∧
    sensorSpecificEventTypes
      = sensorSpecificEventTypes.take 37
        ++ EventSensorType.mk 0x08 0x06 0xff "Config Error"
        :: EventSensorType.mk 0x08 0x06 0xff "Power Supply Inactive"
        :: sensorSpecificEventTypes.drop 39 := by
  obtain ⟨hsplit, hspec, hgen, hkon⟩ := powerSupplyInactive_position
  refine ⟨?_, hsplit⟩
  have hfind : s.GetEventSensorType oem
      = (eventTable s.SensorType s.EventType oem).find? (fun e =>
          e.Code == eventKey s.SensorType s.EventType &&
          (if e.Offset = (Fin.ofNat ((s.EventData.getD 0 0).val &&& 0xf) : Byte) ∧
              (e.Data = 0xff ∨
                ((Fin.ofNat ((s.EventData.getD 0 0).val &&& 0xc0) : Byte) ≠ 0 ∧
                  e.Data = s.EventData.getD 1 0)) then true else false)) := by
    unfold StandardSpecSelRec.GetEventSensorType
    exact GetEventSensorType_eq_find _ _ _ _
  rw [hfind]
  unfold eventTable
  split
  · split
    · exact find?_desc_ne _ _ _ hkon
    · have hsh := find?_shadowed (fun e : EventSensorType =>
          e.Code == eventKey s.SensorType s.EventType &&
          (if e.Offset = (Fin.ofNat ((s.EventData.getD 0 0).val &&& 0xf) : Byte) ∧
              (e.Data = 0xff ∨
                ((Fin.ofNat ((s.EventData.getD 0 0).val &&& 0xc0) : Byte) ≠ 0 ∧
                  e.Data = s.EventData.getD 1 0)) then true else false))
        (sensorSpecificEventTypes.take 37) (sensorSpecificEventTypes.drop 39)
        (EventSensorType.mk 0x08 0x06 0xff "Config Error")
        (EventSensorType.mk 0x08 0x06 0xff "Power Supply Inactive") rfl
      rw [← hsplit] at hsh
      rw [hsh]
      exact find?_desc_ne _ _ _ hspec
  · exact find?_desc_ne _ _ _ hgen

/-- C38 on a power-supply event with offset 6 and no data byte: the lookup returns
"Config Error", not "Power Supply Inactive". -/
theorem GetEventSensorType_never_power_supply_inactive_witness :
    (StandardSpecSelRec.GetEventSensorType
        { Timestamp := 0, GenId := 0, EvmRev := 0, SensorType := 0x08, SensorNum := 0,
          EventType := 0x6f, EventDir := 0, EventData := [0x06, 0xff, 0xff] } 0).map
      (fun e => e.Desc) ≠ some "Power Supply Inactive" ∧
    (StandardSpecSelRec.GetEventSensorType
        { Timestamp := 0, GenId := 0, EvmRev := 0, SensorType := 0x08, SensorNum := 0,
          EventType := 0x6f, EventDir := 0, EventData := [0x06, 0xff, 0xff] } 0).map
      (fun e => e.Desc) = some "Config Error" :=
  ⟨(GetEventSensorType_never_power_supply_inactive
      { Timestamp := 0, GenId := 0, EvmRev := 0, SensorType := 0x08, SensorNum := 0,
        EventType := 0x6f, EventDir := 0, EventData := [0x06, 0xff, 0xff] } 0).1, rfl⟩

set_option maxRecDepth 100000 in
/-- The entries of code 0xF0: none in the OEM-Kontron table; in the sensor-specific
table all with the wildcard data 0xFF, and the first one of offset i, for i from 0 to
7, is "Transition to M0" to "Transition to M7". -/
theorem hotSwap_entries :
    (∀ x ∈ oemKontronEventTypes, x.Code ≠ 0xF0) ∧
    (∀ x ∈ sensorSpecificEventTypes, x.Code = 0xF0 → x.Data = 0xff) ∧
    (∀ i : Fin 8,
      sensorSpecificEventTypes.find? (fun x =>
          x.Code == 0xF0 && decide (x.Offset = (Fin.ofNat i.val : Byte)))
        = some (EventSensorType.mk 0xF0 (Fin.ofNat i.val) 0xFF
            (["Transition to M0", "Transition to M1", "Transition to M2",
              "Transition to M3", "Transition to M4", "Transition to M5",
              "Transition to M6", "Transition to M7"].getD i.val ""))) := by
  refine ⟨by decide, by decide, by decide⟩

/-- C39: for `oemId = 15000`, `eventType = 0x6F` and `sensorType = 0xF0`,
`GetEventSensorType` returns nil for every event data (the OEM-Kontron table has no
entry with code 0xF0), whereas for any other oemId the same event with offset 0..7
resolves to the "Transition to M0".."Transition to M7" entries of the generic
sensor-specific table. -/
theorem GetEventSensorType_hot_swap (s : StandardSpecSelRec) (oem : Nat)
    (hst : s.SensorType = 0xF0) (het : s.EventType = 0x6f) :
    s.GetEventSensorType 15000 = none ∧
    (∀ x ∈ oemKontronEventTypes, x.Code ≠ 0xF0) ∧
    (oem ≠ 15000 → (s.EventData.getD 0 0).val &&& 0xf ≤ 7 →
      s.GetEventSensorType oem
        = some (EventSensorType.mk 0xF0 (Fin.ofNat ((s.EventData.getD 0 0).val &&& 0xf)) 0xFF
            (["Transition to M0", "Transition to M1", "Transition to M2",
              "Transition to M3", "Transition to M4", "Transition to M5",
              "Transition to M6", "Transition to M7"].getD
                ((s.EventData.getD 0 0).val &&& 0xf) ""))) := by
  obtain ⟨hkon, hdata, hM⟩ := hotSwap_entries
  have hfind : ∀ o : Nat, s.GetEventSensorType o
      = (eventTable 0xF0 0x6f o).find? (fun e =>
          e.Code == 0xF0 &&
          (if e.Offset = (Fin.ofNat ((s.EventData.getD 0 0).val &&& 0xf) : Byte) ∧
              (e.Data = 0xff ∨
                ((Fin.ofNat ((s.EventData.getD 0 0).val &&& 0xc0) : Byte) ≠ 0 ∧
                  e.Data = s.EventData.getD 1 0)) then true else false)) := by
    intro o
    unfold StandardSpecSelRec.GetEventSensorType
    rw [GetEventSensorType_eq_find, hst, het]
    rfl
  refine ⟨?_, hkon, ?_⟩
  · rw [hfind 15000]
    have ht : eventTable 0xF0 0x6f 15000 = oemKontronEventTypes := by decide
    rw [ht, List.find?_eq_none]
    intro x hx hp
    have hc : (x.Code == 0xF0) = true := (Bool.and_eq_true _ _ ▸ hp).1
    exact hkon x hx (beq_iff_eq.mp hc)
  · intro hoem hoff
    rw [hfind oem]
    have ht : eventTable 0xF0 0x6f oem = sensorSpecificEventTypes := by
      unfold eventTable
      rw [if_pos rfl, if_neg (fun hc => hoem hc.2.2)]
    rw [ht]
    have hcongr := find?_congr_mem
      (fun e : EventSensorType =>
        e.Code == 0xF0 &&
        (if e.Offset = (Fin.ofNat ((s.EventData.getD 0 0).val &&& 0xf) : Byte) ∧
            (e.Data = 0xff ∨
              ((Fin.ofNat ((s.EventData.getD 0 0).val &&& 0xc0) : Byte) ≠ 0 ∧
                e.Data = s.EventData.getD 1 0)) then true else false))
      (fun x : EventSensorType =>
        x.Code == 0xF0 &&
        decide (x.Offset = (Fin.ofNat ((s.EventData.getD 0 0).val &&& 0xf) : Byte)))
      sensorSpecificEventTypes
      (by
        intro x hx
        by_cases hc : x.Code = 0xF0
        · have hd : x.Data = 0xff := hdata x hx hc
          by_cases hoffx : x.Offset
              = (Fin.ofNat ((s.EventData.getD 0 0).val &&& 0xf) : Byte)
          · simp [hc, hd, hoffx]
          · simp [hc, hd, hoffx]
        · have hb : (x.Code == 0xF0) = false := by simpa using hc
          simp only [hb, Bool.false_and])
    rw [hcongr]
    exact hM ⟨(s.EventData.getD 0 0).val &&& 0xf, by omega⟩

/-- C39 on a hot-swap event with first event-data byte 0x03: nil for `oemId = 15000`,
"Transition to M3" for `oemId = 0`. -/
theorem GetEventSensorType_hot_swap_witness :
    StandardSpecSelRec.GetEventSensorType
        { Timestamp := 0, GenId := 0, EvmRev := 0, SensorType := 0xF0, SensorNum := 0,
          EventType := 0x6f, EventDir := 0, EventData := [0x03, 0x00, 0x00] } 15000
      = none ∧
    StandardSpecSelRec.GetEventSensorType
        { Timestamp := 0, GenId := 0, EvmRev := 0, SensorType := 0xF0, SensorNum := 0,
          EventType := 0x6f, EventDir := 0, EventData := [0x03, 0x00, 0x00] } 0
      = some (EventSensorType.mk 0xF0 0x03 0xFF "Transition to M3") :=
  have hw := GetEventSensorType_hot_swap
    { Timestamp := 0, GenId := 0, EvmRev := 0, SensorType := 0xF0, SensorNum := 0,
      EventType := 0x6f, EventDir := 0, EventData := [0x03, 0x00, 0x00] } 0 rfl rfl
  ⟨hw.1, hw.2.2 (by decide) (by decide)⟩

end Goipmi
